import Mathlib

/-!
Verification development for the WhatsApp options-trading agent.

The Python sources are shallowly embedded as executable Lean definitions:

* `parser.py`   — command parsing (regular-expression grammar over normalized text);
* `risk_gate.py` — pre-trade risk checks;
* `angel_client.py` — broker-client order construction, squareoff-all and
  squareoff-leg position matching, token resolution;
* `main.py`     — the per-message intent dispatch (STATUS short-circuit).

Strings are modelled as `List Char`.  Python's Unicode-aware character
classes are embedded from the tables of the CPython runtime (3.11) that runs
this repository: the whitespace class shared by regex `\s` and `str.strip`
and the regex digit class `\d` (Unicode category Nd, with the decimal values
`int()` assigns) are code-point range tables, and `str.upper()` is the full
Unicode case mapping (explicit a-z arithmetic on ASCII, a generated table of
every non-ASCII mapping — including the one-to-many ones — elsewhere).

Broker calls are effectful in the source; they are embedded by passing the
broker's response behaviour as an explicit oracle argument, and (where a claim
is about how many times the broker is invoked) by instrumenting the embedding
with an invocation counter.
-/

/-- Membership of a character in a list of inclusive code-point ranges — the
form in which Python's Unicode character classes are embedded. -/
def inRanges (rs : List (Nat × Nat)) (c : Char) : Bool :=
  rs.any (fun r => r.1 ≤ c.toNat && c.toNat ≤ r.2)

/-- The code points matched by the `\s` class of Python `re` (str patterns)
and stripped by `str.strip()` — both use the same Unicode whitespace
predicate.  Table generated from CPython 3.11. -/
def SPACE_RANGES : List (Nat × Nat) :=
  [(9, 13), (28, 32), (133, 133), (160, 160), (5760, 5760), (8192, 8202),
   (8232, 8233), (8239, 8239), (8287, 8287), (12288, 12288)]

/-- Whitespace as matched by the parser's regex `\s` and by `str.strip`. -/
def pyIsSpace (c : Char) : Bool :=
  inRanges SPACE_RANGES c

/-- Python `str.strip()`: remove leading and trailing whitespace. -/
def stripChars (cs : List Char) : List Char :=
  ((cs.dropWhile pyIsSpace).reverse.dropWhile pyIsSpace).reverse

/-- The ASCII portion of Python's `str.upper()`: exactly the letters a-z map,
each to its uppercase. -/
def UPPER_MAP : List (Char × Char) :=
  [('a', 'A'), ('b', 'B'), ('c', 'C'), ('d', 'D'), ('e', 'E'), ('f', 'F'),
   ('g', 'G'), ('h', 'H'), ('i', 'I'), ('j', 'J'), ('k', 'K'), ('l', 'L'),
   ('m', 'M'), ('n', 'N'), ('o', 'O'), ('p', 'P'), ('q', 'Q'), ('r', 'R'),
   ('s', 'S'), ('t', 'T'), ('u', 'U'), ('v', 'V'), ('w', 'W'), ('x', 'X'),
   ('y', 'Y'), ('z', 'Z')]

/-- Python `str.upper()` on one ASCII character. -/
def pyUpperCharA (c : Char) : Char :=
  (UPPER_MAP.lookup c).getD c

/-- The non-ASCII portion of Python's full Unicode `str.upper()`: every code
point of at least 128 whose uppercase differs from itself, with its (possibly
multi-character) uppercase.  Generated from CPython 3.11. -/
def UPPER_MAP_SUPP : List (Char × List Char) :=
  [   (Char.ofNat 181, [Char.ofNat 924]),
   (Char.ofNat 223, [Char.ofNat 83, Char.ofNat 83]),
   (Char.ofNat 224, [Char.ofNat 192]),
   (Char.ofNat 225, [Char.ofNat 193]),
   (Char.ofNat 226, [Char.ofNat 194]),
   (Char.ofNat 227, [Char.ofNat 195]),
   (Char.ofNat 228, [Char.ofNat 196]),
   (Char.ofNat 229, [Char.ofNat 197]),
   (Char.ofNat 230, [Char.ofNat 198]),
   (Char.ofNat 231, [Char.ofNat 199]),
   (Char.ofNat 232, [Char.ofNat 200]),
   (Char.ofNat 233, [Char.ofNat 201]),
   (Char.ofNat 234, [Char.ofNat 202]),
   (Char.ofNat 235, [Char.ofNat 203]),
   (Char.ofNat 236, [Char.ofNat 204]),
   (Char.ofNat 237, [Char.ofNat 205]),
   (Char.ofNat 238, [Char.ofNat 206]),
   (Char.ofNat 239, [Char.ofNat 207]),
   (Char.ofNat 240, [Char.ofNat 208]),
   (Char.ofNat 241, [Char.ofNat 209]),
   (Char.ofNat 242, [Char.ofNat 210]),
   (Char.ofNat 243, [Char.ofNat 211]),
   (Char.ofNat 244, [Char.ofNat 212]),
   (Char.ofNat 245, [Char.ofNat 213]),
   (Char.ofNat 246, [Char.ofNat 214]),
   (Char.ofNat 248, [Char.ofNat 216]),
   (Char.ofNat 249, [Char.ofNat 217]),
   (Char.ofNat 250, [Char.ofNat 218]),
   (Char.ofNat 251, [Char.ofNat 219]),
   (Char.ofNat 252, [Char.ofNat 220]),
   (Char.ofNat 253, [Char.ofNat 221]),
   (Char.ofNat 254, [Char.ofNat 222]),
   (Char.ofNat 255, [Char.ofNat 376]),
   (Char.ofNat 257, [Char.ofNat 256]),
   (Char.ofNat 259, [Char.ofNat 258]),
   (Char.ofNat 261, [Char.ofNat 260]),
   (Char.ofNat 263, [Char.ofNat 262]),
   (Char.ofNat 265, [Char.ofNat 264]),
   (Char.ofNat 267, [Char.ofNat 266]),
   (Char.ofNat 269, [Char.ofNat 268]),
   (Char.ofNat 271, [Char.ofNat 270]),
   (Char.ofNat 273, [Char.ofNat 272]),
   (Char.ofNat 275, [Char.ofNat 274]),
   (Char.ofNat 277, [Char.ofNat 276]),
   (Char.ofNat 279, [Char.ofNat 278]),
   (Char.ofNat 281, [Char.ofNat 280]),
   (Char.ofNat 283, [Char.ofNat 282]),
   (Char.ofNat 285, [Char.ofNat 284]),
   (Char.ofNat 287, [Char.ofNat 286]),
   (Char.ofNat 289, [Char.ofNat 288]),
   (Char.ofNat 291, [Char.ofNat 290]),
   (Char.ofNat 293, [Char.ofNat 292]),
   (Char.ofNat 295, [Char.ofNat 294]),
   (Char.ofNat 297, [Char.ofNat 296]),
   (Char.ofNat 299, [Char.ofNat 298]),
   (Char.ofNat 301, [Char.ofNat 300]),
   (Char.ofNat 303, [Char.ofNat 302]),
   (Char.ofNat 305, [Char.ofNat 73]),
   (Char.ofNat 307, [Char.ofNat 306]),
   (Char.ofNat 309, [Char.ofNat 308]),
   (Char.ofNat 311, [Char.ofNat 310]),
   (Char.ofNat 314, [Char.ofNat 313]),
   (Char.ofNat 316, [Char.ofNat 315]),
   (Char.ofNat 318, [Char.ofNat 317]),
   (Char.ofNat 320, [Char.ofNat 319]),
   (Char.ofNat 322, [Char.ofNat 321]),
   (Char.ofNat 324, [Char.ofNat 323]),
   (Char.ofNat 326, [Char.ofNat 325]),
   (Char.ofNat 328, [Char.ofNat 327]),
   (Char.ofNat 329, [Char.ofNat 700, Char.ofNat 78]),
   (Char.ofNat 331, [Char.ofNat 330]),
   (Char.ofNat 333, [Char.ofNat 332]),
   (Char.ofNat 335, [Char.ofNat 334]),
   (Char.ofNat 337, [Char.ofNat 336]),
   (Char.ofNat 339, [Char.ofNat 338]),
   (Char.ofNat 341, [Char.ofNat 340]),
   (Char.ofNat 343, [Char.ofNat 342]),
   (Char.ofNat 345, [Char.ofNat 344]),
   (Char.ofNat 347, [Char.ofNat 346]),
   (Char.ofNat 349, [Char.ofNat 348]),
   (Char.ofNat 351, [Char.ofNat 350]),
   (Char.ofNat 353, [Char.ofNat 352]),
   (Char.ofNat 355, [Char.ofNat 354]),
   (Char.ofNat 357, [Char.ofNat 356]),
   (Char.ofNat 359, [Char.ofNat 358]),
   (Char.ofNat 361, [Char.ofNat 360]),
   (Char.ofNat 363, [Char.ofNat 362]),
   (Char.ofNat 365, [Char.ofNat 364]),
   (Char.ofNat 367, [Char.ofNat 366]),
   (Char.ofNat 369, [Char.ofNat 368]),
   (Char.ofNat 371, [Char.ofNat 370]),
   (Char.ofNat 373, [Char.ofNat 372]),
   (Char.ofNat 375, [Char.ofNat 374]),
   (Char.ofNat 378, [Char.ofNat 377]),
   (Char.ofNat 380, [Char.ofNat 379]),
   (Char.ofNat 382, [Char.ofNat 381]),
   (Char.ofNat 383, [Char.ofNat 83]),
   (Char.ofNat 384, [Char.ofNat 579]),
   (Char.ofNat 387, [Char.ofNat 386]),
   (Char.ofNat 389, [Char.ofNat 388]),
   (Char.ofNat 392, [Char.ofNat 391]),
   (Char.ofNat 396, [Char.ofNat 395]),
   (Char.ofNat 402, [Char.ofNat 401]),
   (Char.ofNat 405, [Char.ofNat 502]),
   (Char.ofNat 409, [Char.ofNat 408]),
   (Char.ofNat 410, [Char.ofNat 573]),
   (Char.ofNat 414, [Char.ofNat 544]),
   (Char.ofNat 417, [Char.ofNat 416]),
   (Char.ofNat 419, [Char.ofNat 418]),
   (Char.ofNat 421, [Char.ofNat 420]),
   (Char.ofNat 424, [Char.ofNat 423]),
   (Char.ofNat 429, [Char.ofNat 428]),
   (Char.ofNat 432, [Char.ofNat 431]),
   (Char.ofNat 436, [Char.ofNat 435]),
   (Char.ofNat 438, [Char.ofNat 437]),
   (Char.ofNat 441, [Char.ofNat 440]),
   (Char.ofNat 445, [Char.ofNat 444]),
   (Char.ofNat 447, [Char.ofNat 503]),
   (Char.ofNat 453, [Char.ofNat 452]),
   (Char.ofNat 454, [Char.ofNat 452]),
   (Char.ofNat 456, [Char.ofNat 455]),
   (Char.ofNat 457, [Char.ofNat 455]),
   (Char.ofNat 459, [Char.ofNat 458]),
   (Char.ofNat 460, [Char.ofNat 458]),
   (Char.ofNat 462, [Char.ofNat 461]),
   (Char.ofNat 464, [Char.ofNat 463]),
   (Char.ofNat 466, [Char.ofNat 465]),
   (Char.ofNat 468, [Char.ofNat 467]),
   (Char.ofNat 470, [Char.ofNat 469]),
   (Char.ofNat 472, [Char.ofNat 471]),
   (Char.ofNat 474, [Char.ofNat 473]),
   (Char.ofNat 476, [Char.ofNat 475]),
   (Char.ofNat 477, [Char.ofNat 398]),
   (Char.ofNat 479, [Char.ofNat 478]),
   (Char.ofNat 481, [Char.ofNat 480]),
   (Char.ofNat 483, [Char.ofNat 482]),
   (Char.ofNat 485, [Char.ofNat 484]),
   (Char.ofNat 487, [Char.ofNat 486]),
   (Char.ofNat 489, [Char.ofNat 488]),
   (Char.ofNat 491, [Char.ofNat 490]),
   (Char.ofNat 493, [Char.ofNat 492]),
   (Char.ofNat 495, [Char.ofNat 494]),
   (Char.ofNat 496, [Char.ofNat 74, Char.ofNat 780]),
   (Char.ofNat 498, [Char.ofNat 497]),
   (Char.ofNat 499, [Char.ofNat 497]),
   (Char.ofNat 501, [Char.ofNat 500]),
   (Char.ofNat 505, [Char.ofNat 504]),
   (Char.ofNat 507, [Char.ofNat 506]),
   (Char.ofNat 509, [Char.ofNat 508]),
   (Char.ofNat 511, [Char.ofNat 510]),
   (Char.ofNat 513, [Char.ofNat 512]),
   (Char.ofNat 515, [Char.ofNat 514]),
   (Char.ofNat 517, [Char.ofNat 516]),
   (Char.ofNat 519, [Char.ofNat 518]),
   (Char.ofNat 521, [Char.ofNat 520]),
   (Char.ofNat 523, [Char.ofNat 522]),
   (Char.ofNat 525, [Char.ofNat 524]),
   (Char.ofNat 527, [Char.ofNat 526]),
   (Char.ofNat 529, [Char.ofNat 528]),
   (Char.ofNat 531, [Char.ofNat 530]),
   (Char.ofNat 533, [Char.ofNat 532]),
   (Char.ofNat 535, [Char.ofNat 534]),
   (Char.ofNat 537, [Char.ofNat 536]),
   (Char.ofNat 539, [Char.ofNat 538]),
   (Char.ofNat 541, [Char.ofNat 540]),
   (Char.ofNat 543, [Char.ofNat 542]),
   (Char.ofNat 547, [Char.ofNat 546]),
   (Char.ofNat 549, [Char.ofNat 548]),
   (Char.ofNat 551, [Char.ofNat 550]),
   (Char.ofNat 553, [Char.ofNat 552]),
   (Char.ofNat 555, [Char.ofNat 554]),
   (Char.ofNat 557, [Char.ofNat 556]),
   (Char.ofNat 559, [Char.ofNat 558]),
   (Char.ofNat 561, [Char.ofNat 560]),
   (Char.ofNat 563, [Char.ofNat 562]),
   (Char.ofNat 572, [Char.ofNat 571]),
   (Char.ofNat 575, [Char.ofNat 11390]),
   (Char.ofNat 576, [Char.ofNat 11391]),
   (Char.ofNat 578, [Char.ofNat 577]),
   (Char.ofNat 583, [Char.ofNat 582]),
   (Char.ofNat 585, [Char.ofNat 584]),
   (Char.ofNat 587, [Char.ofNat 586]),
   (Char.ofNat 589, [Char.ofNat 588]),
   (Char.ofNat 591, [Char.ofNat 590]),
   (Char.ofNat 592, [Char.ofNat 11375]),
   (Char.ofNat 593, [Char.ofNat 11373]),
   (Char.ofNat 594, [Char.ofNat 11376]),
   (Char.ofNat 595, [Char.ofNat 385]),
   (Char.ofNat 596, [Char.ofNat 390]),
   (Char.ofNat 598, [Char.ofNat 393]),
   (Char.ofNat 599, [Char.ofNat 394]),
   (Char.ofNat 601, [Char.ofNat 399]),
   (Char.ofNat 603, [Char.ofNat 400]),
   (Char.ofNat 604, [Char.ofNat 42923]),
   (Char.ofNat 608, [Char.ofNat 403]),
   (Char.ofNat 609, [Char.ofNat 42924]),
   (Char.ofNat 611, [Char.ofNat 404]),
   (Char.ofNat 613, [Char.ofNat 42893]),
   (Char.ofNat 614, [Char.ofNat 42922]),
   (Char.ofNat 616, [Char.ofNat 407]),
   (Char.ofNat 617, [Char.ofNat 406]),
   (Char.ofNat 618, [Char.ofNat 42926]),
   (Char.ofNat 619, [Char.ofNat 11362]),
   (Char.ofNat 620, [Char.ofNat 42925]),
   (Char.ofNat 623, [Char.ofNat 412]),
   (Char.ofNat 625, [Char.ofNat 11374]),
   (Char.ofNat 626, [Char.ofNat 413]),
   (Char.ofNat 629, [Char.ofNat 415]),
   (Char.ofNat 637, [Char.ofNat 11364]),
   (Char.ofNat 640, [Char.ofNat 422]),
   (Char.ofNat 642, [Char.ofNat 42949]),
   (Char.ofNat 643, [Char.ofNat 425]),
   (Char.ofNat 647, [Char.ofNat 42929]),
   (Char.ofNat 648, [Char.ofNat 430]),
   (Char.ofNat 649, [Char.ofNat 580]),
   (Char.ofNat 650, [Char.ofNat 433]),
   (Char.ofNat 651, [Char.ofNat 434]),
   (Char.ofNat 652, [Char.ofNat 581]),
   (Char.ofNat 658, [Char.ofNat 439]),
   (Char.ofNat 669, [Char.ofNat 42930]),
   (Char.ofNat 670, [Char.ofNat 42928]),
   (Char.ofNat 837, [Char.ofNat 921]),
   (Char.ofNat 881, [Char.ofNat 880]),
   (Char.ofNat 883, [Char.ofNat 882]),
   (Char.ofNat 887, [Char.ofNat 886]),
   (Char.ofNat 891, [Char.ofNat 1021]),
   (Char.ofNat 892, [Char.ofNat 1022]),
   (Char.ofNat 893, [Char.ofNat 1023]),
   (Char.ofNat 912, [Char.ofNat 921, Char.ofNat 776, Char.ofNat 769]),
   (Char.ofNat 940, [Char.ofNat 902]),
   (Char.ofNat 941, [Char.ofNat 904]),
   (Char.ofNat 942, [Char.ofNat 905]),
   (Char.ofNat 943, [Char.ofNat 906]),
   (Char.ofNat 944, [Char.ofNat 933, Char.ofNat 776, Char.ofNat 769]),
   (Char.ofNat 945, [Char.ofNat 913]),
   (Char.ofNat 946, [Char.ofNat 914]),
   (Char.ofNat 947, [Char.ofNat 915]),
   (Char.ofNat 948, [Char.ofNat 916]),
   (Char.ofNat 949, [Char.ofNat 917]),
   (Char.ofNat 950, [Char.ofNat 918]),
   (Char.ofNat 951, [Char.ofNat 919]),
   (Char.ofNat 952, [Char.ofNat 920]),
   (Char.ofNat 953, [Char.ofNat 921]),
   (Char.ofNat 954, [Char.ofNat 922]),
   (Char.ofNat 955, [Char.ofNat 923]),
   (Char.ofNat 956, [Char.ofNat 924]),
   (Char.ofNat 957, [Char.ofNat 925]),
   (Char.ofNat 958, [Char.ofNat 926]),
   (Char.ofNat 959, [Char.ofNat 927]),
   (Char.ofNat 960, [Char.ofNat 928]),
   (Char.ofNat 961, [Char.ofNat 929]),
   (Char.ofNat 962, [Char.ofNat 931]),
   (Char.ofNat 963, [Char.ofNat 931]),
   (Char.ofNat 964, [Char.ofNat 932]),
   (Char.ofNat 965, [Char.ofNat 933]),
   (Char.ofNat 966, [Char.ofNat 934]),
   (Char.ofNat 967, [Char.ofNat 935]),
   (Char.ofNat 968, [Char.ofNat 936]),
   (Char.ofNat 969, [Char.ofNat 937]),
   (Char.ofNat 970, [Char.ofNat 938]),
   (Char.ofNat 971, [Char.ofNat 939]),
   (Char.ofNat 972, [Char.ofNat 908]),
   (Char.ofNat 973, [Char.ofNat 910]),
   (Char.ofNat 974, [Char.ofNat 911]),
   (Char.ofNat 976, [Char.ofNat 914]),
   (Char.ofNat 977, [Char.ofNat 920]),
   (Char.ofNat 981, [Char.ofNat 934]),
   (Char.ofNat 982, [Char.ofNat 928]),
   (Char.ofNat 983, [Char.ofNat 975]),
   (Char.ofNat 985, [Char.ofNat 984]),
   (Char.ofNat 987, [Char.ofNat 986]),
   (Char.ofNat 989, [Char.ofNat 988]),
   (Char.ofNat 991, [Char.ofNat 990]),
   (Char.ofNat 993, [Char.ofNat 992]),
   (Char.ofNat 995, [Char.ofNat 994]),
   (Char.ofNat 997, [Char.ofNat 996]),
   (Char.ofNat 999, [Char.ofNat 998]),
   (Char.ofNat 1001, [Char.ofNat 1000]),
   (Char.ofNat 1003, [Char.ofNat 1002]),
   (Char.ofNat 1005, [Char.ofNat 1004]),
   (Char.ofNat 1007, [Char.ofNat 1006]),
   (Char.ofNat 1008, [Char.ofNat 922]),
   (Char.ofNat 1009, [Char.ofNat 929]),
   (Char.ofNat 1010, [Char.ofNat 1017]),
   (Char.ofNat 1011, [Char.ofNat 895]),
   (Char.ofNat 1013, [Char.ofNat 917]),
   (Char.ofNat 1016, [Char.ofNat 1015]),
   (Char.ofNat 1019, [Char.ofNat 1018]),
   (Char.ofNat 1072, [Char.ofNat 1040]),
   (Char.ofNat 1073, [Char.ofNat 1041]),
   (Char.ofNat 1074, [Char.ofNat 1042]),
   (Char.ofNat 1075, [Char.ofNat 1043]),
   (Char.ofNat 1076, [Char.ofNat 1044]),
   (Char.ofNat 1077, [Char.ofNat 1045]),
   (Char.ofNat 1078, [Char.ofNat 1046]),
   (Char.ofNat 1079, [Char.ofNat 1047]),
   (Char.ofNat 1080, [Char.ofNat 1048]),
   (Char.ofNat 1081, [Char.ofNat 1049]),
   (Char.ofNat 1082, [Char.ofNat 1050]),
   (Char.ofNat 1083, [Char.ofNat 1051]),
   (Char.ofNat 1084, [Char.ofNat 1052]),
   (Char.ofNat 1085, [Char.ofNat 1053]),
   (Char.ofNat 1086, [Char.ofNat 1054]),
   (Char.ofNat 1087, [Char.ofNat 1055]),
   (Char.ofNat 1088, [Char.ofNat 1056]),
   (Char.ofNat 1089, [Char.ofNat 1057]),
   (Char.ofNat 1090, [Char.ofNat 1058]),
   (Char.ofNat 1091, [Char.ofNat 1059]),
   (Char.ofNat 1092, [Char.ofNat 1060]),
   (Char.ofNat 1093, [Char.ofNat 1061]),
   (Char.ofNat 1094, [Char.ofNat 1062]),
   (Char.ofNat 1095, [Char.ofNat 1063]),
   (Char.ofNat 1096, [Char.ofNat 1064]),
   (Char.ofNat 1097, [Char.ofNat 1065]),
   (Char.ofNat 1098, [Char.ofNat 1066]),
   (Char.ofNat 1099, [Char.ofNat 1067]),
   (Char.ofNat 1100, [Char.ofNat 1068]),
   (Char.ofNat 1101, [Char.ofNat 1069]),
   (Char.ofNat 1102, [Char.ofNat 1070]),
   (Char.ofNat 1103, [Char.ofNat 1071]),
   (Char.ofNat 1104, [Char.ofNat 1024]),
   (Char.ofNat 1105, [Char.ofNat 1025]),
   (Char.ofNat 1106, [Char.ofNat 1026]),
   (Char.ofNat 1107, [Char.ofNat 1027]),
   (Char.ofNat 1108, [Char.ofNat 1028]),
   (Char.ofNat 1109, [Char.ofNat 1029]),
   (Char.ofNat 1110, [Char.ofNat 1030]),
   (Char.ofNat 1111, [Char.ofNat 1031]),
   (Char.ofNat 1112, [Char.ofNat 1032]),
   (Char.ofNat 1113, [Char.ofNat 1033]),
   (Char.ofNat 1114, [Char.ofNat 1034]),
   (Char.ofNat 1115, [Char.ofNat 1035]),
   (Char.ofNat 1116, [Char.ofNat 1036]),
   (Char.ofNat 1117, [Char.ofNat 1037]),
   (Char.ofNat 1118, [Char.ofNat 1038]),
   (Char.ofNat 1119, [Char.ofNat 1039]),
   (Char.ofNat 1121, [Char.ofNat 1120]),
   (Char.ofNat 1123, [Char.ofNat 1122]),
   (Char.ofNat 1125, [Char.ofNat 1124]),
   (Char.ofNat 1127, [Char.ofNat 1126]),
   (Char.ofNat 1129, [Char.ofNat 1128]),
   (Char.ofNat 1131, [Char.ofNat 1130]),
   (Char.ofNat 1133, [Char.ofNat 1132]),
   (Char.ofNat 1135, [Char.ofNat 1134]),
   (Char.ofNat 1137, [Char.ofNat 1136]),
   (Char.ofNat 1139, [Char.ofNat 1138]),
   (Char.ofNat 1141, [Char.ofNat 1140]),
   (Char.ofNat 1143, [Char.ofNat 1142]),
   (Char.ofNat 1145, [Char.ofNat 1144]),
   (Char.ofNat 1147, [Char.ofNat 1146]),
   (Char.ofNat 1149, [Char.ofNat 1148]),
   (Char.ofNat 1151, [Char.ofNat 1150]),
   (Char.ofNat 1153, [Char.ofNat 1152]),
   (Char.ofNat 1163, [Char.ofNat 1162]),
   (Char.ofNat 1165, [Char.ofNat 1164]),
   (Char.ofNat 1167, [Char.ofNat 1166]),
   (Char.ofNat 1169, [Char.ofNat 1168]),
   (Char.ofNat 1171, [Char.ofNat 1170]),
   (Char.ofNat 1173, [Char.ofNat 1172]),
   (Char.ofNat 1175, [Char.ofNat 1174]),
   (Char.ofNat 1177, [Char.ofNat 1176]),
   (Char.ofNat 1179, [Char.ofNat 1178]),
   (Char.ofNat 1181, [Char.ofNat 1180]),
   (Char.ofNat 1183, [Char.ofNat 1182]),
   (Char.ofNat 1185, [Char.ofNat 1184]),
   (Char.ofNat 1187, [Char.ofNat 1186]),
   (Char.ofNat 1189, [Char.ofNat 1188]),
   (Char.ofNat 1191, [Char.ofNat 1190]),
   (Char.ofNat 1193, [Char.ofNat 1192]),
   (Char.ofNat 1195, [Char.ofNat 1194]),
   (Char.ofNat 1197, [Char.ofNat 1196]),
   (Char.ofNat 1199, [Char.ofNat 1198]),
   (Char.ofNat 1201, [Char.ofNat 1200]),
   (Char.ofNat 1203, [Char.ofNat 1202]),
   (Char.ofNat 1205, [Char.ofNat 1204]),
   (Char.ofNat 1207, [Char.ofNat 1206]),
   (Char.ofNat 1209, [Char.ofNat 1208]),
   (Char.ofNat 1211, [Char.ofNat 1210]),
   (Char.ofNat 1213, [Char.ofNat 1212]),
   (Char.ofNat 1215, [Char.ofNat 1214]),
   (Char.ofNat 1218, [Char.ofNat 1217]),
   (Char.ofNat 1220, [Char.ofNat 1219]),
   (Char.ofNat 1222, [Char.ofNat 1221]),
   (Char.ofNat 1224, [Char.ofNat 1223]),
   (Char.ofNat 1226, [Char.ofNat 1225]),
   (Char.ofNat 1228, [Char.ofNat 1227]),
   (Char.ofNat 1230, [Char.ofNat 1229]),
   (Char.ofNat 1231, [Char.ofNat 1216]),
   (Char.ofNat 1233, [Char.ofNat 1232]),
   (Char.ofNat 1235, [Char.ofNat 1234]),
   (Char.ofNat 1237, [Char.ofNat 1236]),
   (Char.ofNat 1239, [Char.ofNat 1238]),
   (Char.ofNat 1241, [Char.ofNat 1240]),
   (Char.ofNat 1243, [Char.ofNat 1242]),
   (Char.ofNat 1245, [Char.ofNat 1244]),
   (Char.ofNat 1247, [Char.ofNat 1246]),
   (Char.ofNat 1249, [Char.ofNat 1248]),
   (Char.ofNat 1251, [Char.ofNat 1250]),
   (Char.ofNat 1253, [Char.ofNat 1252]),
   (Char.ofNat 1255, [Char.ofNat 1254]),
   (Char.ofNat 1257, [Char.ofNat 1256]),
   (Char.ofNat 1259, [Char.ofNat 1258]),
   (Char.ofNat 1261, [Char.ofNat 1260]),
   (Char.ofNat 1263, [Char.ofNat 1262]),
   (Char.ofNat 1265, [Char.ofNat 1264]),
   (Char.ofNat 1267, [Char.ofNat 1266]),
   (Char.ofNat 1269, [Char.ofNat 1268]),
   (Char.ofNat 1271, [Char.ofNat 1270]),
   (Char.ofNat 1273, [Char.ofNat 1272]),
   (Char.ofNat 1275, [Char.ofNat 1274]),
   (Char.ofNat 1277, [Char.ofNat 1276]),
   (Char.ofNat 1279, [Char.ofNat 1278]),
   (Char.ofNat 1281, [Char.ofNat 1280]),
   (Char.ofNat 1283, [Char.ofNat 1282]),
   (Char.ofNat 1285, [Char.ofNat 1284]),
   (Char.ofNat 1287, [Char.ofNat 1286]),
   (Char.ofNat 1289, [Char.ofNat 1288]),
   (Char.ofNat 1291, [Char.ofNat 1290]),
   (Char.ofNat 1293, [Char.ofNat 1292]),
   (Char.ofNat 1295, [Char.ofNat 1294]),
   (Char.ofNat 1297, [Char.ofNat 1296]),
   (Char.ofNat 1299, [Char.ofNat 1298]),
   (Char.ofNat 1301, [Char.ofNat 1300]),
   (Char.ofNat 1303, [Char.ofNat 1302]),
   (Char.ofNat 1305, [Char.ofNat 1304]),
   (Char.ofNat 1307, [Char.ofNat 1306]),
   (Char.ofNat 1309, [Char.ofNat 1308]),
   (Char.ofNat 1311, [Char.ofNat 1310]),
   (Char.ofNat 1313, [Char.ofNat 1312]),
   (Char.ofNat 1315, [Char.ofNat 1314]),
   (Char.ofNat 1317, [Char.ofNat 1316]),
   (Char.ofNat 1319, [Char.ofNat 1318]),
   (Char.ofNat 1321, [Char.ofNat 1320]),
   (Char.ofNat 1323, [Char.ofNat 1322]),
   (Char.ofNat 1325, [Char.ofNat 1324]),
   (Char.ofNat 1327, [Char.ofNat 1326]),
   (Char.ofNat 1377, [Char.ofNat 1329]),
   (Char.ofNat 1378, [Char.ofNat 1330]),
   (Char.ofNat 1379, [Char.ofNat 1331]),
   (Char.ofNat 1380, [Char.ofNat 1332]),
   (Char.ofNat 1381, [Char.ofNat 1333]),
   (Char.ofNat 1382, [Char.ofNat 1334]),
   (Char.ofNat 1383, [Char.ofNat 1335]),
   (Char.ofNat 1384, [Char.ofNat 1336]),
   (Char.ofNat 1385, [Char.ofNat 1337]),
   (Char.ofNat 1386, [Char.ofNat 1338]),
   (Char.ofNat 1387, [Char.ofNat 1339]),
   (Char.ofNat 1388, [Char.ofNat 1340]),
   (Char.ofNat 1389, [Char.ofNat 1341]),
   (Char.ofNat 1390, [Char.ofNat 1342]),
   (Char.ofNat 1391, [Char.ofNat 1343]),
   (Char.ofNat 1392, [Char.ofNat 1344]),
   (Char.ofNat 1393, [Char.ofNat 1345]),
   (Char.ofNat 1394, [Char.ofNat 1346]),
   (Char.ofNat 1395, [Char.ofNat 1347]),
   (Char.ofNat 1396, [Char.ofNat 1348]),
   (Char.ofNat 1397, [Char.ofNat 1349]),
   (Char.ofNat 1398, [Char.ofNat 1350]),
   (Char.ofNat 1399, [Char.ofNat 1351]),
   (Char.ofNat 1400, [Char.ofNat 1352]),
   (Char.ofNat 1401, [Char.ofNat 1353]),
   (Char.ofNat 1402, [Char.ofNat 1354]),
   (Char.ofNat 1403, [Char.ofNat 1355]),
   (Char.ofNat 1404, [Char.ofNat 1356]),
   (Char.ofNat 1405, [Char.ofNat 1357]),
   (Char.ofNat 1406, [Char.ofNat 1358]),
   (Char.ofNat 1407, [Char.ofNat 1359]),
   (Char.ofNat 1408, [Char.ofNat 1360]),
   (Char.ofNat 1409, [Char.ofNat 1361]),
   (Char.ofNat 1410, [Char.ofNat 1362]),
   (Char.ofNat 1411, [Char.ofNat 1363]),
   (Char.ofNat 1412, [Char.ofNat 1364]),
   (Char.ofNat 1413, [Char.ofNat 1365]),
   (Char.ofNat 1414, [Char.ofNat 1366]),
   (Char.ofNat 1415, [Char.ofNat 1333, Char.ofNat 1362]),
   (Char.ofNat 4304, [Char.ofNat 7312]),
   (Char.ofNat 4305, [Char.ofNat 7313]),
   (Char.ofNat 4306, [Char.ofNat 7314]),
   (Char.ofNat 4307, [Char.ofNat 7315]),
   (Char.ofNat 4308, [Char.ofNat 7316]),
   (Char.ofNat 4309, [Char.ofNat 7317]),
   (Char.ofNat 4310, [Char.ofNat 7318]),
   (Char.ofNat 4311, [Char.ofNat 7319]),
   (Char.ofNat 4312, [Char.ofNat 7320]),
   (Char.ofNat 4313, [Char.ofNat 7321]),
   (Char.ofNat 4314, [Char.ofNat 7322]),
   (Char.ofNat 4315, [Char.ofNat 7323]),
   (Char.ofNat 4316, [Char.ofNat 7324]),
   (Char.ofNat 4317, [Char.ofNat 7325]),
   (Char.ofNat 4318, [Char.ofNat 7326]),
   (Char.ofNat 4319, [Char.ofNat 7327]),
   (Char.ofNat 4320, [Char.ofNat 7328]),
   (Char.ofNat 4321, [Char.ofNat 7329]),
   (Char.ofNat 4322, [Char.ofNat 7330]),
   (Char.ofNat 4323, [Char.ofNat 7331]),
   (Char.ofNat 4324, [Char.ofNat 7332]),
   (Char.ofNat 4325, [Char.ofNat 7333]),
   (Char.ofNat 4326, [Char.ofNat 7334]),
   (Char.ofNat 4327, [Char.ofNat 7335]),
   (Char.ofNat 4328, [Char.ofNat 7336]),
   (Char.ofNat 4329, [Char.ofNat 7337]),
   (Char.ofNat 4330, [Char.ofNat 7338]),
   (Char.ofNat 4331, [Char.ofNat 7339]),
   (Char.ofNat 4332, [Char.ofNat 7340]),
   (Char.ofNat 4333, [Char.ofNat 7341]),
   (Char.ofNat 4334, [Char.ofNat 7342]),
   (Char.ofNat 4335, [Char.ofNat 7343]),
   (Char.ofNat 4336, [Char.ofNat 7344]),
   (Char.ofNat 4337, [Char.ofNat 7345]),
   (Char.ofNat 4338, [Char.ofNat 7346]),
   (Char.ofNat 4339, [Char.ofNat 7347]),
   (Char.ofNat 4340, [Char.ofNat 7348]),
   (Char.ofNat 4341, [Char.ofNat 7349]),
   (Char.ofNat 4342, [Char.ofNat 7350]),
   (Char.ofNat 4343, [Char.ofNat 7351]),
   (Char.ofNat 4344, [Char.ofNat 7352]),
   (Char.ofNat 4345, [Char.ofNat 7353]),
   (Char.ofNat 4346, [Char.ofNat 7354]),
   (Char.ofNat 4349, [Char.ofNat 7357]),
   (Char.ofNat 4350, [Char.ofNat 7358]),
   (Char.ofNat 4351, [Char.ofNat 7359]),
   (Char.ofNat 5112, [Char.ofNat 5104]),
   (Char.ofNat 5113, [Char.ofNat 5105]),
   (Char.ofNat 5114, [Char.ofNat 5106]),
   (Char.ofNat 5115, [Char.ofNat 5107]),
   (Char.ofNat 5116, [Char.ofNat 5108]),
   (Char.ofNat 5117, [Char.ofNat 5109]),
   (Char.ofNat 7296, [Char.ofNat 1042]),
   (Char.ofNat 7297, [Char.ofNat 1044]),
   (Char.ofNat 7298, [Char.ofNat 1054]),
   (Char.ofNat 7299, [Char.ofNat 1057]),
   (Char.ofNat 7300, [Char.ofNat 1058]),
   (Char.ofNat 7301, [Char.ofNat 1058]),
   (Char.ofNat 7302, [Char.ofNat 1066]),
   (Char.ofNat 7303, [Char.ofNat 1122]),
   (Char.ofNat 7304, [Char.ofNat 42570]),
   (Char.ofNat 7545, [Char.ofNat 42877]),
   (Char.ofNat 7549, [Char.ofNat 11363]),
   (Char.ofNat 7566, [Char.ofNat 42950]),
   (Char.ofNat 7681, [Char.ofNat 7680]),
   (Char.ofNat 7683, [Char.ofNat 7682]),
   (Char.ofNat 7685, [Char.ofNat 7684]),
   (Char.ofNat 7687, [Char.ofNat 7686]),
   (Char.ofNat 7689, [Char.ofNat 7688]),
   (Char.ofNat 7691, [Char.ofNat 7690]),
   (Char.ofNat 7693, [Char.ofNat 7692]),
   (Char.ofNat 7695, [Char.ofNat 7694]),
   (Char.ofNat 7697, [Char.ofNat 7696]),
   (Char.ofNat 7699, [Char.ofNat 7698]),
   (Char.ofNat 7701, [Char.ofNat 7700]),
   (Char.ofNat 7703, [Char.ofNat 7702]),
   (Char.ofNat 7705, [Char.ofNat 7704]),
   (Char.ofNat 7707, [Char.ofNat 7706]),
   (Char.ofNat 7709, [Char.ofNat 7708]),
   (Char.ofNat 7711, [Char.ofNat 7710]),
   (Char.ofNat 7713, [Char.ofNat 7712]),
   (Char.ofNat 7715, [Char.ofNat 7714]),
   (Char.ofNat 7717, [Char.ofNat 7716]),
   (Char.ofNat 7719, [Char.ofNat 7718]),
   (Char.ofNat 7721, [Char.ofNat 7720]),
   (Char.ofNat 7723, [Char.ofNat 7722]),
   (Char.ofNat 7725, [Char.ofNat 7724]),
   (Char.ofNat 7727, [Char.ofNat 7726]),
   (Char.ofNat 7729, [Char.ofNat 7728]),
   (Char.ofNat 7731, [Char.ofNat 7730]),
   (Char.ofNat 7733, [Char.ofNat 7732]),
   (Char.ofNat 7735, [Char.ofNat 7734]),
   (Char.ofNat 7737, [Char.ofNat 7736]),
   (Char.ofNat 7739, [Char.ofNat 7738]),
   (Char.ofNat 7741, [Char.ofNat 7740]),
   (Char.ofNat 7743, [Char.ofNat 7742]),
   (Char.ofNat 7745, [Char.ofNat 7744]),
   (Char.ofNat 7747, [Char.ofNat 7746]),
   (Char.ofNat 7749, [Char.ofNat 7748]),
   (Char.ofNat 7751, [Char.ofNat 7750]),
   (Char.ofNat 7753, [Char.ofNat 7752]),
   (Char.ofNat 7755, [Char.ofNat 7754]),
   (Char.ofNat 7757, [Char.ofNat 7756]),
   (Char.ofNat 7759, [Char.ofNat 7758]),
   (Char.ofNat 7761, [Char.ofNat 7760]),
   (Char.ofNat 7763, [Char.ofNat 7762]),
   (Char.ofNat 7765, [Char.ofNat 7764]),
   (Char.ofNat 7767, [Char.ofNat 7766]),
   (Char.ofNat 7769, [Char.ofNat 7768]),
   (Char.ofNat 7771, [Char.ofNat 7770]),
   (Char.ofNat 7773, [Char.ofNat 7772]),
   (Char.ofNat 7775, [Char.ofNat 7774]),
   (Char.ofNat 7777, [Char.ofNat 7776]),
   (Char.ofNat 7779, [Char.ofNat 7778]),
   (Char.ofNat 7781, [Char.ofNat 7780]),
   (Char.ofNat 7783, [Char.ofNat 7782]),
   (Char.ofNat 7785, [Char.ofNat 7784]),
   (Char.ofNat 7787, [Char.ofNat 7786]),
   (Char.ofNat 7789, [Char.ofNat 7788]),
   (Char.ofNat 7791, [Char.ofNat 7790]),
   (Char.ofNat 7793, [Char.ofNat 7792]),
   (Char.ofNat 7795, [Char.ofNat 7794]),
   (Char.ofNat 7797, [Char.ofNat 7796]),
   (Char.ofNat 7799, [Char.ofNat 7798]),
   (Char.ofNat 7801, [Char.ofNat 7800]),
   (Char.ofNat 7803, [Char.ofNat 7802]),
   (Char.ofNat 7805, [Char.ofNat 7804]),
   (Char.ofNat 7807, [Char.ofNat 7806]),
   (Char.ofNat 7809, [Char.ofNat 7808]),
   (Char.ofNat 7811, [Char.ofNat 7810]),
   (Char.ofNat 7813, [Char.ofNat 7812]),
   (Char.ofNat 7815, [Char.ofNat 7814]),
   (Char.ofNat 7817, [Char.ofNat 7816]),
   (Char.ofNat 7819, [Char.ofNat 7818]),
   (Char.ofNat 7821, [Char.ofNat 7820]),
   (Char.ofNat 7823, [Char.ofNat 7822]),
   (Char.ofNat 7825, [Char.ofNat 7824]),
   (Char.ofNat 7827, [Char.ofNat 7826]),
   (Char.ofNat 7829, [Char.ofNat 7828]),
   (Char.ofNat 7830, [Char.ofNat 72, Char.ofNat 817]),
   (Char.ofNat 7831, [Char.ofNat 84, Char.ofNat 776]),
   (Char.ofNat 7832, [Char.ofNat 87, Char.ofNat 778]),
   (Char.ofNat 7833, [Char.ofNat 89, Char.ofNat 778]),
   (Char.ofNat 7834, [Char.ofNat 65, Char.ofNat 702]),
   (Char.ofNat 7835, [Char.ofNat 7776]),
   (Char.ofNat 7841, [Char.ofNat 7840]),
   (Char.ofNat 7843, [Char.ofNat 7842]),
   (Char.ofNat 7845, [Char.ofNat 7844]),
   (Char.ofNat 7847, [Char.ofNat 7846]),
   (Char.ofNat 7849, [Char.ofNat 7848]),
   (Char.ofNat 7851, [Char.ofNat 7850]),
   (Char.ofNat 7853, [Char.ofNat 7852]),
   (Char.ofNat 7855, [Char.ofNat 7854]),
   (Char.ofNat 7857, [Char.ofNat 7856]),
   (Char.ofNat 7859, [Char.ofNat 7858]),
   (Char.ofNat 7861, [Char.ofNat 7860]),
   (Char.ofNat 7863, [Char.ofNat 7862]),
   (Char.ofNat 7865, [Char.ofNat 7864]),
   (Char.ofNat 7867, [Char.ofNat 7866]),
   (Char.ofNat 7869, [Char.ofNat 7868]),
   (Char.ofNat 7871, [Char.ofNat 7870]),
   (Char.ofNat 7873, [Char.ofNat 7872]),
   (Char.ofNat 7875, [Char.ofNat 7874]),
   (Char.ofNat 7877, [Char.ofNat 7876]),
   (Char.ofNat 7879, [Char.ofNat 7878]),
   (Char.ofNat 7881, [Char.ofNat 7880]),
   (Char.ofNat 7883, [Char.ofNat 7882]),
   (Char.ofNat 7885, [Char.ofNat 7884]),
   (Char.ofNat 7887, [Char.ofNat 7886]),
   (Char.ofNat 7889, [Char.ofNat 7888]),
   (Char.ofNat 7891, [Char.ofNat 7890]),
   (Char.ofNat 7893, [Char.ofNat 7892]),
   (Char.ofNat 7895, [Char.ofNat 7894]),
   (Char.ofNat 7897, [Char.ofNat 7896]),
   (Char.ofNat 7899, [Char.ofNat 7898]),
   (Char.ofNat 7901, [Char.ofNat 7900]),
   (Char.ofNat 7903, [Char.ofNat 7902]),
   (Char.ofNat 7905, [Char.ofNat 7904]),
   (Char.ofNat 7907, [Char.ofNat 7906]),
   (Char.ofNat 7909, [Char.ofNat 7908]),
   (Char.ofNat 7911, [Char.ofNat 7910]),
   (Char.ofNat 7913, [Char.ofNat 7912]),
   (Char.ofNat 7915, [Char.ofNat 7914]),
   (Char.ofNat 7917, [Char.ofNat 7916]),
   (Char.ofNat 7919, [Char.ofNat 7918]),
   (Char.ofNat 7921, [Char.ofNat 7920]),
   (Char.ofNat 7923, [Char.ofNat 7922]),
   (Char.ofNat 7925, [Char.ofNat 7924]),
   (Char.ofNat 7927, [Char.ofNat 7926]),
   (Char.ofNat 7929, [Char.ofNat 7928]),
   (Char.ofNat 7931, [Char.ofNat 7930]),
   (Char.ofNat 7933, [Char.ofNat 7932]),
   (Char.ofNat 7935, [Char.ofNat 7934]),
   (Char.ofNat 7936, [Char.ofNat 7944]),
   (Char.ofNat 7937, [Char.ofNat 7945]),
   (Char.ofNat 7938, [Char.ofNat 7946]),
   (Char.ofNat 7939, [Char.ofNat 7947]),
   (Char.ofNat 7940, [Char.ofNat 7948]),
   (Char.ofNat 7941, [Char.ofNat 7949]),
   (Char.ofNat 7942, [Char.ofNat 7950]),
   (Char.ofNat 7943, [Char.ofNat 7951]),
   (Char.ofNat 7952, [Char.ofNat 7960]),
   (Char.ofNat 7953, [Char.ofNat 7961]),
   (Char.ofNat 7954, [Char.ofNat 7962]),
   (Char.ofNat 7955, [Char.ofNat 7963]),
   (Char.ofNat 7956, [Char.ofNat 7964]),
   (Char.ofNat 7957, [Char.ofNat 7965]),
   (Char.ofNat 7968, [Char.ofNat 7976]),
   (Char.ofNat 7969, [Char.ofNat 7977]),
   (Char.ofNat 7970, [Char.ofNat 7978]),
   (Char.ofNat 7971, [Char.ofNat 7979]),
   (Char.ofNat 7972, [Char.ofNat 7980]),
   (Char.ofNat 7973, [Char.ofNat 7981]),
   (Char.ofNat 7974, [Char.ofNat 7982]),
   (Char.ofNat 7975, [Char.ofNat 7983]),
   (Char.ofNat 7984, [Char.ofNat 7992]),
   (Char.ofNat 7985, [Char.ofNat 7993]),
   (Char.ofNat 7986, [Char.ofNat 7994]),
   (Char.ofNat 7987, [Char.ofNat 7995]),
   (Char.ofNat 7988, [Char.ofNat 7996]),
   (Char.ofNat 7989, [Char.ofNat 7997]),
   (Char.ofNat 7990, [Char.ofNat 7998]),
   (Char.ofNat 7991, [Char.ofNat 7999]),
   (Char.ofNat 8000, [Char.ofNat 8008]),
   (Char.ofNat 8001, [Char.ofNat 8009]),
   (Char.ofNat 8002, [Char.ofNat 8010]),
   (Char.ofNat 8003, [Char.ofNat 8011]),
   (Char.ofNat 8004, [Char.ofNat 8012]),
   (Char.ofNat 8005, [Char.ofNat 8013]),
   (Char.ofNat 8016, [Char.ofNat 933, Char.ofNat 787]),
   (Char.ofNat 8017, [Char.ofNat 8025]),
   (Char.ofNat 8018, [Char.ofNat 933, Char.ofNat 787, Char.ofNat 768]),
   (Char.ofNat 8019, [Char.ofNat 8027]),
   (Char.ofNat 8020, [Char.ofNat 933, Char.ofNat 787, Char.ofNat 769]),
   (Char.ofNat 8021, [Char.ofNat 8029]),
   (Char.ofNat 8022, [Char.ofNat 933, Char.ofNat 787, Char.ofNat 834]),
   (Char.ofNat 8023, [Char.ofNat 8031]),
   (Char.ofNat 8032, [Char.ofNat 8040]),
   (Char.ofNat 8033, [Char.ofNat 8041]),
   (Char.ofNat 8034, [Char.ofNat 8042]),
   (Char.ofNat 8035, [Char.ofNat 8043]),
   (Char.ofNat 8036, [Char.ofNat 8044]),
   (Char.ofNat 8037, [Char.ofNat 8045]),
   (Char.ofNat 8038, [Char.ofNat 8046]),
   (Char.ofNat 8039, [Char.ofNat 8047]),
   (Char.ofNat 8048, [Char.ofNat 8122]),
   (Char.ofNat 8049, [Char.ofNat 8123]),
   (Char.ofNat 8050, [Char.ofNat 8136]),
   (Char.ofNat 8051, [Char.ofNat 8137]),
   (Char.ofNat 8052, [Char.ofNat 8138]),
   (Char.ofNat 8053, [Char.ofNat 8139]),
   (Char.ofNat 8054, [Char.ofNat 8154]),
   (Char.ofNat 8055, [Char.ofNat 8155]),
   (Char.ofNat 8056, [Char.ofNat 8184]),
   (Char.ofNat 8057, [Char.ofNat 8185]),
   (Char.ofNat 8058, [Char.ofNat 8170]),
   (Char.ofNat 8059, [Char.ofNat 8171]),
   (Char.ofNat 8060, [Char.ofNat 8186]),
   (Char.ofNat 8061, [Char.ofNat 8187]),
   (Char.ofNat 8064, [Char.ofNat 7944, Char.ofNat 921]),
   (Char.ofNat 8065, [Char.ofNat 7945, Char.ofNat 921]),
   (Char.ofNat 8066, [Char.ofNat 7946, Char.ofNat 921]),
   (Char.ofNat 8067, [Char.ofNat 7947, Char.ofNat 921]),
   (Char.ofNat 8068, [Char.ofNat 7948, Char.ofNat 921]),
   (Char.ofNat 8069, [Char.ofNat 7949, Char.ofNat 921]),
   (Char.ofNat 8070, [Char.ofNat 7950, Char.ofNat 921]),
   (Char.ofNat 8071, [Char.ofNat 7951, Char.ofNat 921]),
   (Char.ofNat 8072, [Char.ofNat 7944, Char.ofNat 921]),
   (Char.ofNat 8073, [Char.ofNat 7945, Char.ofNat 921]),
   (Char.ofNat 8074, [Char.ofNat 7946, Char.ofNat 921]),
   (Char.ofNat 8075, [Char.ofNat 7947, Char.ofNat 921]),
   (Char.ofNat 8076, [Char.ofNat 7948, Char.ofNat 921]),
   (Char.ofNat 8077, [Char.ofNat 7949, Char.ofNat 921]),
   (Char.ofNat 8078, [Char.ofNat 7950, Char.ofNat 921]),
   (Char.ofNat 8079, [Char.ofNat 7951, Char.ofNat 921]),
   (Char.ofNat 8080, [Char.ofNat 7976, Char.ofNat 921]),
   (Char.ofNat 8081, [Char.ofNat 7977, Char.ofNat 921]),
   (Char.ofNat 8082, [Char.ofNat 7978, Char.ofNat 921]),
   (Char.ofNat 8083, [Char.ofNat 7979, Char.ofNat 921]),
   (Char.ofNat 8084, [Char.ofNat 7980, Char.ofNat 921]),
   (Char.ofNat 8085, [Char.ofNat 7981, Char.ofNat 921]),
   (Char.ofNat 8086, [Char.ofNat 7982, Char.ofNat 921]),
   (Char.ofNat 8087, [Char.ofNat 7983, Char.ofNat 921]),
   (Char.ofNat 8088, [Char.ofNat 7976, Char.ofNat 921]),
   (Char.ofNat 8089, [Char.ofNat 7977, Char.ofNat 921]),
   (Char.ofNat 8090, [Char.ofNat 7978, Char.ofNat 921]),
   (Char.ofNat 8091, [Char.ofNat 7979, Char.ofNat 921]),
   (Char.ofNat 8092, [Char.ofNat 7980, Char.ofNat 921]),
   (Char.ofNat 8093, [Char.ofNat 7981, Char.ofNat 921]),
   (Char.ofNat 8094, [Char.ofNat 7982, Char.ofNat 921]),
   (Char.ofNat 8095, [Char.ofNat 7983, Char.ofNat 921]),
   (Char.ofNat 8096, [Char.ofNat 8040, Char.ofNat 921]),
   (Char.ofNat 8097, [Char.ofNat 8041, Char.ofNat 921]),
   (Char.ofNat 8098, [Char.ofNat 8042, Char.ofNat 921]),
   (Char.ofNat 8099, [Char.ofNat 8043, Char.ofNat 921]),
   (Char.ofNat 8100, [Char.ofNat 8044, Char.ofNat 921]),
   (Char.ofNat 8101, [Char.ofNat 8045, Char.ofNat 921]),
   (Char.ofNat 8102, [Char.ofNat 8046, Char.ofNat 921]),
   (Char.ofNat 8103, [Char.ofNat 8047, Char.ofNat 921]),
   (Char.ofNat 8104, [Char.ofNat 8040, Char.ofNat 921]),
   (Char.ofNat 8105, [Char.ofNat 8041, Char.ofNat 921]),
   (Char.ofNat 8106, [Char.ofNat 8042, Char.ofNat 921]),
   (Char.ofNat 8107, [Char.ofNat 8043, Char.ofNat 921]),
   (Char.ofNat 8108, [Char.ofNat 8044, Char.ofNat 921]),
   (Char.ofNat 8109, [Char.ofNat 8045, Char.ofNat 921]),
   (Char.ofNat 8110, [Char.ofNat 8046, Char.ofNat 921]),
   (Char.ofNat 8111, [Char.ofNat 8047, Char.ofNat 921]),
   (Char.ofNat 8112, [Char.ofNat 8120]),
   (Char.ofNat 8113, [Char.ofNat 8121]),
   (Char.ofNat 8114, [Char.ofNat 8122, Char.ofNat 921]),
   (Char.ofNat 8115, [Char.ofNat 913, Char.ofNat 921]),
   (Char.ofNat 8116, [Char.ofNat 902, Char.ofNat 921]),
   (Char.ofNat 8118, [Char.ofNat 913, Char.ofNat 834]),
   (Char.ofNat 8119, [Char.ofNat 913, Char.ofNat 834, Char.ofNat 921]),
   (Char.ofNat 8124, [Char.ofNat 913, Char.ofNat 921]),
   (Char.ofNat 8126, [Char.ofNat 921]),
   (Char.ofNat 8130, [Char.ofNat 8138, Char.ofNat 921]),
   (Char.ofNat 8131, [Char.ofNat 919, Char.ofNat 921]),
   (Char.ofNat 8132, [Char.ofNat 905, Char.ofNat 921]),
   (Char.ofNat 8134, [Char.ofNat 919, Char.ofNat 834]),
   (Char.ofNat 8135, [Char.ofNat 919, Char.ofNat 834, Char.ofNat 921]),
   (Char.ofNat 8140, [Char.ofNat 919, Char.ofNat 921]),
   (Char.ofNat 8144, [Char.ofNat 8152]),
   (Char.ofNat 8145, [Char.ofNat 8153]),
   (Char.ofNat 8146, [Char.ofNat 921, Char.ofNat 776, Char.ofNat 768]),
   (Char.ofNat 8147, [Char.ofNat 921, Char.ofNat 776, Char.ofNat 769]),
   (Char.ofNat 8150, [Char.ofNat 921, Char.ofNat 834]),
   (Char.ofNat 8151, [Char.ofNat 921, Char.ofNat 776, Char.ofNat 834]),
   (Char.ofNat 8160, [Char.ofNat 8168]),
   (Char.ofNat 8161, [Char.ofNat 8169]),
   (Char.ofNat 8162, [Char.ofNat 933, Char.ofNat 776, Char.ofNat 768]),
   (Char.ofNat 8163, [Char.ofNat 933, Char.ofNat 776, Char.ofNat 769]),
   (Char.ofNat 8164, [Char.ofNat 929, Char.ofNat 787]),
   (Char.ofNat 8165, [Char.ofNat 8172]),
   (Char.ofNat 8166, [Char.ofNat 933, Char.ofNat 834]),
   (Char.ofNat 8167, [Char.ofNat 933, Char.ofNat 776, Char.ofNat 834]),
   (Char.ofNat 8178, [Char.ofNat 8186, Char.ofNat 921]),
   (Char.ofNat 8179, [Char.ofNat 937, Char.ofNat 921]),
   (Char.ofNat 8180, [Char.ofNat 911, Char.ofNat 921]),
   (Char.ofNat 8182, [Char.ofNat 937, Char.ofNat 834]),
   (Char.ofNat 8183, [Char.ofNat 937, Char.ofNat 834, Char.ofNat 921]),
   (Char.ofNat 8188, [Char.ofNat 937, Char.ofNat 921]),
   (Char.ofNat 8526, [Char.ofNat 8498]),
   (Char.ofNat 8560, [Char.ofNat 8544]),
   (Char.ofNat 8561, [Char.ofNat 8545]),
   (Char.ofNat 8562, [Char.ofNat 8546]),
   (Char.ofNat 8563, [Char.ofNat 8547]),
   (Char.ofNat 8564, [Char.ofNat 8548]),
   (Char.ofNat 8565, [Char.ofNat 8549]),
   (Char.ofNat 8566, [Char.ofNat 8550]),
   (Char.ofNat 8567, [Char.ofNat 8551]),
   (Char.ofNat 8568, [Char.ofNat 8552]),
   (Char.ofNat 8569, [Char.ofNat 8553]),
   (Char.ofNat 8570, [Char.ofNat 8554]),
   (Char.ofNat 8571, [Char.ofNat 8555]),
   (Char.ofNat 8572, [Char.ofNat 8556]),
   (Char.ofNat 8573, [Char.ofNat 8557]),
   (Char.ofNat 8574, [Char.ofNat 8558]),
   (Char.ofNat 8575, [Char.ofNat 8559]),
   (Char.ofNat 8580, [Char.ofNat 8579]),
   (Char.ofNat 9424, [Char.ofNat 9398]),
   (Char.ofNat 9425, [Char.ofNat 9399]),
   (Char.ofNat 9426, [Char.ofNat 9400]),
   (Char.ofNat 9427, [Char.ofNat 9401]),
   (Char.ofNat 9428, [Char.ofNat 9402]),
   (Char.ofNat 9429, [Char.ofNat 9403]),
   (Char.ofNat 9430, [Char.ofNat 9404]),
   (Char.ofNat 9431, [Char.ofNat 9405]),
   (Char.ofNat 9432, [Char.ofNat 9406]),
   (Char.ofNat 9433, [Char.ofNat 9407]),
   (Char.ofNat 9434, [Char.ofNat 9408]),
   (Char.ofNat 9435, [Char.ofNat 9409]),
   (Char.ofNat 9436, [Char.ofNat 9410]),
   (Char.ofNat 9437, [Char.ofNat 9411]),
   (Char.ofNat 9438, [Char.ofNat 9412]),
   (Char.ofNat 9439, [Char.ofNat 9413]),
   (Char.ofNat 9440, [Char.ofNat 9414]),
   (Char.ofNat 9441, [Char.ofNat 9415]),
   (Char.ofNat 9442, [Char.ofNat 9416]),
   (Char.ofNat 9443, [Char.ofNat 9417]),
   (Char.ofNat 9444, [Char.ofNat 9418]),
   (Char.ofNat 9445, [Char.ofNat 9419]),
   (Char.ofNat 9446, [Char.ofNat 9420]),
   (Char.ofNat 9447, [Char.ofNat 9421]),
   (Char.ofNat 9448, [Char.ofNat 9422]),
   (Char.ofNat 9449, [Char.ofNat 9423]),
   (Char.ofNat 11312, [Char.ofNat 11264]),
   (Char.ofNat 11313, [Char.ofNat 11265]),
   (Char.ofNat 11314, [Char.ofNat 11266]),
   (Char.ofNat 11315, [Char.ofNat 11267]),
   (Char.ofNat 11316, [Char.ofNat 11268]),
   (Char.ofNat 11317, [Char.ofNat 11269]),
   (Char.ofNat 11318, [Char.ofNat 11270]),
   (Char.ofNat 11319, [Char.ofNat 11271]),
   (Char.ofNat 11320, [Char.ofNat 11272]),
   (Char.ofNat 11321, [Char.ofNat 11273]),
   (Char.ofNat 11322, [Char.ofNat 11274]),
   (Char.ofNat 11323, [Char.ofNat 11275]),
   (Char.ofNat 11324, [Char.ofNat 11276]),
   (Char.ofNat 11325, [Char.ofNat 11277]),
   (Char.ofNat 11326, [Char.ofNat 11278]),
   (Char.ofNat 11327, [Char.ofNat 11279]),
   (Char.ofNat 11328, [Char.ofNat 11280]),
   (Char.ofNat 11329, [Char.ofNat 11281]),
   (Char.ofNat 11330, [Char.ofNat 11282]),
   (Char.ofNat 11331, [Char.ofNat 11283]),
   (Char.ofNat 11332, [Char.ofNat 11284]),
   (Char.ofNat 11333, [Char.ofNat 11285]),
   (Char.ofNat 11334, [Char.ofNat 11286]),
   (Char.ofNat 11335, [Char.ofNat 11287]),
   (Char.ofNat 11336, [Char.ofNat 11288]),
   (Char.ofNat 11337, [Char.ofNat 11289]),
   (Char.ofNat 11338, [Char.ofNat 11290]),
   (Char.ofNat 11339, [Char.ofNat 11291]),
   (Char.ofNat 11340, [Char.ofNat 11292]),
   (Char.ofNat 11341, [Char.ofNat 11293]),
   (Char.ofNat 11342, [Char.ofNat 11294]),
   (Char.ofNat 11343, [Char.ofNat 11295]),
   (Char.ofNat 11344, [Char.ofNat 11296]),
   (Char.ofNat 11345, [Char.ofNat 11297]),
   (Char.ofNat 11346, [Char.ofNat 11298]),
   (Char.ofNat 11347, [Char.ofNat 11299]),
   (Char.ofNat 11348, [Char.ofNat 11300]),
   (Char.ofNat 11349, [Char.ofNat 11301]),
   (Char.ofNat 11350, [Char.ofNat 11302]),
   (Char.ofNat 11351, [Char.ofNat 11303]),
   (Char.ofNat 11352, [Char.ofNat 11304]),
   (Char.ofNat 11353, [Char.ofNat 11305]),
   (Char.ofNat 11354, [Char.ofNat 11306]),
   (Char.ofNat 11355, [Char.ofNat 11307]),
   (Char.ofNat 11356, [Char.ofNat 11308]),
   (Char.ofNat 11357, [Char.ofNat 11309]),
   (Char.ofNat 11358, [Char.ofNat 11310]),
   (Char.ofNat 11359, [Char.ofNat 11311]),
   (Char.ofNat 11361, [Char.ofNat 11360]),
   (Char.ofNat 11365, [Char.ofNat 570]),
   (Char.ofNat 11366, [Char.ofNat 574]),
   (Char.ofNat 11368, [Char.ofNat 11367]),
   (Char.ofNat 11370, [Char.ofNat 11369]),
   (Char.ofNat 11372, [Char.ofNat 11371]),
   (Char.ofNat 11379, [Char.ofNat 11378]),
   (Char.ofNat 11382, [Char.ofNat 11381]),
   (Char.ofNat 11393, [Char.ofNat 11392]),
   (Char.ofNat 11395, [Char.ofNat 11394]),
   (Char.ofNat 11397, [Char.ofNat 11396]),
   (Char.ofNat 11399, [Char.ofNat 11398]),
   (Char.ofNat 11401, [Char.ofNat 11400]),
   (Char.ofNat 11403, [Char.ofNat 11402]),
   (Char.ofNat 11405, [Char.ofNat 11404]),
   (Char.ofNat 11407, [Char.ofNat 11406]),
   (Char.ofNat 11409, [Char.ofNat 11408]),
   (Char.ofNat 11411, [Char.ofNat 11410]),
   (Char.ofNat 11413, [Char.ofNat 11412]),
   (Char.ofNat 11415, [Char.ofNat 11414]),
   (Char.ofNat 11417, [Char.ofNat 11416]),
   (Char.ofNat 11419, [Char.ofNat 11418]),
   (Char.ofNat 11421, [Char.ofNat 11420]),
   (Char.ofNat 11423, [Char.ofNat 11422]),
   (Char.ofNat 11425, [Char.ofNat 11424]),
   (Char.ofNat 11427, [Char.ofNat 11426]),
   (Char.ofNat 11429, [Char.ofNat 11428]),
   (Char.ofNat 11431, [Char.ofNat 11430]),
   (Char.ofNat 11433, [Char.ofNat 11432]),
   (Char.ofNat 11435, [Char.ofNat 11434]),
   (Char.ofNat 11437, [Char.ofNat 11436]),
   (Char.ofNat 11439, [Char.ofNat 11438]),
   (Char.ofNat 11441, [Char.ofNat 11440]),
   (Char.ofNat 11443, [Char.ofNat 11442]),
   (Char.ofNat 11445, [Char.ofNat 11444]),
   (Char.ofNat 11447, [Char.ofNat 11446]),
   (Char.ofNat 11449, [Char.ofNat 11448]),
   (Char.ofNat 11451, [Char.ofNat 11450]),
   (Char.ofNat 11453, [Char.ofNat 11452]),
   (Char.ofNat 11455, [Char.ofNat 11454]),
   (Char.ofNat 11457, [Char.ofNat 11456]),
   (Char.ofNat 11459, [Char.ofNat 11458]),
   (Char.ofNat 11461, [Char.ofNat 11460]),
   (Char.ofNat 11463, [Char.ofNat 11462]),
   (Char.ofNat 11465, [Char.ofNat 11464]),
   (Char.ofNat 11467, [Char.ofNat 11466]),
   (Char.ofNat 11469, [Char.ofNat 11468]),
   (Char.ofNat 11471, [Char.ofNat 11470]),
   (Char.ofNat 11473, [Char.ofNat 11472]),
   (Char.ofNat 11475, [Char.ofNat 11474]),
   (Char.ofNat 11477, [Char.ofNat 11476]),
   (Char.ofNat 11479, [Char.ofNat 11478]),
   (Char.ofNat 11481, [Char.ofNat 11480]),
   (Char.ofNat 11483, [Char.ofNat 11482]),
   (Char.ofNat 11485, [Char.ofNat 11484]),
   (Char.ofNat 11487, [Char.ofNat 11486]),
   (Char.ofNat 11489, [Char.ofNat 11488]),
   (Char.ofNat 11491, [Char.ofNat 11490]),
   (Char.ofNat 11500, [Char.ofNat 11499]),
   (Char.ofNat 11502, [Char.ofNat 11501]),
   (Char.ofNat 11507, [Char.ofNat 11506]),
   (Char.ofNat 11520, [Char.ofNat 4256]),
   (Char.ofNat 11521, [Char.ofNat 4257]),
   (Char.ofNat 11522, [Char.ofNat 4258]),
   (Char.ofNat 11523, [Char.ofNat 4259]),
   (Char.ofNat 11524, [Char.ofNat 4260]),
   (Char.ofNat 11525, [Char.ofNat 4261]),
   (Char.ofNat 11526, [Char.ofNat 4262]),
   (Char.ofNat 11527, [Char.ofNat 4263]),
   (Char.ofNat 11528, [Char.ofNat 4264]),
   (Char.ofNat 11529, [Char.ofNat 4265]),
   (Char.ofNat 11530, [Char.ofNat 4266]),
   (Char.ofNat 11531, [Char.ofNat 4267]),
   (Char.ofNat 11532, [Char.ofNat 4268]),
   (Char.ofNat 11533, [Char.ofNat 4269]),
   (Char.ofNat 11534, [Char.ofNat 4270]),
   (Char.ofNat 11535, [Char.ofNat 4271]),
   (Char.ofNat 11536, [Char.ofNat 4272]),
   (Char.ofNat 11537, [Char.ofNat 4273]),
   (Char.ofNat 11538, [Char.ofNat 4274]),
   (Char.ofNat 11539, [Char.ofNat 4275]),
   (Char.ofNat 11540, [Char.ofNat 4276]),
   (Char.ofNat 11541, [Char.ofNat 4277]),
   (Char.ofNat 11542, [Char.ofNat 4278]),
   (Char.ofNat 11543, [Char.ofNat 4279]),
   (Char.ofNat 11544, [Char.ofNat 4280]),
   (Char.ofNat 11545, [Char.ofNat 4281]),
   (Char.ofNat 11546, [Char.ofNat 4282]),
   (Char.ofNat 11547, [Char.ofNat 4283]),
   (Char.ofNat 11548, [Char.ofNat 4284]),
   (Char.ofNat 11549, [Char.ofNat 4285]),
   (Char.ofNat 11550, [Char.ofNat 4286]),
   (Char.ofNat 11551, [Char.ofNat 4287]),
   (Char.ofNat 11552, [Char.ofNat 4288]),
   (Char.ofNat 11553, [Char.ofNat 4289]),
   (Char.ofNat 11554, [Char.ofNat 4290]),
   (Char.ofNat 11555, [Char.ofNat 4291]),
   (Char.ofNat 11556, [Char.ofNat 4292]),
   (Char.ofNat 11557, [Char.ofNat 4293]),
   (Char.ofNat 11559, [Char.ofNat 4295]),
   (Char.ofNat 11565, [Char.ofNat 4301]),
   (Char.ofNat 42561, [Char.ofNat 42560]),
   (Char.ofNat 42563, [Char.ofNat 42562]),
   (Char.ofNat 42565, [Char.ofNat 42564]),
   (Char.ofNat 42567, [Char.ofNat 42566]),
   (Char.ofNat 42569, [Char.ofNat 42568]),
   (Char.ofNat 42571, [Char.ofNat 42570]),
   (Char.ofNat 42573, [Char.ofNat 42572]),
   (Char.ofNat 42575, [Char.ofNat 42574]),
   (Char.ofNat 42577, [Char.ofNat 42576]),
   (Char.ofNat 42579, [Char.ofNat 42578]),
   (Char.ofNat 42581, [Char.ofNat 42580]),
   (Char.ofNat 42583, [Char.ofNat 42582]),
   (Char.ofNat 42585, [Char.ofNat 42584]),
   (Char.ofNat 42587, [Char.ofNat 42586]),
   (Char.ofNat 42589, [Char.ofNat 42588]),
   (Char.ofNat 42591, [Char.ofNat 42590]),
   (Char.ofNat 42593, [Char.ofNat 42592]),
   (Char.ofNat 42595, [Char.ofNat 42594]),
   (Char.ofNat 42597, [Char.ofNat 42596]),
   (Char.ofNat 42599, [Char.ofNat 42598]),
   (Char.ofNat 42601, [Char.ofNat 42600]),
   (Char.ofNat 42603, [Char.ofNat 42602]),
   (Char.ofNat 42605, [Char.ofNat 42604]),
   (Char.ofNat 42625, [Char.ofNat 42624]),
   (Char.ofNat 42627, [Char.ofNat 42626]),
   (Char.ofNat 42629, [Char.ofNat 42628]),
   (Char.ofNat 42631, [Char.ofNat 42630]),
   (Char.ofNat 42633, [Char.ofNat 42632]),
   (Char.ofNat 42635, [Char.ofNat 42634]),
   (Char.ofNat 42637, [Char.ofNat 42636]),
   (Char.ofNat 42639, [Char.ofNat 42638]),
   (Char.ofNat 42641, [Char.ofNat 42640]),
   (Char.ofNat 42643, [Char.ofNat 42642]),
   (Char.ofNat 42645, [Char.ofNat 42644]),
   (Char.ofNat 42647, [Char.ofNat 42646]),
   (Char.ofNat 42649, [Char.ofNat 42648]),
   (Char.ofNat 42651, [Char.ofNat 42650]),
   (Char.ofNat 42787, [Char.ofNat 42786]),
   (Char.ofNat 42789, [Char.ofNat 42788]),
   (Char.ofNat 42791, [Char.ofNat 42790]),
   (Char.ofNat 42793, [Char.ofNat 42792]),
   (Char.ofNat 42795, [Char.ofNat 42794]),
   (Char.ofNat 42797, [Char.ofNat 42796]),
   (Char.ofNat 42799, [Char.ofNat 42798]),
   (Char.ofNat 42803, [Char.ofNat 42802]),
   (Char.ofNat 42805, [Char.ofNat 42804]),
   (Char.ofNat 42807, [Char.ofNat 42806]),
   (Char.ofNat 42809, [Char.ofNat 42808]),
   (Char.ofNat 42811, [Char.ofNat 42810]),
   (Char.ofNat 42813, [Char.ofNat 42812]),
   (Char.ofNat 42815, [Char.ofNat 42814]),
   (Char.ofNat 42817, [Char.ofNat 42816]),
   (Char.ofNat 42819, [Char.ofNat 42818]),
   (Char.ofNat 42821, [Char.ofNat 42820]),
   (Char.ofNat 42823, [Char.ofNat 42822]),
   (Char.ofNat 42825, [Char.ofNat 42824]),
   (Char.ofNat 42827, [Char.ofNat 42826]),
   (Char.ofNat 42829, [Char.ofNat 42828]),
   (Char.ofNat 42831, [Char.ofNat 42830]),
   (Char.ofNat 42833, [Char.ofNat 42832]),
   (Char.ofNat 42835, [Char.ofNat 42834]),
   (Char.ofNat 42837, [Char.ofNat 42836]),
   (Char.ofNat 42839, [Char.ofNat 42838]),
   (Char.ofNat 42841, [Char.ofNat 42840]),
   (Char.ofNat 42843, [Char.ofNat 42842]),
   (Char.ofNat 42845, [Char.ofNat 42844]),
   (Char.ofNat 42847, [Char.ofNat 42846]),
   (Char.ofNat 42849, [Char.ofNat 42848]),
   (Char.ofNat 42851, [Char.ofNat 42850]),
   (Char.ofNat 42853, [Char.ofNat 42852]),
   (Char.ofNat 42855, [Char.ofNat 42854]),
   (Char.ofNat 42857, [Char.ofNat 42856]),
   (Char.ofNat 42859, [Char.ofNat 42858]),
   (Char.ofNat 42861, [Char.ofNat 42860]),
   (Char.ofNat 42863, [Char.ofNat 42862]),
   (Char.ofNat 42874, [Char.ofNat 42873]),
   (Char.ofNat 42876, [Char.ofNat 42875]),
   (Char.ofNat 42879, [Char.ofNat 42878]),
   (Char.ofNat 42881, [Char.ofNat 42880]),
   (Char.ofNat 42883, [Char.ofNat 42882]),
   (Char.ofNat 42885, [Char.ofNat 42884]),
   (Char.ofNat 42887, [Char.ofNat 42886]),
   (Char.ofNat 42892, [Char.ofNat 42891]),
   (Char.ofNat 42897, [Char.ofNat 42896]),
   (Char.ofNat 42899, [Char.ofNat 42898]),
   (Char.ofNat 42900, [Char.ofNat 42948]),
   (Char.ofNat 42903, [Char.ofNat 42902]),
   (Char.ofNat 42905, [Char.ofNat 42904]),
   (Char.ofNat 42907, [Char.ofNat 42906]),
   (Char.ofNat 42909, [Char.ofNat 42908]),
   (Char.ofNat 42911, [Char.ofNat 42910]),
   (Char.ofNat 42913, [Char.ofNat 42912]),
   (Char.ofNat 42915, [Char.ofNat 42914]),
   (Char.ofNat 42917, [Char.ofNat 42916]),
   (Char.ofNat 42919, [Char.ofNat 42918]),
   (Char.ofNat 42921, [Char.ofNat 42920]),
   (Char.ofNat 42933, [Char.ofNat 42932]),
   (Char.ofNat 42935, [Char.ofNat 42934]),
   (Char.ofNat 42937, [Char.ofNat 42936]),
   (Char.ofNat 42939, [Char.ofNat 42938]),
   (Char.ofNat 42941, [Char.ofNat 42940]),
   (Char.ofNat 42943, [Char.ofNat 42942]),
   (Char.ofNat 42945, [Char.ofNat 42944]),
   (Char.ofNat 42947, [Char.ofNat 42946]),
   (Char.ofNat 42952, [Char.ofNat 42951]),
   (Char.ofNat 42954, [Char.ofNat 42953]),
   (Char.ofNat 42961, [Char.ofNat 42960]),
   (Char.ofNat 42967, [Char.ofNat 42966]),
   (Char.ofNat 42969, [Char.ofNat 42968]),
   (Char.ofNat 42998, [Char.ofNat 42997]),
   (Char.ofNat 43859, [Char.ofNat 42931]),
   (Char.ofNat 43888, [Char.ofNat 5024]),
   (Char.ofNat 43889, [Char.ofNat 5025]),
   (Char.ofNat 43890, [Char.ofNat 5026]),
   (Char.ofNat 43891, [Char.ofNat 5027]),
   (Char.ofNat 43892, [Char.ofNat 5028]),
   (Char.ofNat 43893, [Char.ofNat 5029]),
   (Char.ofNat 43894, [Char.ofNat 5030]),
   (Char.ofNat 43895, [Char.ofNat 5031]),
   (Char.ofNat 43896, [Char.ofNat 5032]),
   (Char.ofNat 43897, [Char.ofNat 5033]),
   (Char.ofNat 43898, [Char.ofNat 5034]),
   (Char.ofNat 43899, [Char.ofNat 5035]),
   (Char.ofNat 43900, [Char.ofNat 5036]),
   (Char.ofNat 43901, [Char.ofNat 5037]),
   (Char.ofNat 43902, [Char.ofNat 5038]),
   (Char.ofNat 43903, [Char.ofNat 5039]),
   (Char.ofNat 43904, [Char.ofNat 5040]),
   (Char.ofNat 43905, [Char.ofNat 5041]),
   (Char.ofNat 43906, [Char.ofNat 5042]),
   (Char.ofNat 43907, [Char.ofNat 5043]),
   (Char.ofNat 43908, [Char.ofNat 5044]),
   (Char.ofNat 43909, [Char.ofNat 5045]),
   (Char.ofNat 43910, [Char.ofNat 5046]),
   (Char.ofNat 43911, [Char.ofNat 5047]),
   (Char.ofNat 43912, [Char.ofNat 5048]),
   (Char.ofNat 43913, [Char.ofNat 5049]),
   (Char.ofNat 43914, [Char.ofNat 5050]),
   (Char.ofNat 43915, [Char.ofNat 5051]),
   (Char.ofNat 43916, [Char.ofNat 5052]),
   (Char.ofNat 43917, [Char.ofNat 5053]),
   (Char.ofNat 43918, [Char.ofNat 5054]),
   (Char.ofNat 43919, [Char.ofNat 5055]),
   (Char.ofNat 43920, [Char.ofNat 5056]),
   (Char.ofNat 43921, [Char.ofNat 5057]),
   (Char.ofNat 43922, [Char.ofNat 5058]),
   (Char.ofNat 43923, [Char.ofNat 5059]),
   (Char.ofNat 43924, [Char.ofNat 5060]),
   (Char.ofNat 43925, [Char.ofNat 5061]),
   (Char.ofNat 43926, [Char.ofNat 5062]),
   (Char.ofNat 43927, [Char.ofNat 5063]),
   (Char.ofNat 43928, [Char.ofNat 5064]),
   (Char.ofNat 43929, [Char.ofNat 5065]),
   (Char.ofNat 43930, [Char.ofNat 5066]),
   (Char.ofNat 43931, [Char.ofNat 5067]),
   (Char.ofNat 43932, [Char.ofNat 5068]),
   (Char.ofNat 43933, [Char.ofNat 5069]),
   (Char.ofNat 43934, [Char.ofNat 5070]),
   (Char.ofNat 43935, [Char.ofNat 5071]),
   (Char.ofNat 43936, [Char.ofNat 5072]),
   (Char.ofNat 43937, [Char.ofNat 5073]),
   (Char.ofNat 43938, [Char.ofNat 5074]),
   (Char.ofNat 43939, [Char.ofNat 5075]),
   (Char.ofNat 43940, [Char.ofNat 5076]),
   (Char.ofNat 43941, [Char.ofNat 5077]),
   (Char.ofNat 43942, [Char.ofNat 5078]),
   (Char.ofNat 43943, [Char.ofNat 5079]),
   (Char.ofNat 43944, [Char.ofNat 5080]),
   (Char.ofNat 43945, [Char.ofNat 5081]),
   (Char.ofNat 43946, [Char.ofNat 5082]),
   (Char.ofNat 43947, [Char.ofNat 5083]),
   (Char.ofNat 43948, [Char.ofNat 5084]),
   (Char.ofNat 43949, [Char.ofNat 5085]),
   (Char.ofNat 43950, [Char.ofNat 5086]),
   (Char.ofNat 43951, [Char.ofNat 5087]),
   (Char.ofNat 43952, [Char.ofNat 5088]),
   (Char.ofNat 43953, [Char.ofNat 5089]),
   (Char.ofNat 43954, [Char.ofNat 5090]),
   (Char.ofNat 43955, [Char.ofNat 5091]),
   (Char.ofNat 43956, [Char.ofNat 5092]),
   (Char.ofNat 43957, [Char.ofNat 5093]),
   (Char.ofNat 43958, [Char.ofNat 5094]),
   (Char.ofNat 43959, [Char.ofNat 5095]),
   (Char.ofNat 43960, [Char.ofNat 5096]),
   (Char.ofNat 43961, [Char.ofNat 5097]),
   (Char.ofNat 43962, [Char.ofNat 5098]),
   (Char.ofNat 43963, [Char.ofNat 5099]),
   (Char.ofNat 43964, [Char.ofNat 5100]),
   (Char.ofNat 43965, [Char.ofNat 5101]),
   (Char.ofNat 43966, [Char.ofNat 5102]),
   (Char.ofNat 43967, [Char.ofNat 5103]),
   (Char.ofNat 64256, [Char.ofNat 70, Char.ofNat 70]),
   (Char.ofNat 64257, [Char.ofNat 70, Char.ofNat 73]),
   (Char.ofNat 64258, [Char.ofNat 70, Char.ofNat 76]),
   (Char.ofNat 64259, [Char.ofNat 70, Char.ofNat 70, Char.ofNat 73]),
   (Char.ofNat 64260, [Char.ofNat 70, Char.ofNat 70, Char.ofNat 76]),
   (Char.ofNat 64261, [Char.ofNat 83, Char.ofNat 84]),
   (Char.ofNat 64262, [Char.ofNat 83, Char.ofNat 84]),
   (Char.ofNat 64275, [Char.ofNat 1348, Char.ofNat 1350]),
   (Char.ofNat 64276, [Char.ofNat 1348, Char.ofNat 1333]),
   (Char.ofNat 64277, [Char.ofNat 1348, Char.ofNat 1339]),
   (Char.ofNat 64278, [Char.ofNat 1358, Char.ofNat 1350]),
   (Char.ofNat 64279, [Char.ofNat 1348, Char.ofNat 1341]),
   (Char.ofNat 65345, [Char.ofNat 65313]),
   (Char.ofNat 65346, [Char.ofNat 65314]),
   (Char.ofNat 65347, [Char.ofNat 65315]),
   (Char.ofNat 65348, [Char.ofNat 65316]),
   (Char.ofNat 65349, [Char.ofNat 65317]),
   (Char.ofNat 65350, [Char.ofNat 65318]),
   (Char.ofNat 65351, [Char.ofNat 65319]),
   (Char.ofNat 65352, [Char.ofNat 65320]),
   (Char.ofNat 65353, [Char.ofNat 65321]),
   (Char.ofNat 65354, [Char.ofNat 65322]),
   (Char.ofNat 65355, [Char.ofNat 65323]),
   (Char.ofNat 65356, [Char.ofNat 65324]),
   (Char.ofNat 65357, [Char.ofNat 65325]),
   (Char.ofNat 65358, [Char.ofNat 65326]),
   (Char.ofNat 65359, [Char.ofNat 65327]),
   (Char.ofNat 65360, [Char.ofNat 65328]),
   (Char.ofNat 65361, [Char.ofNat 65329]),
   (Char.ofNat 65362, [Char.ofNat 65330]),
   (Char.ofNat 65363, [Char.ofNat 65331]),
   (Char.ofNat 65364, [Char.ofNat 65332]),
   (Char.ofNat 65365, [Char.ofNat 65333]),
   (Char.ofNat 65366, [Char.ofNat 65334]),
   (Char.ofNat 65367, [Char.ofNat 65335]),
   (Char.ofNat 65368, [Char.ofNat 65336]),
   (Char.ofNat 65369, [Char.ofNat 65337]),
   (Char.ofNat 65370, [Char.ofNat 65338]),
   (Char.ofNat 66600, [Char.ofNat 66560]),
   (Char.ofNat 66601, [Char.ofNat 66561]),
   (Char.ofNat 66602, [Char.ofNat 66562]),
   (Char.ofNat 66603, [Char.ofNat 66563]),
   (Char.ofNat 66604, [Char.ofNat 66564]),
   (Char.ofNat 66605, [Char.ofNat 66565]),
   (Char.ofNat 66606, [Char.ofNat 66566]),
   (Char.ofNat 66607, [Char.ofNat 66567]),
   (Char.ofNat 66608, [Char.ofNat 66568]),
   (Char.ofNat 66609, [Char.ofNat 66569]),
   (Char.ofNat 66610, [Char.ofNat 66570]),
   (Char.ofNat 66611, [Char.ofNat 66571]),
   (Char.ofNat 66612, [Char.ofNat 66572]),
   (Char.ofNat 66613, [Char.ofNat 66573]),
   (Char.ofNat 66614, [Char.ofNat 66574]),
   (Char.ofNat 66615, [Char.ofNat 66575]),
   (Char.ofNat 66616, [Char.ofNat 66576]),
   (Char.ofNat 66617, [Char.ofNat 66577]),
   (Char.ofNat 66618, [Char.ofNat 66578]),
   (Char.ofNat 66619, [Char.ofNat 66579]),
   (Char.ofNat 66620, [Char.ofNat 66580]),
   (Char.ofNat 66621, [Char.ofNat 66581]),
   (Char.ofNat 66622, [Char.ofNat 66582]),
   (Char.ofNat 66623, [Char.ofNat 66583]),
   (Char.ofNat 66624, [Char.ofNat 66584]),
   (Char.ofNat 66625, [Char.ofNat 66585]),
   (Char.ofNat 66626, [Char.ofNat 66586]),
   (Char.ofNat 66627, [Char.ofNat 66587]),
   (Char.ofNat 66628, [Char.ofNat 66588]),
   (Char.ofNat 66629, [Char.ofNat 66589]),
   (Char.ofNat 66630, [Char.ofNat 66590]),
   (Char.ofNat 66631, [Char.ofNat 66591]),
   (Char.ofNat 66632, [Char.ofNat 66592]),
   (Char.ofNat 66633, [Char.ofNat 66593]),
   (Char.ofNat 66634, [Char.ofNat 66594]),
   (Char.ofNat 66635, [Char.ofNat 66595]),
   (Char.ofNat 66636, [Char.ofNat 66596]),
   (Char.ofNat 66637, [Char.ofNat 66597]),
   (Char.ofNat 66638, [Char.ofNat 66598]),
   (Char.ofNat 66639, [Char.ofNat 66599]),
   (Char.ofNat 66776, [Char.ofNat 66736]),
   (Char.ofNat 66777, [Char.ofNat 66737]),
   (Char.ofNat 66778, [Char.ofNat 66738]),
   (Char.ofNat 66779, [Char.ofNat 66739]),
   (Char.ofNat 66780, [Char.ofNat 66740]),
   (Char.ofNat 66781, [Char.ofNat 66741]),
   (Char.ofNat 66782, [Char.ofNat 66742]),
   (Char.ofNat 66783, [Char.ofNat 66743]),
   (Char.ofNat 66784, [Char.ofNat 66744]),
   (Char.ofNat 66785, [Char.ofNat 66745]),
   (Char.ofNat 66786, [Char.ofNat 66746]),
   (Char.ofNat 66787, [Char.ofNat 66747]),
   (Char.ofNat 66788, [Char.ofNat 66748]),
   (Char.ofNat 66789, [Char.ofNat 66749]),
   (Char.ofNat 66790, [Char.ofNat 66750]),
   (Char.ofNat 66791, [Char.ofNat 66751]),
   (Char.ofNat 66792, [Char.ofNat 66752]),
   (Char.ofNat 66793, [Char.ofNat 66753]),
   (Char.ofNat 66794, [Char.ofNat 66754]),
   (Char.ofNat 66795, [Char.ofNat 66755]),
   (Char.ofNat 66796, [Char.ofNat 66756]),
   (Char.ofNat 66797, [Char.ofNat 66757]),
   (Char.ofNat 66798, [Char.ofNat 66758]),
   (Char.ofNat 66799, [Char.ofNat 66759]),
   (Char.ofNat 66800, [Char.ofNat 66760]),
   (Char.ofNat 66801, [Char.ofNat 66761]),
   (Char.ofNat 66802, [Char.ofNat 66762]),
   (Char.ofNat 66803, [Char.ofNat 66763]),
   (Char.ofNat 66804, [Char.ofNat 66764]),
   (Char.ofNat 66805, [Char.ofNat 66765]),
   (Char.ofNat 66806, [Char.ofNat 66766]),
   (Char.ofNat 66807, [Char.ofNat 66767]),
   (Char.ofNat 66808, [Char.ofNat 66768]),
   (Char.ofNat 66809, [Char.ofNat 66769]),
   (Char.ofNat 66810, [Char.ofNat 66770]),
   (Char.ofNat 66811, [Char.ofNat 66771]),
   (Char.ofNat 66967, [Char.ofNat 66928]),
   (Char.ofNat 66968, [Char.ofNat 66929]),
   (Char.ofNat 66969, [Char.ofNat 66930]),
   (Char.ofNat 66970, [Char.ofNat 66931]),
   (Char.ofNat 66971, [Char.ofNat 66932]),
   (Char.ofNat 66972, [Char.ofNat 66933]),
   (Char.ofNat 66973, [Char.ofNat 66934]),
   (Char.ofNat 66974, [Char.ofNat 66935]),
   (Char.ofNat 66975, [Char.ofNat 66936]),
   (Char.ofNat 66976, [Char.ofNat 66937]),
   (Char.ofNat 66977, [Char.ofNat 66938]),
   (Char.ofNat 66979, [Char.ofNat 66940]),
   (Char.ofNat 66980, [Char.ofNat 66941]),
   (Char.ofNat 66981, [Char.ofNat 66942]),
   (Char.ofNat 66982, [Char.ofNat 66943]),
   (Char.ofNat 66983, [Char.ofNat 66944]),
   (Char.ofNat 66984, [Char.ofNat 66945]),
   (Char.ofNat 66985, [Char.ofNat 66946]),
   (Char.ofNat 66986, [Char.ofNat 66947]),
   (Char.ofNat 66987, [Char.ofNat 66948]),
   (Char.ofNat 66988, [Char.ofNat 66949]),
   (Char.ofNat 66989, [Char.ofNat 66950]),
   (Char.ofNat 66990, [Char.ofNat 66951]),
   (Char.ofNat 66991, [Char.ofNat 66952]),
   (Char.ofNat 66992, [Char.ofNat 66953]),
   (Char.ofNat 66993, [Char.ofNat 66954]),
   (Char.ofNat 66995, [Char.ofNat 66956]),
   (Char.ofNat 66996, [Char.ofNat 66957]),
   (Char.ofNat 66997, [Char.ofNat 66958]),
   (Char.ofNat 66998, [Char.ofNat 66959]),
   (Char.ofNat 66999, [Char.ofNat 66960]),
   (Char.ofNat 67000, [Char.ofNat 66961]),
   (Char.ofNat 67001, [Char.ofNat 66962]),
   (Char.ofNat 67003, [Char.ofNat 66964]),
   (Char.ofNat 67004, [Char.ofNat 66965]),
   (Char.ofNat 68800, [Char.ofNat 68736]),
   (Char.ofNat 68801, [Char.ofNat 68737]),
   (Char.ofNat 68802, [Char.ofNat 68738]),
   (Char.ofNat 68803, [Char.ofNat 68739]),
   (Char.ofNat 68804, [Char.ofNat 68740]),
   (Char.ofNat 68805, [Char.ofNat 68741]),
   (Char.ofNat 68806, [Char.ofNat 68742]),
   (Char.ofNat 68807, [Char.ofNat 68743]),
   (Char.ofNat 68808, [Char.ofNat 68744]),
   (Char.ofNat 68809, [Char.ofNat 68745]),
   (Char.ofNat 68810, [Char.ofNat 68746]),
   (Char.ofNat 68811, [Char.ofNat 68747]),
   (Char.ofNat 68812, [Char.ofNat 68748]),
   (Char.ofNat 68813, [Char.ofNat 68749]),
   (Char.ofNat 68814, [Char.ofNat 68750]),
   (Char.ofNat 68815, [Char.ofNat 68751]),
   (Char.ofNat 68816, [Char.ofNat 68752]),
   (Char.ofNat 68817, [Char.ofNat 68753]),
   (Char.ofNat 68818, [Char.ofNat 68754]),
   (Char.ofNat 68819, [Char.ofNat 68755]),
   (Char.ofNat 68820, [Char.ofNat 68756]),
   (Char.ofNat 68821, [Char.ofNat 68757]),
   (Char.ofNat 68822, [Char.ofNat 68758]),
   (Char.ofNat 68823, [Char.ofNat 68759]),
   (Char.ofNat 68824, [Char.ofNat 68760]),
   (Char.ofNat 68825, [Char.ofNat 68761]),
   (Char.ofNat 68826, [Char.ofNat 68762]),
   (Char.ofNat 68827, [Char.ofNat 68763]),
   (Char.ofNat 68828, [Char.ofNat 68764]),
   (Char.ofNat 68829, [Char.ofNat 68765]),
   (Char.ofNat 68830, [Char.ofNat 68766]),
   (Char.ofNat 68831, [Char.ofNat 68767]),
   (Char.ofNat 68832, [Char.ofNat 68768]),
   (Char.ofNat 68833, [Char.ofNat 68769]),
   (Char.ofNat 68834, [Char.ofNat 68770]),
   (Char.ofNat 68835, [Char.ofNat 68771]),
   (Char.ofNat 68836, [Char.ofNat 68772]),
   (Char.ofNat 68837, [Char.ofNat 68773]),
   (Char.ofNat 68838, [Char.ofNat 68774]),
   (Char.ofNat 68839, [Char.ofNat 68775]),
   (Char.ofNat 68840, [Char.ofNat 68776]),
   (Char.ofNat 68841, [Char.ofNat 68777]),
   (Char.ofNat 68842, [Char.ofNat 68778]),
   (Char.ofNat 68843, [Char.ofNat 68779]),
   (Char.ofNat 68844, [Char.ofNat 68780]),
   (Char.ofNat 68845, [Char.ofNat 68781]),
   (Char.ofNat 68846, [Char.ofNat 68782]),
   (Char.ofNat 68847, [Char.ofNat 68783]),
   (Char.ofNat 68848, [Char.ofNat 68784]),
   (Char.ofNat 68849, [Char.ofNat 68785]),
   (Char.ofNat 68850, [Char.ofNat 68786]),
   (Char.ofNat 71872, [Char.ofNat 71840]),
   (Char.ofNat 71873, [Char.ofNat 71841]),
   (Char.ofNat 71874, [Char.ofNat 71842]),
   (Char.ofNat 71875, [Char.ofNat 71843]),
   (Char.ofNat 71876, [Char.ofNat 71844]),
   (Char.ofNat 71877, [Char.ofNat 71845]),
   (Char.ofNat 71878, [Char.ofNat 71846]),
   (Char.ofNat 71879, [Char.ofNat 71847]),
   (Char.ofNat 71880, [Char.ofNat 71848]),
   (Char.ofNat 71881, [Char.ofNat 71849]),
   (Char.ofNat 71882, [Char.ofNat 71850]),
   (Char.ofNat 71883, [Char.ofNat 71851]),
   (Char.ofNat 71884, [Char.ofNat 71852]),
   (Char.ofNat 71885, [Char.ofNat 71853]),
   (Char.ofNat 71886, [Char.ofNat 71854]),
   (Char.ofNat 71887, [Char.ofNat 71855]),
   (Char.ofNat 71888, [Char.ofNat 71856]),
   (Char.ofNat 71889, [Char.ofNat 71857]),
   (Char.ofNat 71890, [Char.ofNat 71858]),
   (Char.ofNat 71891, [Char.ofNat 71859]),
   (Char.ofNat 71892, [Char.ofNat 71860]),
   (Char.ofNat 71893, [Char.ofNat 71861]),
   (Char.ofNat 71894, [Char.ofNat 71862]),
   (Char.ofNat 71895, [Char.ofNat 71863]),
   (Char.ofNat 71896, [Char.ofNat 71864]),
   (Char.ofNat 71897, [Char.ofNat 71865]),
   (Char.ofNat 71898, [Char.ofNat 71866]),
   (Char.ofNat 71899, [Char.ofNat 71867]),
   (Char.ofNat 71900, [Char.ofNat 71868]),
   (Char.ofNat 71901, [Char.ofNat 71869]),
   (Char.ofNat 71902, [Char.ofNat 71870]),
   (Char.ofNat 71903, [Char.ofNat 71871]),
   (Char.ofNat 93792, [Char.ofNat 93760]),
   (Char.ofNat 93793, [Char.ofNat 93761]),
   (Char.ofNat 93794, [Char.ofNat 93762]),
   (Char.ofNat 93795, [Char.ofNat 93763]),
   (Char.ofNat 93796, [Char.ofNat 93764]),
   (Char.ofNat 93797, [Char.ofNat 93765]),
   (Char.ofNat 93798, [Char.ofNat 93766]),
   (Char.ofNat 93799, [Char.ofNat 93767]),
   (Char.ofNat 93800, [Char.ofNat 93768]),
   (Char.ofNat 93801, [Char.ofNat 93769]),
   (Char.ofNat 93802, [Char.ofNat 93770]),
   (Char.ofNat 93803, [Char.ofNat 93771]),
   (Char.ofNat 93804, [Char.ofNat 93772]),
   (Char.ofNat 93805, [Char.ofNat 93773]),
   (Char.ofNat 93806, [Char.ofNat 93774]),
   (Char.ofNat 93807, [Char.ofNat 93775]),
   (Char.ofNat 93808, [Char.ofNat 93776]),
   (Char.ofNat 93809, [Char.ofNat 93777]),
   (Char.ofNat 93810, [Char.ofNat 93778]),
   (Char.ofNat 93811, [Char.ofNat 93779]),
   (Char.ofNat 93812, [Char.ofNat 93780]),
   (Char.ofNat 93813, [Char.ofNat 93781]),
   (Char.ofNat 93814, [Char.ofNat 93782]),
   (Char.ofNat 93815, [Char.ofNat 93783]),
   (Char.ofNat 93816, [Char.ofNat 93784]),
   (Char.ofNat 93817, [Char.ofNat 93785]),
   (Char.ofNat 93818, [Char.ofNat 93786]),
   (Char.ofNat 93819, [Char.ofNat 93787]),
   (Char.ofNat 93820, [Char.ofNat 93788]),
   (Char.ofNat 93821, [Char.ofNat 93789]),
   (Char.ofNat 93822, [Char.ofNat 93790]),
   (Char.ofNat 93823, [Char.ofNat 93791]),
   (Char.ofNat 125218, [Char.ofNat 125184]),
   (Char.ofNat 125219, [Char.ofNat 125185]),
   (Char.ofNat 125220, [Char.ofNat 125186]),
   (Char.ofNat 125221, [Char.ofNat 125187]),
   (Char.ofNat 125222, [Char.ofNat 125188]),
   (Char.ofNat 125223, [Char.ofNat 125189]),
   (Char.ofNat 125224, [Char.ofNat 125190]),
   (Char.ofNat 125225, [Char.ofNat 125191]),
   (Char.ofNat 125226, [Char.ofNat 125192]),
   (Char.ofNat 125227, [Char.ofNat 125193]),
   (Char.ofNat 125228, [Char.ofNat 125194]),
   (Char.ofNat 125229, [Char.ofNat 125195]),
   (Char.ofNat 125230, [Char.ofNat 125196]),
   (Char.ofNat 125231, [Char.ofNat 125197]),
   (Char.ofNat 125232, [Char.ofNat 125198]),
   (Char.ofNat 125233, [Char.ofNat 125199]),
   (Char.ofNat 125234, [Char.ofNat 125200]),
   (Char.ofNat 125235, [Char.ofNat 125201]),
   (Char.ofNat 125236, [Char.ofNat 125202]),
   (Char.ofNat 125237, [Char.ofNat 125203]),
   (Char.ofNat 125238, [Char.ofNat 125204]),
   (Char.ofNat 125239, [Char.ofNat 125205]),
   (Char.ofNat 125240, [Char.ofNat 125206]),
   (Char.ofNat 125241, [Char.ofNat 125207]),
   (Char.ofNat 125242, [Char.ofNat 125208]),
   (Char.ofNat 125243, [Char.ofNat 125209]),
   (Char.ofNat 125244, [Char.ofNat 125210]),
   (Char.ofNat 125245, [Char.ofNat 125211]),
   (Char.ofNat 125246, [Char.ofNat 125212]),
   (Char.ofNat 125247, [Char.ofNat 125213]),
   (Char.ofNat 125248, [Char.ofNat 125214]),
   (Char.ofNat 125249, [Char.ofNat 125215]),
   (Char.ofNat 125250, [Char.ofNat 125216]),
   (Char.ofNat 125251, [Char.ofNat 125217])]

/-- Python `str.upper()` on one character: full Unicode case mapping, whose
result may be several characters (e.g. the sharp s uppercases to SS). -/
def pyUpperChar (c : Char) : List Char :=
  if c.toNat < 128 then [pyUpperCharA c]
  else (UPPER_MAP_SUPP.lookup c).getD [c]

/-- The normalization `text.strip().upper()` applied by `parser.py` line 55 and
by `main.py` line 83 before any matching. -/
def pyNormalize (cs : List Char) : List Char :=
  (stripChars cs).flatMap pyUpperChar

/-- The code points matched by Python's regex class `\d` (Unicode category
Nd), as decades `base..base+9` whose decimal digit values are the offsets from
`base`.  Table generated from CPython 3.11's Unicode data. -/
def ND_RANGES : List (Nat × Nat) :=
  [   (48, 57), (1632, 1641), (1776, 1785), (1984, 1993),
   (2406, 2415), (2534, 2543), (2662, 2671), (2790, 2799),
   (2918, 2927), (3046, 3055), (3174, 3183), (3302, 3311),
   (3430, 3439), (3558, 3567), (3664, 3673), (3792, 3801),
   (3872, 3881), (4160, 4169), (4240, 4249), (6112, 6121),
   (6160, 6169), (6470, 6479), (6608, 6617), (6784, 6793),
   (6800, 6809), (6992, 7001), (7088, 7097), (7232, 7241),
   (7248, 7257), (42528, 42537), (43216, 43225), (43264, 43273),
   (43472, 43481), (43504, 43513), (43600, 43609), (44016, 44025),
   (65296, 65305), (66720, 66729), (68912, 68921), (69734, 69743),
   (69872, 69881), (69942, 69951), (70096, 70105), (70384, 70393),
   (70736, 70745), (70864, 70873), (71248, 71257), (71360, 71369),
   (71472, 71481), (71904, 71913), (72016, 72025), (72784, 72793),
   (73040, 73049), (73120, 73129), (92768, 92777), (92864, 92873),
   (93008, 93017), (120782, 120791), (120792, 120801), (120802, 120811),
   (120812, 120821), (120822, 120831), (123200, 123209), (123632, 123641),
   (125264, 125273), (130032, 130041)]

/-- The digit class `\d` of Python `re` on str patterns. -/
def pyIsDigit (c : Char) : Bool :=
  inRanges ND_RANGES c

/-- The decimal value `int()` assigns to one Unicode digit
(`unicodedata.decimal`): its offset within its decade. -/
def pyDigitValue (c : Char) : Nat :=
  match ND_RANGES.find? (fun r => r.1 ≤ c.toNat && c.toNat ≤ r.2) with
  | some r => c.toNat - r.1
  | none => 0

/-- Python `int()` on a string of Unicode decimal digits. -/
def natOfDigits (cs : List Char) : Nat :=
  cs.foldl (fun n c => 10 * n + pyDigitValue c) 0

/-- The closed variant type of trade intents.  `parser.py` returns these as
dicts keyed by `"action"`; the four dict shapes are the four constructors
(`STATUS` is recognized by `main.py`, see `recognize_command`). -/
inductive TradeIntent where
  | openOrder (action symbol : String) (strike : Nat) (option_type : String) (qty : Nat)
  | squareoffAll
  | squareoffLeg (symbol : String) (strike : Nat) (option_type : String)
  | statusQuery
  deriving DecidableEq, Repr

/-- Regex literal atom: match `lit` at the head of the input and return the
remainder. -/
def matchStart : List Char → List Char → Option (List Char)
  | [], cs => some cs
  | _ :: _, [] => none
  | l :: ls, c :: cs => if c = l then matchStart ls cs else none

/-- Ordered alternation of two literals, regex `(A|B)`.  Every alternation in
`parser.py` (`BUY|SELL`, `CE|PE`) has alternatives that differ in their first
character, so at most one alternative can match a given input and the committed
choice below is exactly the regex's backtracking alternation. -/
def matchAlt2 (a b cs : List Char) : Option (List Char × List Char) :=
  match matchStart a cs with
  | some r => some (a, r)
  | none =>
    match matchStart b cs with
    | some r => some (b, r)
    | none => none

/-- Regex atom `\s+`: at least one whitespace character, consumed greedily. -/
def eatWs1 : List Char → Option (List Char)
  | [] => none
  | c :: cs => if pyIsSpace c then some (cs.dropWhile pyIsSpace) else none

/-- Shallow embedding of `parser.py`'s

  `COMMAND_PATTERN = ^(BUY|SELL)\s+([A-Z]+)\s+(\d{4,6})\s+(CE|PE)\s+(\d+)$`

applied with `re.match` (anchored at both ends; the input has been stripped, so
the `$`-before-final-newline case cannot arise).  Each captured group is a
greedy run of its character class; since every class is disjoint from `\s`, the
regex engine's greedy matching with backtracking never succeeds with anything
other than the maximal runs taken below, so this deterministic matcher is
extensionally the regex.  `\d` is the Unicode digit class `pyIsDigit` and
`\s` the Unicode whitespace class `pyIsSpace`. -/
def COMMAND_PATTERN (cs : List Char) :
    Option (List Char × List Char × List Char × List Char × List Char) :=
  match matchAlt2 "BUY".data "SELL".data cs with
  | none => none
  | some (act, r1) =>
    match eatWs1 r1 with
    | none => none
    | some r2 =>
      let sym := r2.takeWhile Char.isUpper
      let r3 := r2.dropWhile Char.isUpper
      if sym = [] then none else
      match eatWs1 r3 with
      | none => none
      | some r4 =>
        let strike := r4.takeWhile pyIsDigit
        let r5 := r4.dropWhile pyIsDigit
        if strike.length < 4 ∨ 6 < strike.length then none else
        match eatWs1 r5 with
        | none => none
        | some r6 =>
          match matchAlt2 "CE".data "PE".data r6 with
          | none => none
          | some (ty, r7) =>
            match eatWs1 r7 with
            | none => none
            | some r8 =>
              let qty := r8.takeWhile pyIsDigit
              let r9 := r8.dropWhile pyIsDigit
              if qty = [] then none else
              if r9 = [] then some (act, sym, strike, ty, qty) else none

/-- Shallow embedding of `parser.py`'s

  `SQUAREOFF_LEG_PATTERN = ^SQUAREOFF\s+([A-Z]+)\s+(\d{4,6})\s+(CE|PE)$`

with the same determinization argument as `COMMAND_PATTERN`. -/
def SQUAREOFF_LEG_PATTERN (cs : List Char) :
    Option (List Char × List Char × List Char) :=
  match matchStart "SQUAREOFF".data cs with
  | none => none
  | some r1 =>
    match eatWs1 r1 with
    | none => none
    | some r2 =>
      let sym := r2.takeWhile Char.isUpper
      let r3 := r2.dropWhile Char.isUpper
      if sym = [] then none else
      match eatWs1 r3 with
      | none => none
      | some r4 =>
        let strike := r4.takeWhile pyIsDigit
        let r5 := r4.dropWhile pyIsDigit
        if strike.length < 4 ∨ 6 < strike.length then none else
        match eatWs1 r5 with
        | none => none
        | some r6 =>
          match matchAlt2 "CE".data "PE".data r6 with
          | none => none
          | some (ty, r7) => if r7 = [] then some (sym, strike, ty) else none

/-- The F&O-eligible index option symbols, `parser.py` line 24. -/
def VALID_SYMBOLS : List String :=
  ["NIFTY", "BANKNIFTY", "FINNIFTY", "MIDCPNIFTY", "SENSEX"]

/-- Body of `parse_command` after normalization (`parser.py` lines 57-89).
`SQUAREOFF_ALL_PATTERN` is the regex `^SQUAREOFF$`, which on a stripped string
is string equality.  Note that when `SQUAREOFF_LEG_PATTERN` matches but the
symbol is invalid the function returns `None` without trying
`COMMAND_PATTERN`, exactly as the early `return None` in the source. -/
def parse_core (t : List Char) : Option TradeIntent :=
  if t = "SQUAREOFF".data then some .squareoffAll
  else
    match SQUAREOFF_LEG_PATTERN t with
    | some (sym, strike, ty) =>
      if String.mk sym ∈ VALID_SYMBOLS then
        some (.squareoffLeg (String.mk sym) (natOfDigits strike) (String.mk ty))
      else none
    | none =>
      match COMMAND_PATTERN t with
      | some (act, sym, strike, ty, qty) =>
        if String.mk sym ∈ VALID_SYMBOLS then
          some (.openOrder (String.mk act) (String.mk sym) (natOfDigits strike)
            (String.mk ty) (natOfDigits qty))
        else none
      | none => none

/-- `parser.parse_command`: normalize (`text.strip().upper()`, line 55), then
match the three patterns in source order. -/
def parse_command (text : String) : Option TradeIntent :=
  parse_core (pyNormalize text.data)

/-- The per-message intent recognition of `main.receive_message`: the message
text is normalized (`main.py` line 83), the literal `STATUS` is dispatched
before parsing (line 98), and everything else goes through
`parse_command` (line 104). -/
def recognize_command (text : String) : Option TradeIntent :=
  let msg_text := String.mk (pyNormalize text.data)
  if msg_text = "STATUS" then some .statusQuery
  else parse_command msg_text

/-- The dict produced by `parse_command` for a BUY/SELL command, as consumed by
`risk_gate.py` and `angel_client.py` (`main.py` passes the parse result
through unchanged). -/
structure Trade where
  action : String
  symbol : String
  strike : Nat
  option_type : String
  qty : Nat
  deriving DecidableEq, Repr

namespace risk_gate

/-- Approximate premium prices, `risk_gate.py` lines 12-18. -/
def APPROX_PREMIUMS : List (String × Nat) :=
  [("NIFTY", 150), ("BANKNIFTY", 300), ("FINNIFTY", 100),
   ("MIDCPNIFTY", 80), ("SENSEX", 200)]

/-- Lot sizes, `risk_gate.py` lines 20-26. -/
def LOT_SIZES : List (String × Nat) :=
  [("NIFTY", 50), ("BANKNIFTY", 15), ("FINNIFTY", 40),
   ("MIDCPNIFTY", 75), ("SENSEX", 10)]

/-- The `RiskGate` configuration (`max_qty` is a maximum number of lots;
`max_order_value` is a float in the source, modelled as a rational). -/
structure RiskGate where
  max_qty : Nat
  max_order_value : ℚ

/-- The structured content of the human-readable rejection reason strings built
by `RiskGate.check` (each constructor carries exactly the data interpolated
into the corresponding f-string of the source). -/
inductive RiskReason where
  | qtyNotPositive
  | qtyExceedsMax (qty max_qty : Nat)
  | strikeNotRound (strike : Nat)
  | valueExceeds (est_value : Nat) (limit : ℚ)
  deriving DecidableEq

/-- Result of `RiskGate.check`, the `(True, "") | (False, reason)` tuple of the
source with the reason string in structured form. -/
inductive CheckResult where
  | ok
  | rejected (reason : RiskReason)
  deriving DecidableEq

/-- The estimated order value computed at `risk_gate.py` lines 55-58:
`qty * LOT_SIZES.get(symbol, 50) * APPROX_PREMIUMS.get(symbol, 200)`. -/
def est_value (t : Trade) : Nat :=
  t.qty * ((LOT_SIZES.lookup t.symbol).getD 50) * ((APPROX_PREMIUMS.lookup t.symbol).getD 200)

/-- `RiskGate.check`, `risk_gate.py` lines 38-66.  `trade["qty"]` is a
natural number (the parser builds it from digits), so the source's
`qty <= 0` is `qty = 0` here. -/
def RiskGate.check (g : RiskGate) (t : Trade) : CheckResult :=
  if t.qty = 0 then .rejected .qtyNotPositive
  else if g.max_qty < t.qty then .rejected (.qtyExceedsMax t.qty g.max_qty)
  else if t.strike % 50 ≠ 0 then .rejected (.strikeNotRound t.strike)
  else if g.max_order_value < (est_value t : ℚ) then
    .rejected (.valueExceeds (est_value t) g.max_order_value)
  else .ok

end risk_gate

namespace angel_client

/-- Lot sizes for index options, `angel_client.py` lines 26-32. -/
def LOT_SIZES : List (String × Nat) :=
  [("NIFTY", 50), ("BANKNIFTY", 15), ("FINNIFTY", 40),
   ("MIDCPNIFTY", 75), ("SENSEX", 10)]

/-- A broker position as consumed by `squareoff_all` / `squareoff_leg`
(`self._api.position()["data"]` entries).  The source reads `netqty`,
`exchange` and `producttype` through `dict.get` with defaults; a fetched
position carries all fields, so they are modelled as plain fields. -/
structure Position where
  tradingsymbol : String
  netqty : Int
  symboltoken : String
  exchange : String
  producttype : String
  deriving DecidableEq, Repr

/-- The `order_params` dict passed to `self._api.placeOrder`.  The source sends
`quantity` as `str(qty)`; the numeric value is modelled (stringification of a
natural number is injective and nothing downstream reads it back). -/
structure OrderParams where
  variety : String
  tradingsymbol : String
  symboltoken : String
  transactiontype : String
  exchange : String
  ordertype : String
  producttype : String
  duration : String
  quantity : Nat
  price : String
  squareoff : String
  stoploss : String
  deriving DecidableEq, Repr

/-- Behaviour of one `self._api.placeOrder` call: either a normal response dict
(`status`, `message`, `data.orderid`) or a raised exception. -/
inductive PlaceResp where
  | resp (status : Bool) (message : String) (orderid : String)
  | exn (msg : String)
  deriving DecidableEq, Repr

/-- Python exceptions crossing the embedded functions' boundaries.
`valueError` is the `ValueError` that `main.py` catches separately from
other exceptions; `runtimeError` is the `RuntimeError` raised on a
`status = False` response; `exn` is any other propagated exception
(e.g. the `NotImplementedError` of `_resolve_token`). -/
inductive PyErr where
  | valueError (msg : String)
  | runtimeError (msg : String)
  | exn (msg : String)
  deriving DecidableEq, Repr

/-- The closing `order_params` built for one non-flat position, identical at
`angel_client.py` lines 167-180 (`squareoff_all`) and 228-241
(`squareoff_leg`). -/
def close_params (p : Position) : OrderParams :=
  { variety := "NORMAL"
    tradingsymbol := p.tradingsymbol
    symboltoken := p.symboltoken
    transactiontype := if p.netqty > 0 then "SELL" else "BUY"
    exchange := p.exchange
    ordertype := "MARKET"
    producttype := p.producttype
    duration := "DAY"
    quantity := p.netqty.natAbs
    price := "0"
    squareoff := "0"
    stoploss := "0" }

/-- One entry of the `results` list of `squareoff_all`: the success-branch
append of lines 185-191 (`done`) or the exception-branch append of lines
194-197 (`failed`, whose dict has only `tradingsymbol` and `status`). -/
inductive SqOutcome where
  | done (tradingsymbol side : String) (qty : Nat) (orderid : Option String) (status : String)
  | failed (tradingsymbol status : String)
  deriving DecidableEq, Repr

/-- The body of the `squareoff_all` loop for one non-flat position
(`angel_client.py` lines 163-197): build the closing params, call
`placeOrder`, and record the outcome (an exception is caught and recorded,
not propagated). -/
def leg_outcome (broker : OrderParams → PlaceResp) (p : Position) : SqOutcome :=
  let close_side := if p.netqty > 0 then "SELL" else "BUY"
  let abs_qty := p.netqty.natAbs
  match broker (close_params p) with
  | .resp status message orderid =>
    .done p.tradingsymbol close_side abs_qty
      (if status then some orderid else none)
      (if status then "OK" else message)
  | .exn e => .failed p.tradingsymbol ("FAILED: " ++ e)

/-- `AngelOneClient.squareoff_all`, `angel_client.py` lines 144-199, over an
already-fetched position snapshot.  `place` gives the behaviour of the n-th
`placeOrder` call (`n` starts at the supplied index); flat positions are
skipped without a broker call. -/
def squareoff_all (place : Nat → OrderParams → PlaceResp) :
    Nat → List Position → List SqOutcome
  | _, [] => []
  | i, p :: rest =>
    if p.netqty = 0 then squareoff_all place i rest
    else leg_outcome (place i) p :: squareoff_all place (i + 1) rest

/-- The closing orders constructed by the `squareoff_all` loop, in loop order:
one per position with non-zero `netqty` (flat positions hit `continue`). -/
def squareoff_orders : List Position → List OrderParams
  | [] => []
  | p :: rest =>
    if p.netqty = 0 then squareoff_orders rest
    else close_params p :: squareoff_orders rest

/-- Successful result dict of `squareoff_leg`, lines 248-253. -/
structure LegResult where
  tradingsymbol : String
  side : String
  qty : Nat
  orderid : String
  deriving DecidableEq, Repr

/-- Whether a string starts with the given prefix characters
(Python `str.startswith`). -/
def startsWithL : List Char → List Char → Bool
  | _, [] => true
  | [], _ :: _ => false
  | c :: cs, l :: ls => (c == l) && startsWithL cs ls

/-- Whether a string ends with the given suffix characters
(Python `str.endswith`). -/
def endsWithL (s suf : List Char) : Bool :=
  startsWithL s.reverse suf.reverse

/-- The position filter of `squareoff_leg` (`angel_client.py` lines 213-218):
trading symbol starts with the queried symbol, ends with
`str(strike) + option_type`, and `netqty != 0`. -/
def leg_matches (symbol : String) (strike : Nat) (option_type : String)
    (p : Position) : Bool :=
  startsWithL p.tradingsymbol.data symbol.data
    && endsWithL p.tradingsymbol.data (toString strike ++ option_type).data
    && (p.netqty != 0)

/-- The part of `squareoff_leg` after the first matching position is selected
(`angel_client.py` lines 223-253): build the closing params, call
`placeOrder` once, raise `RuntimeError` on a `status = False` response,
otherwise return the result dict.  The second component counts `placeOrder`
invocations. -/
def leg_close (broker : OrderParams → PlaceResp) (pos : Position) :
    Except PyErr LegResult × Nat :=
  let close_side := if pos.netqty > 0 then "SELL" else "BUY"
  let abs_qty := pos.netqty.natAbs
  match broker (close_params pos) with
  | .resp status message orderid =>
    if status then
      (.ok { tradingsymbol := pos.tradingsymbol, side := close_side,
             qty := abs_qty, orderid := orderid }, 1)
    else (.error (.runtimeError message), 1)
  | .exn e => (.error (.exn e), 1)

/-- `AngelOneClient.squareoff_leg`, `angel_client.py` lines 201-253, over an
already-fetched position snapshot.  Zero matches raise `ValueError`
(`main.py` reports it as a user-facing warning, distinct from success and
from other failures); otherwise the first match in snapshot order is closed.
The second component counts `placeOrder` invocations. -/
def squareoff_leg (broker : OrderParams → PlaceResp) (positions : List Position)
    (symbol : String) (strike : Nat) (option_type : String) :
    Except PyErr LegResult × Nat :=
  match positions.filter (leg_matches symbol strike option_type) with
  | [] =>
    (.error (.valueError ("No open position found for " ++ symbol ++ " "
      ++ toString strike ++ " " ++ option_type)), 0)
  | pos :: _ => leg_close broker pos

/-- `AngelOneClient._get_trading_symbol`, `angel_client.py` lines 59-75:
`symbol + expiry_str + strike + option_type`, with the expiry string
(derived from the ambient current date) passed explicitly. -/
def get_trading_symbol (expiry_str : String) (symbol : String) (strike : Nat)
    (option_type : String) : String :=
  symbol ++ expiry_str ++ toString strike ++ option_type

/-- The message of the `NotImplementedError` raised by `_resolve_token`. -/
def RESOLVE_TOKEN_MSG : String :=
  "Implement resolve token by downloading AngelOne instrument master JSON"

/-- `AngelOneClient._resolve_token`, `angel_client.py` lines 117-133: the
instrument-master lookup is not implemented and unconditionally raises
`NotImplementedError` — the lookup is unavailable for every symbol. -/
def resolve_token (_trading_symbol : String) : Except String String :=
  .error RESOLVE_TOKEN_MSG

/-- `TRANSACTION_TYPE`, `angel_client.py` lines 19-22. -/
def TRANSACTION_TYPE : List (String × String) :=
  [("BUY", "BUY"), ("SELL", "SELL")]

/-- The `order_params` dict of `place_options_order` (lines 94-107), given an
already-resolved token.  `TRANSACTION_TYPE[action]` would raise `KeyError`
for keys other than BUY/SELL; the mapping is the identity on its two keys and
parser-produced trades only carry those, so the lookup is totalized with the
key itself. -/
def open_order_params (expiry_str tok : String) (t : Trade) : OrderParams :=
  let lot_size := (LOT_SIZES.lookup t.symbol).getD 50
  let total_qty := t.qty * lot_size
  { variety := "NORMAL"
    tradingsymbol := get_trading_symbol expiry_str t.symbol t.strike t.option_type
    symboltoken := tok
    transactiontype := (TRANSACTION_TYPE.lookup t.action).getD t.action
    exchange := "NFO"
    ordertype := "MARKET"
    producttype := "INTRADAY"
    duration := "DAY"
    quantity := total_qty
    price := "0"
    squareoff := "0"
    stoploss := "0" }

/-- `AngelOneClient.place_options_order`, `angel_client.py` lines 77-115.
In the source `_resolve_token` is called while the `order_params` dict
literal is being evaluated, so its exception propagates before
`self._api.placeOrder` can run; the embedding makes that sequencing explicit.
The second component counts `placeOrder` invocations. -/
def place_options_order (broker : OrderParams → PlaceResp) (expiry_str : String)
    (t : Trade) : Except PyErr (String × String) × Nat :=
  let trading_symbol := get_trading_symbol expiry_str t.symbol t.strike t.option_type
  match resolve_token trading_symbol with
  | .error e => (.error (.exn e), 0)
  | .ok tok =>
    match broker (open_order_params expiry_str tok t) with
    | .resp status message orderid =>
      if status then (.ok (orderid, message), 1)
      else (.error (.runtimeError message), 1)
    | .exn e => (.error (.exn e), 1)

end angel_client

/-! ### Specification-side grammar

The following definitions follow the words of §4.1 of the specification, not
the source: a command line is a sequence of whitespace-separated fields, and
the five numbered rules are read off the field list.  They exist solely to be
compared with the embedded parser in the refinement theorem for C2. -/

/-- Split into maximal whitespace-separated words (the accumulator holds the
current word reversed). -/
def splitWsAux : List Char → List Char → List (List Char)
  | [], acc => if acc = [] then [] else [acc.reverse]
  | c :: cs, acc =>
    if pyIsSpace c then
      if acc = [] then splitWsAux cs [] else acc.reverse :: splitWsAux cs []
    else splitWsAux cs (c :: acc)

/-- The whitespace-separated words of a string. -/
def splitWs (cs : List Char) : List (List Char) :=
  splitWsAux cs []

/-- Spec §4.1: a SYMBOL field is valid when it is in the valid symbol set. -/
def isSymbolTok (w : List Char) : Prop :=
  String.mk w ∈ VALID_SYMBOLS

instance (w : List Char) : Decidable (isSymbolTok w) := by
  unfold isSymbolTok; infer_instance

/-- Spec §4.1 rule 3: STRIKE must be 4-6 ASCII digits. -/
def isStrikeTok (w : List Char) : Prop :=
  (∀ c ∈ w, c.isDigit) ∧ 4 ≤ w.length ∧ w.length ≤ 6

instance (w : List Char) : Decidable (isStrikeTok w) := by
  unfold isStrikeTok; infer_instance

/-- Spec §4.1: the option type field is exactly CE or PE. -/
def isOptionTok (w : List Char) : Prop :=
  w = "CE".data ∨ w = "PE".data

instance (w : List Char) : Decidable (isOptionTok w) := by
  unfold isOptionTok; infer_instance

/-- The grammar of §4.1 read off the field list: rule 1 (`SQUAREOFF`),
rule 2 (`SQUAREOFF <SYMBOL> <STRIKE> <CE|PE>`, symbol validated, no
fall-through), rule 3 (`<BUY|SELL> <SYMBOL> <STRIKE> <CE|PE> <QTY>`),
rule 4 (`STATUS`), rule 5 (anything else is no intent).  The rules consume
distinct field counts, so the stated precedence order never disambiguates. -/
def tokIntent : List (List Char) → Option TradeIntent
  | [w] =>
    if w = "SQUAREOFF".data then some .squareoffAll
    else if w = "STATUS".data then some .statusQuery
    else none
  | [w, sym, strike, ty] =>
    if w = "SQUAREOFF".data ∧ isSymbolTok sym ∧ isStrikeTok strike ∧ isOptionTok ty then
      some (.squareoffLeg (String.mk sym) (natOfDigits strike) (String.mk ty))
    else none
  | [act, sym, strike, ty, qty] =>
    if (act = "BUY".data ∨ act = "SELL".data) ∧ isSymbolTok sym ∧ isStrikeTok strike
        ∧ isOptionTok ty ∧ qty ≠ [] ∧ (∀ c ∈ qty, c.isDigit) then
      some (.openOrder (String.mk act) (String.mk sym) (natOfDigits strike)
        (String.mk ty) (natOfDigits qty))
    else none
  | _ => none

/-- Spec §4.1 `parse`: normalize, split into fields, apply the grammar rules. -/
def grammar_parse (text : String) : Option TradeIntent :=
  tokIntent (splitWs (pyNormalize text.data))

/-- Spec §4.3: the `ClosingOrder` record produced by the Position Matcher. -/
structure ClosingOrder where
  tradingSymbol : String
  symbolToken : String
  side : String
  qty : Nat
  exchange : String
  productType : String
  deriving DecidableEq, Repr

/-- Spec §4.3 `matchAll`, following its words: one ClosingOrder per position
with non-zero net quantity (flat positions skipped silently), side SELL for a
long and BUY for a short, quantity the absolute net quantity. -/
def matchAll (positions : List angel_client.Position) : List ClosingOrder :=
  (positions.filter (fun p => p.netqty != 0)).map (fun (p : angel_client.Position) =>
    { tradingSymbol := p.tradingsymbol
      symbolToken := p.symboltoken
      side := if p.netqty > 0 then "SELL" else "BUY"
      qty := p.netqty.natAbs
      exchange := p.exchange
      productType := p.producttype })

/-- Projection of a broker `order_params` dict onto the spec's ClosingOrder
fields. -/
def ClosingOrder.ofParams (o : angel_client.OrderParams) : ClosingOrder :=
  { tradingSymbol := o.tradingsymbol
    symbolToken := o.symboltoken
    side := o.transactiontype
    qty := o.quantity
    exchange := o.exchange
    productType := o.producttype }


/-! ### Helper lemmas -/

/-- Structure of `squareoff_all`: one outcome per non-flat position, in
snapshot order, the i-th outcome produced by the i-th `placeOrder` call on
the i-th non-flat position alone. -/
theorem squareoff_all_eq_enum (place : Nat → angel_client.OrderParams → angel_client.PlaceResp)
    (n : Nat) (ps : List angel_client.Position) :
    angel_client.squareoff_all place n ps =
      (List.enumFrom n (ps.filter (fun p => p.netqty != 0))).map
        (fun x => angel_client.leg_outcome (place x.1) x.2) := by
  induction ps generalizing n with
  | nil => rfl
  | cons p rest ih =>
    by_cases hz : p.netqty = 0
    · simp [angel_client.squareoff_all, List.filter_cons, hz, ih]
    · simp [angel_client.squareoff_all, List.filter_cons, hz, ih, List.enumFrom]

/-! ### Claim theorems (first group) -/

/-- C1: `RiskGate.check` evaluates its four checks in the fixed order
qty-positive, qty-within-max-lots, strike-multiple-of-50, estimated-value
within bound; the first failing check's rejection (with its reason data) is
returned, `Ok` is returned exactly when all four pass; and the three
spec examples behave as stated (qty 101 against maxLots 100 rejected, strike
24030 rejected, NIFTY qty 1 strike 24000 estimated at 7,500 accepted under a
100,000 limit). -/
theorem c1_risk_gate_check_order :
    (∀ (g : risk_gate.RiskGate) (t : Trade),
      (risk_gate.RiskGate.check g t = .ok ↔
        0 < t.qty ∧ t.qty ≤ g.max_qty ∧ t.strike % 50 = 0 ∧
          (risk_gate.est_value t : ℚ) ≤ g.max_order_value)
      ∧ (risk_gate.RiskGate.check g t = .rejected .qtyNotPositive ↔ t.qty = 0)
      ∧ (0 < t.qty → g.max_qty < t.qty →
          risk_gate.RiskGate.check g t = .rejected (.qtyExceedsMax t.qty g.max_qty))
      ∧ (0 < t.qty → t.qty ≤ g.max_qty → t.strike % 50 ≠ 0 →
          risk_gate.RiskGate.check g t = .rejected (.strikeNotRound t.strike))
      ∧ (0 < t.qty → t.qty ≤ g.max_qty → t.strike % 50 = 0 →
          g.max_order_value < (risk_gate.est_value t : ℚ) →
          risk_gate.RiskGate.check g t =
            .rejected (.valueExceeds (risk_gate.est_value t) g.max_order_value)))
    ∧ risk_gate.RiskGate.check ⟨100, 100000⟩ ⟨"BUY", "NIFTY", 24000, "CE", 101⟩ =
        .rejected (.qtyExceedsMax 101 100)
    ∧ risk_gate.RiskGate.check ⟨100, 100000⟩ ⟨"BUY", "NIFTY", 24030, "CE", 1⟩ =
        .rejected (.strikeNotRound 24030)
    ∧ risk_gate.est_value ⟨"BUY", "NIFTY", 24000, "CE", 1⟩ = 7500
    ∧ risk_gate.RiskGate.check ⟨100, 100000⟩ ⟨"BUY", "NIFTY", 24000, "CE", 1⟩ = .ok := by
  refine ⟨?_, by decide, by decide, by decide, by decide⟩
  intro g t
  unfold risk_gate.RiskGate.check
  split_ifs with h1 h2 h3 h4
  · refine ⟨by simp [h1], by simp [h1], ?_, ?_, ?_⟩ <;> (intro hp; exfalso; omega)
  · refine ⟨?_, by simp [h1], fun _ _ => rfl, ?_, ?_⟩
    · constructor
      · intro h; exact absurd h (by simp)
      · rintro ⟨_, hle, _, _⟩; exfalso; omega
    · intro _ hle _; exfalso; omega
    · intro _ hle _ _; exfalso; omega
  · refine ⟨?_, by simp [h1], ?_, fun _ _ _ => rfl, ?_⟩
    · constructor
      · intro h; exact absurd h (by simp)
      · rintro ⟨_, _, hc, _⟩; exact absurd hc h3
    · intro _ hlt; exfalso; omega
    · intro _ _ hc _; exact absurd hc h3
  · refine ⟨?_, by simp [h1], ?_, ?_, fun _ _ _ _ => rfl⟩
    · constructor
      · intro h; exact absurd h (by simp)
      · rintro ⟨_, _, _, hv⟩; exact absurd h4 (not_lt.mpr hv)
    · intro _ hlt; exfalso; omega
    · intro _ _ hc; exact absurd hc h3
  · refine ⟨?_, by simp [h1], ?_, ?_, ?_⟩
    · constructor
      · intro _; exact ⟨by omega, by omega, not_not.mp h3, le_of_not_lt h4⟩
      · intro _; rfl
    · intro _ hlt; exfalso; omega
    · intro _ _ hc; exact absurd hc h3
    · intro _ _ _ hv; exact absurd hv h4

/-- Witness for C1 at a concrete rejected order. -/
theorem c1_risk_gate_check_order_witness :
    risk_gate.RiskGate.check ⟨100, 100000⟩ ⟨"SELL", "BANKNIFTY", 52000, "PE", 200⟩ =
      .rejected (.qtyExceedsMax 200 100) :=
  (c1_risk_gate_check_order.1 ⟨100, 100000⟩
    ⟨"SELL", "BANKNIFTY", 52000, "PE", 200⟩).2.2.1 (by decide) (by decide)

/-- C3: the closing orders emitted by squareoff-all are exactly one per
position with non-zero net quantity (flat positions skipped silently), with
side SELL for a long and BUY for a short and quantity the absolute net
quantity — i.e. the loop's emission agrees with the spec's `matchAll` — and on
the two-position example snapshot exactly one closing order is produced, side
SELL, qty 50. -/
theorem c3_matchall_emission :
    (∀ ps : List angel_client.Position,
      (angel_client.squareoff_orders ps).map ClosingOrder.ofParams = matchAll ps)
    ∧ angel_client.squareoff_orders
        [⟨"NIFTY24DEC24000CE", 50, "T1", "NFO", "INTRADAY"⟩,
         ⟨"NIFTY24DEC25000CE", 0, "T2", "NFO", "INTRADAY"⟩] =
      [{ variety := "NORMAL", tradingsymbol := "NIFTY24DEC24000CE", symboltoken := "T1",
         transactiontype := "SELL", exchange := "NFO", ordertype := "MARKET",
         producttype := "INTRADAY", duration := "DAY", quantity := 50,
         price := "0", squareoff := "0", stoploss := "0" }] := by
  constructor
  · intro ps
    induction ps with
    | nil => rfl
    | cons p rest ih =>
      by_cases hz : p.netqty = 0
      · simp [angel_client.squareoff_orders, matchAll, List.filter_cons, hz]
        simpa [matchAll] using ih
      · simp [angel_client.squareoff_orders, matchAll, List.filter_cons, hz,
          angel_client.close_params, ClosingOrder.ofParams]
        simpa [matchAll] using ih
  · decide

/-- C4: squareoff-leg considers exactly the positions whose trading symbol
starts with the queried symbol and ends with `strike ++ optionType` and whose
net quantity is non-zero; with no match it raises the distinct
`ValueError` (not a silent no-op), and with at least one match the closing
order is derived from the first match in snapshot order (opposite side,
absolute quantity). -/
theorem c4_squareoff_leg_matching :
    ∀ (broker : angel_client.OrderParams → angel_client.PlaceResp)
      (ps : List angel_client.Position) (symbol : String) (strike : Nat)
      (option_type : String),
      (∀ p : angel_client.Position,
        angel_client.leg_matches symbol strike option_type p = true ↔
          angel_client.startsWithL p.tradingsymbol.data symbol.data = true
          ∧ angel_client.endsWithL p.tradingsymbol.data
              (toString strike ++ option_type).data = true
          ∧ p.netqty ≠ 0)
      ∧ (ps.filter (angel_client.leg_matches symbol strike option_type) = [] →
          angel_client.squareoff_leg broker ps symbol strike option_type =
            (.error (.valueError ("No open position found for " ++ symbol ++ " "
              ++ toString strike ++ " " ++ option_type)), 0))
      ∧ (∀ (m : angel_client.Position) (rest : List angel_client.Position),
          ps.filter (angel_client.leg_matches symbol strike option_type) = m :: rest →
          angel_client.squareoff_leg broker ps symbol strike option_type =
            angel_client.leg_close broker m)
      ∧ (∀ (m : angel_client.Position) (msg oid : String),
          broker (angel_client.close_params m) = .resp true msg oid →
          (angel_client.leg_close broker m).1 =
            .ok { tradingsymbol := m.tradingsymbol,
                  side := if m.netqty > 0 then "SELL" else "BUY",
                  qty := m.netqty.natAbs, orderid := oid }) := by
  intro broker ps symbol strike option_type
  refine ⟨?_, ?_, ?_, ?_⟩
  · intro p
    simp [angel_client.leg_matches, Bool.and_eq_true, bne_iff_ne, and_assoc]
  · intro h
    unfold angel_client.squareoff_leg
    rw [h]
  · intro m rest h
    unfold angel_client.squareoff_leg
    rw [h]
  · intro m msg oid h
    unfold angel_client.leg_close
    rw [h]
    simp

/-- Witness for C4 on a concrete snapshot: a long NIFTY 24000 CE position next
to a flat one is matched and closed SELL 50, and a query for a strike nobody
holds raises the ValueError. -/
theorem c4_squareoff_leg_matching_witness :
    angel_client.squareoff_leg
      (fun _ => .resp true "SUCCESS" "OID1")
      [⟨"NIFTY24DEC25000CE", 0, "T2", "NFO", "INTRADAY"⟩,
       ⟨"NIFTY24DEC24000CE", 50, "T1", "NFO", "INTRADAY"⟩]
      "NIFTY" 24000 "CE" =
      angel_client.leg_close (fun _ => .resp true "SUCCESS" "OID1")
        ⟨"NIFTY24DEC24000CE", 50, "T1", "NFO", "INTRADAY"⟩
    ∧ angel_client.squareoff_leg
      (fun _ => .resp true "SUCCESS" "OID1")
      [⟨"NIFTY24DEC24000CE", 50, "T1", "NFO", "INTRADAY"⟩]
      "NIFTY" 99999 "CE" =
      (.error (.valueError "No open position found for NIFTY 99999 CE"), 0) :=
  ⟨(c4_squareoff_leg_matching (fun _ => .resp true "SUCCESS" "OID1")
      [⟨"NIFTY24DEC25000CE", 0, "T2", "NFO", "INTRADAY"⟩,
       ⟨"NIFTY24DEC24000CE", 50, "T1", "NFO", "INTRADAY"⟩]
      "NIFTY" 24000 "CE").2.2.1
      ⟨"NIFTY24DEC24000CE", 50, "T1", "NFO", "INTRADAY"⟩ [] (by decide),
   by
    have := (c4_squareoff_leg_matching (fun _ => .resp true "SUCCESS" "OID1")
      [⟨"NIFTY24DEC24000CE", 50, "T1", "NFO", "INTRADAY"⟩]
      "NIFTY" 99999 "CE").2.1 (by decide)
    simpa using this⟩

/-- C5 evaluation theorem: the broker client performs no transparent
re-authentication and no retry.  Whatever the broker replies, an operation
invokes `placeOrder` at most once, and when the one call fails with an
invalid-session response (`status = False`, as on an expired token) the
request ends immediately in a `RuntimeError` after exactly one call; the
embedding of `angel_client.py` contains no login transition at all outside
construction, because `_login` is never called after `__init__`. -/
theorem c5_no_reauth_no_retry :
    ∀ (broker : angel_client.OrderParams → angel_client.PlaceResp)
      (ps : List angel_client.Position) (symbol : String) (strike : Nat)
      (option_type : String) (expiry_str : String) (t : Trade),
      ((angel_client.squareoff_leg broker ps symbol strike option_type).2 ≤ 1)
      ∧ ((angel_client.place_options_order broker expiry_str t).2 ≤ 1)
      ∧ (∀ (m : angel_client.Position) (rest : List angel_client.Position)
          (msg oid : String),
          ps.filter (angel_client.leg_matches symbol strike option_type) = m :: rest →
          broker (angel_client.close_params m) = .resp false msg oid →
          angel_client.squareoff_leg broker ps symbol strike option_type =
            (.error (.runtimeError msg), 1)) := by
  intro broker ps symbol strike option_type expiry_str t
  refine ⟨?_, ?_, ?_⟩
  · unfold angel_client.squareoff_leg
    cases h : ps.filter (angel_client.leg_matches symbol strike option_type) with
    | nil => simp
    | cons m rest =>
      unfold angel_client.leg_close
      dsimp only
      split
      · split <;> simp
      · simp
  · unfold angel_client.place_options_order
    simp [angel_client.resolve_token]
  · intro m rest msg oid hf hb
    unfold angel_client.squareoff_leg angel_client.leg_close
    rw [hf]
    dsimp only
    rw [hb]
    simp

/-- Witness for C5: a concrete snapshot with one matching leg whose closing
order is answered with an invalid-session rejection ends as a `RuntimeError`
after exactly one `placeOrder` call. -/
theorem c5_no_reauth_no_retry_witness :
    angel_client.squareoff_leg
      (fun _ => .resp false "Invalid Token" "")
      [⟨"NIFTY24DEC24000CE", 50, "T1", "NFO", "INTRADAY"⟩]
      "NIFTY" 24000 "CE" =
      (.error (.runtimeError "Invalid Token"), 1) :=
  (c5_no_reauth_no_retry (fun _ => .resp false "Invalid Token" "")
      [⟨"NIFTY24DEC24000CE", 50, "T1", "NFO", "INTRADAY"⟩]
      "NIFTY" 24000 "CE" "24DEC" ⟨"BUY", "NIFTY", 24000, "CE", 1⟩).2.2
      ⟨"NIFTY24DEC24000CE", 50, "T1", "NFO", "INTRADAY"⟩ [] "Invalid Token" ""
      (by decide) rfl

/-- C6: during squareoff-all a failure on one leg does not abort the remaining
legs — the result list has exactly one outcome per non-flat position, in
snapshot order, the i-th outcome depending only on the i-th leg and the i-th
`placeOrder` behaviour (success with order id or failure with its reason); and
on a concrete snapshot whose first closing order raises, the second leg is
still attempted and both outcomes are reported. -/
theorem c6_partial_failure_isolation :
    (∀ (place : Nat → angel_client.OrderParams → angel_client.PlaceResp)
       (ps : List angel_client.Position),
      angel_client.squareoff_all place 0 ps =
        (List.enumFrom 0 (ps.filter (fun p => p.netqty != 0))).map
          (fun x => angel_client.leg_outcome (place x.1) x.2)
      ∧ (angel_client.squareoff_all place 0 ps).length =
          (ps.filter (fun p => p.netqty != 0)).length)
    ∧ angel_client.squareoff_all
        (fun i _ => if i = 0 then .exn "boom" else .resp true "SUCCESS" "OID42") 0
        [⟨"NIFTY24DEC24000CE", 50, "T1", "NFO", "INTRADAY"⟩,
         ⟨"NIFTY24DEC25000CE", 0, "T2", "NFO", "INTRADAY"⟩,
         ⟨"BANKNIFTY24DEC52000PE", -15, "T3", "NFO", "INTRADAY"⟩] =
      [.failed "NIFTY24DEC24000CE" "FAILED: boom",
       .done "BANKNIFTY24DEC52000PE" "BUY" 15 (some "OID42") "OK"] := by
  refine ⟨?_, by decide⟩
  intro place ps
  refine ⟨squareoff_all_eq_enum place 0 ps, ?_⟩
  rw [squareoff_all_eq_enum place 0 ps]
  simp

/-- C7: the instrument-token lookup is unavailable (it is unresolved for every
trading symbol), and placing an open order therefore fails before any order is
submitted — the result is an error and the number of `placeOrder` calls is
zero, so no order parameters with a fabricated token ever reach the broker. -/
theorem c7_unresolved_token_blocks_order :
    ∀ (broker : angel_client.OrderParams → angel_client.PlaceResp)
      (expiry_str : String) (t : Trade),
      (∀ ts : String, angel_client.resolve_token ts =
        .error angel_client.RESOLVE_TOKEN_MSG)
      ∧ angel_client.place_options_order broker expiry_str t =
          (.error (.exn angel_client.RESOLVE_TOKEN_MSG), 0) :=
  fun _ _ _ => ⟨fun _ => rfl, rfl⟩

/-- C9: the message dispatcher applied to the literal string STATUS yields the
StatusQuery intent (the literal is recognized by `main.receive_message`
before `parse_command` is consulted). -/
theorem c9_status_literal : recognize_command "STATUS" = some .statusQuery := by
  decide

/-- C10: for every risk-accepted open order, the quantity placed in the broker
order parameters is the intent's qty (lots) multiplied by the symbol's lot
size from the static table (NIFTY 50, BANKNIFTY 15, FINNIFTY 40, MIDCPNIFTY
75, SENSEX 10; 50 for a symbol absent from the table) — e.g. a NIFTY order
with qty 2 reaches the broker with quantity 100, not 2. -/
theorem c10_lot_size_conversion :
    (∀ (g : risk_gate.RiskGate) (t : Trade) (expiry_str tok : String),
      risk_gate.RiskGate.check g t = .ok →
        (angel_client.open_order_params expiry_str tok t).quantity =
          t.qty * ((angel_client.LOT_SIZES.lookup t.symbol).getD 50))
    ∧ angel_client.LOT_SIZES.lookup "NIFTY" = some 50
    ∧ angel_client.LOT_SIZES.lookup "BANKNIFTY" = some 15
    ∧ angel_client.LOT_SIZES.lookup "FINNIFTY" = some 40
    ∧ angel_client.LOT_SIZES.lookup "MIDCPNIFTY" = some 75
    ∧ angel_client.LOT_SIZES.lookup "SENSEX" = some 10
    ∧ (∀ sym : String,
        sym ∉ ["NIFTY", "BANKNIFTY", "FINNIFTY", "MIDCPNIFTY", "SENSEX"] →
        (angel_client.LOT_SIZES.lookup sym).getD 50 = 50)
    ∧ (angel_client.open_order_params "24DEC" "TOK"
        ⟨"BUY", "NIFTY", 24000, "CE", 2⟩).quantity = 100 := by
  refine ⟨?_, by decide, by decide, by decide, by decide, by decide, ?_, by decide⟩
  · intro g t expiry_str tok _
    rfl
  · intro sym h
    simp only [List.mem_cons, List.not_mem_nil, or_false, not_or] at h
    obtain ⟨h1, h2, h3, h4, h5⟩ := h
    have e1 : (sym == "NIFTY") = false := beq_eq_false_iff_ne.mpr h1
    have e2 : (sym == "BANKNIFTY") = false := beq_eq_false_iff_ne.mpr h2
    have e3 : (sym == "FINNIFTY") = false := beq_eq_false_iff_ne.mpr h3
    have e4 : (sym == "MIDCPNIFTY") = false := beq_eq_false_iff_ne.mpr h4
    have e5 : (sym == "SENSEX") = false := beq_eq_false_iff_ne.mpr h5
    simp [angel_client.LOT_SIZES, List.lookup, e1, e2, e3, e4, e5]

/-- Witness for C10 at a concrete risk-accepted order. -/
theorem c10_lot_size_conversion_witness :
    (angel_client.open_order_params "24DEC" "TOK"
      ⟨"BUY", "NIFTY", 24000, "CE", 2⟩).quantity =
      2 * ((angel_client.LOT_SIZES.lookup "NIFTY").getD 50) :=
  c10_lot_size_conversion.1 ⟨100, 100000⟩ ⟨"BUY", "NIFTY", 24000, "CE", 2⟩
    "24DEC" "TOK" (by decide)

/-! ### Parser refinement machinery -/

/-- A successful association-list lookup produces a member pair. -/
theorem lookup_mem {α β : Type} [BEq α] [LawfulBEq α] (l : List (α × β)) (a : α) (b : β)
    (h : l.lookup a = some b) : (a, b) ∈ l := by
  induction l with
  | nil => simp [List.lookup] at h
  | cons kv es ih =>
    obtain ⟨k, v⟩ := kv
    simp only [List.lookup] at h
    cases hk : (a == k) with
    | false => rw [hk] at h; exact List.mem_cons_of_mem _ (ih h)
    | true =>
      rw [hk] at h
      cases h
      have : a = k := eq_of_beq hk
      subst this
      exact List.mem_cons_self _ _

/-- ASCII uppercasing does not change whether a character is whitespace. -/
theorem pyIsSpace_pyUpperCharA (c : Char) : pyIsSpace (pyUpperCharA c) = pyIsSpace c := by
  unfold pyUpperCharA
  cases h : UPPER_MAP.lookup c with
  | none => simp
  | some u =>
    have hm : (c, u) ∈ UPPER_MAP := lookup_mem _ _ _ h
    have hall : ∀ x ∈ UPPER_MAP, pyIsSpace x.2 = false ∧ pyIsSpace x.1 = false := by decide
    obtain ⟨h2, h1⟩ := hall _ hm
    simp only [Option.getD_some]
    rw [h2, h1]

/-- ASCII uppercasing is idempotent. -/
theorem pyUpperCharA_idem (c : Char) : pyUpperCharA (pyUpperCharA c) = pyUpperCharA c := by
  unfold pyUpperCharA
  cases h : UPPER_MAP.lookup c with
  | none => simp [h]
  | some u =>
    have hm : (c, u) ∈ UPPER_MAP := lookup_mem _ _ _ h
    have hall : ∀ x ∈ UPPER_MAP, UPPER_MAP.lookup x.2 = none := by decide
    simp only [Option.getD_some]
    rw [hall _ hm]
    rfl

/-- The string does not begin with whitespace. -/
def NoLead (cs : List Char) : Prop :=
  ∀ d ds, cs = d :: ds → pyIsSpace d = false

/-- The string does not end with whitespace. -/
def NoTrail (cs : List Char) : Prop :=
  NoLead cs.reverse

theorem noLead_nil : NoLead [] := by intro d ds h; cases h

theorem noLead_dropWhile_space (l : List Char) : NoLead (l.dropWhile pyIsSpace) := by
  induction l with
  | nil => exact noLead_nil
  | cons c cs ih =>
    intro d ds h
    rw [List.dropWhile_cons] at h
    by_cases hc : pyIsSpace c = true
    · rw [if_pos hc] at h; exact ih d ds h
    · rw [if_neg hc] at h
      cases h
      simpa using hc

/-- A prefix of a string with no leading whitespace has no leading
whitespace. -/
theorem NoLead.of_front {l r : List Char} (h : NoLead l) (hp : r <+: l) : NoLead r := by
  intro d ds he
  obtain ⟨t, ht⟩ := hp
  subst he
  exact h d (ds ++ t) (by rw [← ht]; simp)

/-- A suffix of a string with no trailing whitespace has no trailing
whitespace. -/
theorem NoTrail.of_suffix {l r : List Char} (h : NoTrail l) (hs : r <:+ l) : NoTrail r := by
  have h2 := List.reverse_prefix.mpr hs
  exact NoLead.of_front h h2

theorem noLead_stripChars (cs : List Char) : NoLead (stripChars cs) := by
  unfold stripChars
  refine NoLead.of_front (noLead_dropWhile_space cs) ?_
  have h1 : ((cs.dropWhile pyIsSpace).reverse.dropWhile pyIsSpace) <:+
      (cs.dropWhile pyIsSpace).reverse := List.dropWhile_suffix _
  have h2 := List.reverse_prefix.mpr h1
  simpa using h2

theorem noTrail_stripChars (cs : List Char) : NoTrail (stripChars cs) := by
  unfold NoTrail stripChars
  rw [List.reverse_reverse]
  exact noLead_dropWhile_space _

/-- Stripping a string with no leading and no trailing whitespace is the
identity. -/
theorem stripChars_eq_self {l : List Char} (h1 : NoLead l) (h2 : NoTrail l) :
    stripChars l = l := by
  unfold stripChars
  have e1 : l.dropWhile pyIsSpace = l := by
    cases l with
    | nil => rfl
    | cons c cs => exact List.dropWhile_cons_of_neg (by simp [h1 c cs rfl])
  rw [e1]
  have e2 : l.reverse.dropWhile pyIsSpace = l.reverse := by
    cases hr : l.reverse with
    | nil => rfl
    | cons c cs => exact List.dropWhile_cons_of_neg (by simp [h2 c cs hr])
  rw [e2, List.reverse_reverse]

/-- Stripping commutes with ASCII uppercasing. -/
theorem stripChars_map_upper (l : List Char) :
    stripChars (l.map pyUpperCharA) = (stripChars l).map pyUpperCharA := by
  unfold stripChars
  have hfun : (pyIsSpace ∘ pyUpperCharA) = pyIsSpace := by
    funext c; exact pyIsSpace_pyUpperCharA c
  rw [List.dropWhile_map, hfun, ← List.map_reverse, List.dropWhile_map, hfun,
    ← List.map_reverse]

theorem noLead_map_upper {l : List Char} (h : NoLead l) : NoLead (l.map pyUpperCharA) := by
  intro d ds he
  cases l with
  | nil => cases he
  | cons c cs =>
    simp only [List.map_cons, List.cons.injEq] at he
    rw [← he.1, pyIsSpace_pyUpperCharA]
    exact h c cs rfl

/-- ASCII uppercasing stays within ASCII. -/
theorem pyUpperCharA_ascii {c : Char} (h : c.toNat < 128) : (pyUpperCharA c).toNat < 128 := by
  unfold pyUpperCharA
  cases hl : UPPER_MAP.lookup c with
  | none => simpa using h
  | some u =>
    have hm : (c, u) ∈ UPPER_MAP := lookup_mem _ _ _ hl
    have hall : ∀ x ∈ UPPER_MAP, x.2.toNat < 128 := by decide
    simpa using hall _ hm

/-- On an ASCII character the Unicode uppercase is the single-character
ASCII map. -/
theorem pyUpperChar_ascii {c : Char} (h : c.toNat < 128) :
    pyUpperChar c = [pyUpperCharA c] := by
  unfold pyUpperChar
  rw [if_pos h]

/-- On an ASCII string the one-to-many Unicode uppercase degenerates to the
character-for-character ASCII map. -/
theorem flatMap_upper_ascii {l : List Char} (h : ∀ c ∈ l, c.toNat < 128) :
    l.flatMap pyUpperChar = l.map pyUpperCharA := by
  induction l with
  | nil => rfl
  | cons c l ih =>
    rw [List.flatMap_cons, pyUpperChar_ascii (h c (by simp)),
      ih (fun x hx => h x (by simp [hx])), List.map_cons]
    rfl

/-- Stripping only removes characters. -/
theorem stripChars_subset {cs : List Char} : ∀ c ∈ stripChars cs, c ∈ cs := by
  intro c hc
  unfold stripChars at hc
  rw [List.mem_reverse] at hc
  have h1 := (List.dropWhile_suffix (l := (cs.dropWhile pyIsSpace).reverse) pyIsSpace).subset hc
  rw [List.mem_reverse] at h1
  exact (List.dropWhile_suffix pyIsSpace).subset h1

/-- On ASCII input, normalization is strip followed by the ASCII upper map. -/
theorem pyNormalize_ascii_eq {cs : List Char} (h : ∀ c ∈ cs, c.toNat < 128) :
    pyNormalize cs = (stripChars cs).map pyUpperCharA := by
  unfold pyNormalize
  exact flatMap_upper_ascii (fun c hc => h c (stripChars_subset c hc))

/-- Normalization preserves ASCII-ness. -/
theorem ascii_pyNormalize {cs : List Char} (h : ∀ c ∈ cs, c.toNat < 128) :
    ∀ c ∈ pyNormalize cs, c.toNat < 128 := by
  intro c hc
  rw [pyNormalize_ascii_eq h] at hc
  obtain ⟨x, hx, rfl⟩ := List.mem_map.mp hc
  exact pyUpperCharA_ascii (h x (stripChars_subset x hx))

theorem noLead_pyNormalize_ascii {cs : List Char} (h : ∀ c ∈ cs, c.toNat < 128) :
    NoLead (pyNormalize cs) := by
  rw [pyNormalize_ascii_eq h]
  exact noLead_map_upper (noLead_stripChars cs)

theorem noTrail_pyNormalize_ascii {cs : List Char} (h : ∀ c ∈ cs, c.toNat < 128) :
    NoTrail (pyNormalize cs) := by
  rw [pyNormalize_ascii_eq h]
  unfold NoTrail
  rw [← List.map_reverse]
  exact noLead_map_upper (noTrail_stripChars cs)

/-- On ASCII input, normalization (strip + upper) is idempotent, so the double
normalization performed by `main.py` line 83 followed by `parser.py` line 55
equals a single normalization there. -/
theorem pyNormalize_idem_ascii {cs : List Char} (h : ∀ c ∈ cs, c.toNat < 128) :
    pyNormalize (pyNormalize cs) = pyNormalize cs := by
  have h1 := ascii_pyNormalize h
  rw [pyNormalize_ascii_eq h1, pyNormalize_ascii_eq h]
  rw [stripChars_map_upper,
    stripChars_eq_self (noLead_stripChars cs) (noTrail_stripChars cs),
    List.map_map]
  congr 1
  funext c
  exact pyUpperCharA_idem c

/-- The head of a dropWhile result fails the predicate. -/
theorem dropWhile_head_false {α : Type} {p : α → Bool} {l : List α} {d : α} {ds : List α}
    (h : l.dropWhile p = d :: ds) : p d = false := by
  have hh := List.head?_dropWhile_not p l
  rw [h] at hh
  simpa using hh

theorem splitWs_nil : splitWs [] = [] := rfl

/-- Skipping one leading whitespace character. -/
theorem splitWs_cons_space {c : Char} {cs : List Char} (hc : pyIsSpace c = true) :
    splitWs (c :: cs) = splitWs cs := by
  unfold splitWs
  simp [splitWsAux, hc]

/-- Consuming a whole run of non-whitespace characters into the accumulator. -/
theorem splitWsAux_nonspace_append (w : List Char) (hw : ∀ c ∈ w, pyIsSpace c = false)
    (cs acc : List Char) :
    splitWsAux (w ++ cs) acc = splitWsAux cs (w.reverse ++ acc) := by
  induction w generalizing acc with
  | nil => simp
  | cons a w' ih =>
    have ha : pyIsSpace a = false := hw a (by simp)
    simp only [List.cons_append, splitWsAux, ha, Bool.false_eq_true, if_false,
      List.append_eq]
    rw [ih (fun c hc => hw c (by simp [hc])) (a :: acc)]
    congr 1
    simp

/-- Skipping a whole run of whitespace between words. -/
theorem splitWsAux_space_append (sp : List Char) (hsp : ∀ c ∈ sp, pyIsSpace c = true)
    (cs : List Char) :
    splitWsAux (sp ++ cs) [] = splitWsAux cs [] := by
  induction sp with
  | nil => rfl
  | cons a sp' ih =>
    have ha : pyIsSpace a = true := hsp a (by simp)
    simp only [List.cons_append, splitWsAux, ha, if_true, List.append_eq]
    exact ih (fun c hc => hsp c (by simp [hc]))

/-- Splitting ignores leading whitespace. -/
theorem splitWs_dropWhile_space (l : List Char) :
    splitWs (l.dropWhile pyIsSpace) = splitWs l := by
  induction l with
  | nil => rfl
  | cons c cs ih =>
    by_cases hc : pyIsSpace c = true
    · rw [List.dropWhile_cons_of_pos hc, ih, splitWs_cons_space hc]
    · rw [List.dropWhile_cons_of_neg hc]

/-- Unfolding one word: for a non-whitespace head, the first token is the
maximal non-whitespace run and splitting continues after it. -/
theorem splitWs_cons_nonspace {c : Char} {cs : List Char} (hc : pyIsSpace c = false) :
    splitWs (c :: cs) =
      (c :: cs.takeWhile (fun d => !pyIsSpace d)) ::
        splitWs (cs.dropWhile (fun d => !pyIsSpace d)) := by
  have hw : ∀ x ∈ c :: cs.takeWhile (fun d => !pyIsSpace d), pyIsSpace x = false := by
    intro x hx
    rcases List.mem_cons.mp hx with rfl | hx'
    · exact hc
    · simpa using List.mem_takeWhile_imp hx'
  have hdecomp : c :: cs =
      (c :: cs.takeWhile (fun d => !pyIsSpace d)) ++ cs.dropWhile (fun d => !pyIsSpace d) := by
    simp [List.takeWhile_append_dropWhile]
  conv =>
    lhs
    rw [hdecomp]
  unfold splitWs
  rw [splitWsAux_nonspace_append _ hw _ []]
  cases hrest : cs.dropWhile (fun d => !pyIsSpace d) with
  | nil =>
    simp [splitWsAux]
  | cons d ds =>
    have hd : pyIsSpace d = true := by
      have := dropWhile_head_false hrest
      simpa using this
    simp only [splitWsAux, hd, if_true, List.append_nil, List.reverse_append,
      List.reverse_cons, List.reverse_reverse]
    simp [splitWs_cons_space hd]

/-- Splitting a word, a whitespace run, and a remainder. -/
theorem splitWs_word_append (w sp rest : List Char) (hw : w ≠ [])
    (hwc : ∀ c ∈ w, pyIsSpace c = false) (hsp : sp ≠ [])
    (hspc : ∀ c ∈ sp, pyIsSpace c = true) :
    splitWs (w ++ sp ++ rest) = w :: splitWs rest := by
  unfold splitWs
  rw [List.append_assoc, splitWsAux_nonspace_append w hwc _ []]
  cases sp with
  | nil => exact absurd rfl hsp
  | cons d ds =>
    have hd : pyIsSpace d = true := hspc d (by simp)
    simp only [List.append_nil, List.cons_append, splitWsAux, hd, if_true,
      List.append_eq]
    have hne : w.reverse ≠ [] := by simpa using hw
    rw [if_neg hne, List.reverse_reverse]
    congr 1
    exact splitWsAux_space_append ds (fun c hc => hspc c (by simp [hc])) rest

/-- Splitting a single word. -/
theorem splitWs_word_only (w : List Char) (hw : w ≠ [])
    (hwc : ∀ c ∈ w, pyIsSpace c = false) :
    splitWs w = [w] := by
  unfold splitWs
  have h := splitWsAux_nonspace_append w hwc [] []
  rw [List.append_nil] at h
  rw [h]
  have hne : w.reverse ≠ [] := by simpa using hw
  simp [splitWsAux, hne]

/-- A string splits into no words exactly when it is all whitespace. -/
theorem splitWs_eq_nil_iff (l : List Char) :
    splitWs l = [] ↔ ∀ c ∈ l, pyIsSpace c = true := by
  induction l with
  | nil => simp [splitWs_nil]
  | cons c cs ih =>
    by_cases hc : pyIsSpace c = true
    · rw [splitWs_cons_space hc]
      simp [hc, ih]
    · rw [splitWs_cons_nonspace (Bool.eq_false_iff.mpr hc)]
      constructor
      · intro h
        exact absurd h (List.cons_ne_nil _ _)
      · intro h
        exact absurd (h c (by simp)) (by simpa using hc)

/-- Every word produced by splitting is nonempty and contains no
whitespace. -/
theorem splitWsAux_token_props (cs : List Char) :
    ∀ (acc : List Char), (∀ c ∈ acc, pyIsSpace c = false) →
      ∀ t ∈ splitWsAux cs acc, t ≠ [] ∧ ∀ c ∈ t, pyIsSpace c = false := by
  induction cs with
  | nil =>
    intro acc hacc t ht
    unfold splitWsAux at ht
    by_cases h : acc = []
    · rw [if_pos h] at ht; cases ht
    · rw [if_neg h] at ht
      simp only [List.mem_singleton] at ht
      subst ht
      exact ⟨by simpa using h, fun c hc => hacc c (by simpa using hc)⟩
  | cons a cs' ih =>
    intro acc hacc t ht
    by_cases ha : pyIsSpace a = true
    · unfold splitWsAux at ht
      rw [if_pos ha] at ht
      by_cases h : acc = []
      · rw [if_pos h] at ht
        exact ih [] (by simp) t ht
      · rw [if_neg h] at ht
        rcases List.mem_cons.mp ht with rfl | ht'
        · exact ⟨by simpa using h, fun c hc => hacc c (by simpa using hc)⟩
        · exact ih [] (by simp) t ht'
    · unfold splitWsAux at ht
      rw [if_neg ha] at ht
      refine ih (a :: acc) ?_ t ht
      intro c hc
      rcases List.mem_cons.mp hc with rfl | hc'
      · simpa using ha
      · exact hacc c hc'

/-- Words of a split are nonempty and whitespace-free. -/
theorem splitWs_token_props {cs t : List Char} (ht : t ∈ splitWs cs) :
    t ≠ [] ∧ ∀ c ∈ t, pyIsSpace c = false :=
  splitWsAux_token_props cs [] (by simp) t ht

/-- Characterization of the literal-matching atom. -/
theorem matchStart_some_iff (lit : List Char) :
    ∀ (cs r : List Char), matchStart lit cs = some r ↔ cs = lit ++ r := by
  induction lit with
  | nil => intro cs r; simp [matchStart]
  | cons l ls ih =>
    intro cs r
    cases cs with
    | nil => simp [matchStart]
    | cons c cs' =>
      by_cases hc : c = l
      · subst hc
        simp [matchStart, ih]
      · simp [matchStart, hc]

/-- Peeling the first word off a stripped string: if it splits as `t :: ts` and
every character of `t` lies in a whitespace-free class `p`, then the greedy
`p`-run is exactly `t`; when `ts` is empty the string ends there, and otherwise
a whitespace run follows, after which the (still stripped) remainder splits as
`ts`. -/
theorem peel_word {p : Char → Bool} (hp : ∀ c, p c = true → pyIsSpace c = false)
    {cs t : List Char} {ts : List (List Char)}
    (hlead : NoLead cs) (htrail : NoTrail cs)
    (hsplit : splitWs cs = t :: ts) (htp : ∀ c ∈ t, p c = true) :
    cs.takeWhile p = t
    ∧ (ts = [] → cs.dropWhile p = [])
    ∧ (ts ≠ [] → ∃ d ds, cs.dropWhile p = d :: ds ∧ pyIsSpace d = true
        ∧ NoLead (ds.dropWhile pyIsSpace) ∧ NoTrail (ds.dropWhile pyIsSpace)
        ∧ splitWs (ds.dropWhile pyIsSpace) = ts) := by
  cases cs with
  | nil => rw [splitWs_nil] at hsplit; cases hsplit
  | cons c cs0 =>
    have hc : pyIsSpace c = false := hlead c cs0 rfl
    rw [splitWs_cons_nonspace hc] at hsplit
    obtain ⟨ht, hts⟩ : t = c :: cs0.takeWhile (fun d => !pyIsSpace d)
        ∧ splitWs (cs0.dropWhile (fun d => !pyIsSpace d)) = ts := by
      cases hsplit; exact ⟨rfl, rfl⟩
    have hdecomp : c :: cs0 = t ++ cs0.dropWhile (fun d => !pyIsSpace d) := by
      rw [ht]
      simp [List.takeWhile_append_dropWhile]
    have hrest_shape : cs0.dropWhile (fun d => !pyIsSpace d) = []
        ∨ ∃ d ds, cs0.dropWhile (fun d => !pyIsSpace d) = d :: ds ∧ pyIsSpace d = true := by
      cases hr : cs0.dropWhile (fun d => !pyIsSpace d) with
      | nil => exact Or.inl rfl
      | cons d ds =>
        refine Or.inr ⟨d, ds, rfl, ?_⟩
        have := dropWhile_head_false hr
        simpa using this
    have htake : (c :: cs0).takeWhile p = t := by
      rw [hdecomp, List.takeWhile_append_of_pos (by intro a ha; exact htp a (ht ▸ ha))]
      rcases hrest_shape with hr | ⟨d, ds, hr, hd⟩
      · rw [hr]; simp
      · rw [hr, List.takeWhile_cons_of_neg (by intro hpd; rw [hp d hpd] at hd; cases hd)]
        simp
    have hdrop : (c :: cs0).dropWhile p = cs0.dropWhile (fun d => !pyIsSpace d) := by
      rw [hdecomp, List.dropWhile_append_of_pos (by intro a ha; exact htp a (ht ▸ ha))]
      rcases hrest_shape with hr | ⟨d, ds, hr, hd⟩
      · rw [hr]; simp
      · rw [hr, List.dropWhile_cons_of_neg (by intro hpd; rw [hp d hpd] at hd; cases hd)]
    refine ⟨htake, ?_, ?_⟩
    · intro htsnil
      rw [htsnil] at hts
      have hallsp : ∀ x ∈ cs0.dropWhile (fun d => !pyIsSpace d), pyIsSpace x = true :=
        (splitWs_eq_nil_iff _).mp hts
      rw [hdrop]
      rcases hrest_shape with hr | ⟨d, ds, hr, hd⟩
      · exact hr
      · exfalso
        have hsuf : cs0.dropWhile (fun d => !pyIsSpace d) <:+ c :: cs0 := by
          rw [hdecomp]
          exact ⟨t, rfl⟩
        have htr : NoTrail (cs0.dropWhile (fun d => !pyIsSpace d)) :=
          NoTrail.of_suffix htrail hsuf
        have hne : cs0.dropWhile (fun d => !pyIsSpace d) ≠ [] := by rw [hr]; simp
        obtain ⟨e, es, her⟩ : ∃ e es,
            (cs0.dropWhile (fun d => !pyIsSpace d)).reverse = e :: es := by
          cases hrr : (cs0.dropWhile (fun d => !pyIsSpace d)).reverse with
          | nil => exact absurd (by simpa using hrr) hne
          | cons e es => exact ⟨e, es, rfl⟩
        have hef : pyIsSpace e = false := htr e es her
        have hem : e ∈ cs0.dropWhile (fun d => !pyIsSpace d) := by
          rw [← List.mem_reverse, her]
          simp
        rw [hallsp e hem] at hef
        cases hef
    · intro htsne
      rcases hrest_shape with hr | ⟨d, ds, hr, hd⟩
      · rw [hr, splitWs_nil] at hts
        exact absurd hts.symm htsne
      · refine ⟨d, ds, by rw [hdrop, hr], hd, noLead_dropWhile_space ds, ?_, ?_⟩
        · have hsuf : ds.dropWhile pyIsSpace <:+ c :: cs0 := by
            refine List.IsSuffix.trans (List.dropWhile_suffix pyIsSpace) ?_
            refine List.IsSuffix.trans (List.suffix_cons d ds) ?_
            rw [hdecomp, hr]
            exact ⟨t, rfl⟩
          exact NoTrail.of_suffix htrail hsuf
        · rw [splitWs_dropWhile_space]
          have : splitWs (d :: ds) = splitWs ds := splitWs_cons_space hd
          rw [hr] at hts
          rw [← hts, this]

/-- Characterization of a successful `\s+` match. -/
theorem eatWs1_some {l r : List Char} (h : eatWs1 l = some r) :
    ∃ d ds, l = d :: ds ∧ pyIsSpace d = true ∧ r = ds.dropWhile pyIsSpace := by
  cases l with
  | nil => cases h
  | cons c cs =>
    by_cases hc : pyIsSpace c = true
    · refine ⟨c, cs, rfl, hc, ?_⟩
      simp only [eatWs1] at h
      rw [if_pos hc] at h
      cases h
      rfl
    · simp only [eatWs1] at h
      rw [if_neg hc] at h
      cases h

/-- The `\s+` atom succeeds on a whitespace-headed string. -/
theorem eatWs1_cons_space {d : Char} {ds : List Char} (hd : pyIsSpace d = true) :
    eatWs1 (d :: ds) = some (ds.dropWhile pyIsSpace) := by
  simp only [eatWs1]
  rw [if_pos hd]

/-- Soundness of committed alternation: the matched word is one of the two
literals and a prefix of the input. -/
theorem matchAlt2_sound {a b cs w r : List Char}
    (h : matchAlt2 a b cs = some (w, r)) :
    (w = a ∨ w = b) ∧ cs = w ++ r := by
  unfold matchAlt2 at h
  cases ha : matchStart a cs with
  | some ra =>
    rw [ha] at h
    cases h
    exact ⟨Or.inl rfl, ((matchStart_some_iff a cs r).mp ha)⟩
  | none =>
    rw [ha] at h
    cases hb : matchStart b cs with
    | some rb =>
      rw [hb] at h
      cases h
      exact ⟨Or.inr rfl, ((matchStart_some_iff b cs r).mp hb)⟩
    | none => rw [hb] at h; cases h

/-- Completeness of alternation, first alternative. -/
theorem matchAlt2_left {a b cs r : List Char} (h : cs = a ++ r) :
    matchAlt2 a b cs = some (a, r) := by
  unfold matchAlt2
  rw [(matchStart_some_iff a cs r).mpr h]

/-- Completeness of alternation, second alternative (the first must fail). -/
theorem matchAlt2_right {a b cs r : List Char} (ha : matchStart a cs = none)
    (h : cs = b ++ r) : matchAlt2 a b cs = some (b, r) := by
  unfold matchAlt2
  rw [ha, (matchStart_some_iff b cs r).mpr h]

/-- BUY cannot match at the head of SELL-prefixed input (first characters
differ). -/
theorem matchStart_BUY_of_SELL (r : List Char) :
    matchStart "BUY".data ("SELL".data ++ r) = none := by
  have h1 : "SELL".data = 'S' :: "ELL".data := rfl
  have h2 : "BUY".data = 'B' :: "UY".data := rfl
  rw [h1, h2, List.cons_append]
  unfold matchStart
  rw [if_neg (by decide)]

/-- CE cannot match at the head of PE-prefixed input. -/
theorem matchStart_CE_of_PE (r : List Char) :
    matchStart "CE".data ("PE".data ++ r) = none := by
  have h1 : "PE".data = 'P' :: "E".data := rfl
  have h2 : "CE".data = 'C' :: "E".data := rfl
  rw [h1, h2, List.cons_append]
  unfold matchStart
  rw [if_neg (by decide)]

/-- Membership in a range list, unpacked. -/
theorem inRanges_iff {rs : List (Nat × Nat)} {c : Char} :
    inRanges rs c = true ↔ ∃ r ∈ rs, r.1 ≤ c.toNat ∧ c.toNat ≤ r.2 := by
  simp [inRanges, List.any_eq_true, Bool.and_eq_true, decide_eq_true_eq]

/-- No character belongs to both of two separated range lists. -/
theorem inRanges_disjoint {rs ss : List (Nat × Nat)}
    (h : ∀ r ∈ rs, ∀ s ∈ ss, r.2 < s.1 ∨ s.2 < r.1) {c : Char}
    (hc : inRanges rs c = true) : inRanges ss c = false := by
  obtain ⟨r, hr, hr1, hr2⟩ := inRanges_iff.mp hc
  cases hs : inRanges ss c with
  | false => rfl
  | true =>
    exfalso
    obtain ⟨s, hsm, hs1, hs2⟩ := inRanges_iff.mp hs
    rcases h r hr s hsm with h1 | h1 <;> omega

/-- The `[A-Z]` class in code-point bounds. -/
theorem isUpper_iff {c : Char} : c.isUpper = true ↔ 65 ≤ c.toNat ∧ c.toNat ≤ 90 := by
  unfold Char.isUpper
  simp only [Bool.and_eq_true, decide_eq_true_eq, ge_iff_le]
  have e2 : c.val.toBitVec.toNat = c.toNat := rfl
  constructor
  · rintro ⟨h1, h2⟩
    rw [UInt32.le_def, BitVec.le_def] at h1 h2
    have e1 : (65 : UInt32).toBitVec.toNat = 65 := by decide
    have e3 : (90 : UInt32).toBitVec.toNat = 90 := by decide
    omega
  · rintro ⟨h1, h2⟩
    constructor
    · rw [UInt32.le_def, BitVec.le_def]
      have e1 : (65 : UInt32).toBitVec.toNat = 65 := by decide
      omega
    · rw [UInt32.le_def, BitVec.le_def]
      have e3 : (90 : UInt32).toBitVec.toNat = 90 := by decide
      omega

/-- The ASCII digit class `[0-9]` in code-point bounds. -/
theorem isDigit_iff {c : Char} : c.isDigit = true ↔ 48 ≤ c.toNat ∧ c.toNat ≤ 57 := by
  unfold Char.isDigit
  simp only [Bool.and_eq_true, decide_eq_true_eq, ge_iff_le]
  have e2 : c.val.toBitVec.toNat = c.toNat := rfl
  constructor
  · rintro ⟨h1, h2⟩
    rw [UInt32.le_def, BitVec.le_def] at h1 h2
    have e1 : (48 : UInt32).toBitVec.toNat = 48 := by decide
    have e3 : (57 : UInt32).toBitVec.toNat = 57 := by decide
    omega
  · rintro ⟨h1, h2⟩
    constructor
    · rw [UInt32.le_def, BitVec.le_def]
      have e1 : (48 : UInt32).toBitVec.toNat = 48 := by decide
      omega
    · rw [UInt32.le_def, BitVec.le_def]
      have e3 : (57 : UInt32).toBitVec.toNat = 57 := by decide
      omega

/-- ASCII digits belong to the Unicode digit class. -/
theorem isDigit_pyIsDigit {c : Char} (h : c.isDigit = true) : pyIsDigit c = true := by
  obtain ⟨h1, h2⟩ := isDigit_iff.mp h
  exact inRanges_iff.mpr ⟨(48, 57), by decide, h1, h2⟩

/-- An ASCII character in the Unicode digit class is an ASCII digit: the only
digit decade below code point 128 is 48-57. -/
theorem pyIsDigit_ascii {c : Char} (h : pyIsDigit c = true) (ha : c.toNat < 128) :
    c.isDigit = true := by
  obtain ⟨r, hr, h1, h2⟩ := inRanges_iff.mp h
  have hlow : ∀ r ∈ ND_RANGES, r.1 < 128 → r = (48, 57) := by decide
  have hre := hlow r hr (by omega)
  rw [hre] at h1 h2
  exact isDigit_iff.mpr ⟨by simpa using h1, by simpa using h2⟩

/-- Every Unicode digit has decimal value at most 9: the decades of
`ND_RANGES` span at most ten code points. -/
theorem pyDigitValue_le_nine (c : Char) : pyDigitValue c ≤ 9 := by
  unfold pyDigitValue
  cases hf : ND_RANGES.find? (fun r => r.1 ≤ c.toNat && c.toNat ≤ r.2) with
  | none => simp
  | some r =>
    have hmem := List.mem_of_find?_eq_some hf
    have hpred := List.find?_some hf
    simp only [Bool.and_eq_true, decide_eq_true_eq] at hpred
    have hspan : ∀ r ∈ ND_RANGES, r.2 ≤ r.1 + 9 := by decide
    have hs := hspan r hmem
    dsimp only
    omega

/-- Uppercase letters are not whitespace. -/
theorem upper_nonspace (c : Char) (h : c.isUpper = true) : pyIsSpace c = false := by
  obtain ⟨h1, h2⟩ := isUpper_iff.mp h
  cases hs : pyIsSpace c with
  | false => rfl
  | true =>
    exfalso
    obtain ⟨s, hsm, hb1, hb2⟩ := inRanges_iff.mp hs
    have hgap : ∀ s ∈ SPACE_RANGES, s.2 < 65 ∨ 90 < s.1 := by decide
    rcases hgap s hsm with hg | hg <;> omega

/-- Unicode digits are not whitespace: the digit decades and the whitespace
ranges are disjoint. -/
theorem digit_nonspace (c : Char) (h : pyIsDigit c = true) : pyIsSpace c = false :=
  inRanges_disjoint (by decide) h

/-- One grammar field followed by mandatory whitespace: splitting the
concatenation yields the field as first word. -/
theorem splitWs_field_step {w rest r2 : List Char} (hw : w ≠ [])
    (hwc : ∀ c ∈ w, pyIsSpace c = false) (he : eatWs1 rest = some r2) :
    splitWs (w ++ rest) = w :: splitWs r2 := by
  obtain ⟨d, ds, hrest, hd, hr2⟩ := eatWs1_some he
  subst hrest
  subst hr2
  have hds : w ++ (d :: ds) =
      w ++ (d :: ds.takeWhile pyIsSpace) ++ ds.dropWhile pyIsSpace := by
    conv_lhs => rw [← List.takeWhile_append_dropWhile pyIsSpace ds]
    simp
  rw [hds]
  refine splitWs_word_append w (d :: ds.takeWhile pyIsSpace) _ hw hwc (by simp) ?_
  intro c hc
  rcases List.mem_cons.mp hc with rfl | hc'
  · exact hd
  · exact List.mem_takeWhile_imp hc'

/-- Soundness of the embedded COMMAND_PATTERN: a successful match determines
the whitespace-split of the input and the shape of every captured group. -/
theorem COMMAND_PATTERN_sound {cs act sym k ty q : List Char}
    (h : COMMAND_PATTERN cs = some (act, sym, k, ty, q)) :
    splitWs cs = [act, sym, k, ty, q]
    ∧ (act = "BUY".data ∨ act = "SELL".data)
    ∧ (sym ≠ [] ∧ ∀ c ∈ sym, c.isUpper = true)
    ∧ ((∀ c ∈ k, pyIsDigit c = true) ∧ 4 ≤ k.length ∧ k.length ≤ 6)
    ∧ (ty = "CE".data ∨ ty = "PE".data)
    ∧ (q ≠ [] ∧ ∀ c ∈ q, pyIsDigit c = true) := by
  unfold COMMAND_PATTERN at h
  cases ha : matchAlt2 "BUY".data "SELL".data cs with
  | none => rw [ha] at h; cases h
  | some ar =>
    obtain ⟨act', r1⟩ := ar
    rw [ha] at h
    dsimp only at h
    obtain ⟨hact', hcs1⟩ := matchAlt2_sound ha
    cases he1 : eatWs1 r1 with
    | none => rw [he1] at h; cases h
    | some r2 =>
      rw [he1] at h
      dsimp only at h
      by_cases hsym : r2.takeWhile Char.isUpper = []
      · rw [if_pos hsym] at h; cases h
      · rw [if_neg hsym] at h
        cases he2 : eatWs1 (r2.dropWhile Char.isUpper) with
        | none => rw [he2] at h; cases h
        | some r4 =>
          rw [he2] at h
          dsimp only at h
          by_cases hkl : (r4.takeWhile pyIsDigit).length < 4
            ∨ 6 < (r4.takeWhile pyIsDigit).length
          · rw [if_pos hkl] at h; cases h
          · rw [if_neg hkl] at h
            cases he3 : eatWs1 (r4.dropWhile pyIsDigit) with
            | none => rw [he3] at h; cases h
            | some r6 =>
              rw [he3] at h
              dsimp only at h
              cases hty : matchAlt2 "CE".data "PE".data r6 with
              | none => rw [hty] at h; cases h
              | some tr =>
                obtain ⟨ty', r7⟩ := tr
                rw [hty] at h
                dsimp only at h
                obtain ⟨hty', hr6⟩ := matchAlt2_sound hty
                cases he4 : eatWs1 r7 with
                | none => rw [he4] at h; cases h
                | some r8 =>
                  rw [he4] at h
                  dsimp only at h
                  by_cases hq : r8.takeWhile pyIsDigit = []
                  · rw [if_pos hq] at h; cases h
                  · rw [if_neg hq] at h
                    by_cases hr9 : r8.dropWhile pyIsDigit = []
                    · rw [if_pos hr9] at h
                      simp only [Option.some.injEq, Prod.mk.injEq] at h
                      obtain ⟨rfl, rfl, rfl, rfl, rfl⟩ := h
                      have hactprops : act' ≠ [] ∧ ∀ c ∈ act', pyIsSpace c = false := by
                        rcases hact' with rfl | rfl
                        · exact ⟨by decide, by decide⟩
                        · exact ⟨by decide, by decide⟩
                      have hsymup : ∀ c ∈ r2.takeWhile Char.isUpper, c.isUpper = true :=
                        fun c hc => List.mem_takeWhile_imp hc
                      have hkdig : ∀ c ∈ r4.takeWhile pyIsDigit, pyIsDigit c = true :=
                        fun c hc => List.mem_takeWhile_imp hc
                      have hqdig : ∀ c ∈ r8.takeWhile pyIsDigit, pyIsDigit c = true :=
                        fun c hc => List.mem_takeWhile_imp hc
                      have htyprops : ty' ≠ [] ∧ ∀ c ∈ ty', pyIsSpace c = false := by
                        rcases hty' with rfl | rfl
                        · exact ⟨by decide, by decide⟩
                        · exact ⟨by decide, by decide⟩
                      refine ⟨?_, hact', ⟨hsym, hsymup⟩,
                        ⟨hkdig, by omega, by omega⟩, hty', ⟨hq, hqdig⟩⟩
                      subst hcs1
                      rw [splitWs_field_step hactprops.1 hactprops.2 he1]
                      conv_lhs =>
                        rw [← List.takeWhile_append_dropWhile Char.isUpper r2]
                      rw [splitWs_field_step hsym
                        (fun c hc => upper_nonspace c (hsymup c hc)) he2]
                      conv_lhs =>
                        rw [← List.takeWhile_append_dropWhile pyIsDigit r4]
                      rw [splitWs_field_step (by
                          intro hnil
                          rw [hnil] at hkl
                          exact hkl (by simp))
                        (fun c hc => digit_nonspace c (hkdig c hc)) he3]
                      subst hr6
                      rw [splitWs_field_step htyprops.1 htyprops.2 he4]
                      conv_lhs =>
                        rw [← List.takeWhile_append_dropWhile pyIsDigit r8]
                      rw [hr9, List.append_nil]
                      rw [splitWs_word_only _ hq
                        (fun c hc => digit_nonspace c (hqdig c hc))]
                    · rw [if_neg hr9] at h
                      cases h

/-- Soundness of the embedded SQUAREOFF_LEG_PATTERN. -/
theorem SQUAREOFF_LEG_PATTERN_sound {cs sym k ty : List Char}
    (h : SQUAREOFF_LEG_PATTERN cs = some (sym, k, ty)) :
    splitWs cs = ["SQUAREOFF".data, sym, k, ty]
    ∧ (sym ≠ [] ∧ ∀ c ∈ sym, c.isUpper = true)
    ∧ ((∀ c ∈ k, pyIsDigit c = true) ∧ 4 ≤ k.length ∧ k.length ≤ 6)
    ∧ (ty = "CE".data ∨ ty = "PE".data) := by
  unfold SQUAREOFF_LEG_PATTERN at h
  cases hs : matchStart "SQUAREOFF".data cs with
  | none => rw [hs] at h; cases h
  | some r1 =>
    rw [hs] at h
    dsimp only at h
    have hcs1 : cs = "SQUAREOFF".data ++ r1 := (matchStart_some_iff _ cs r1).mp hs
    cases he1 : eatWs1 r1 with
    | none => rw [he1] at h; cases h
    | some r2 =>
      rw [he1] at h
      dsimp only at h
      by_cases hsym : r2.takeWhile Char.isUpper = []
      · rw [if_pos hsym] at h; cases h
      · rw [if_neg hsym] at h
        cases he2 : eatWs1 (r2.dropWhile Char.isUpper) with
        | none => rw [he2] at h; cases h
        | some r4 =>
          rw [he2] at h
          dsimp only at h
          by_cases hkl : (r4.takeWhile pyIsDigit).length < 4
            ∨ 6 < (r4.takeWhile pyIsDigit).length
          · rw [if_pos hkl] at h; cases h
          · rw [if_neg hkl] at h
            cases he3 : eatWs1 (r4.dropWhile pyIsDigit) with
            | none => rw [he3] at h; cases h
            | some r6 =>
              rw [he3] at h
              dsimp only at h
              cases hty : matchAlt2 "CE".data "PE".data r6 with
              | none => rw [hty] at h; cases h
              | some tr =>
                obtain ⟨ty', r7⟩ := tr
                rw [hty] at h
                dsimp only at h
                obtain ⟨hty', hr6⟩ := matchAlt2_sound hty
                by_cases hr7 : r7 = []
                · rw [if_pos hr7] at h
                  simp only [Option.some.injEq, Prod.mk.injEq] at h
                  obtain ⟨rfl, rfl, rfl⟩ := h
                  have hsymup : ∀ c ∈ r2.takeWhile Char.isUpper, c.isUpper = true :=
                    fun c hc => List.mem_takeWhile_imp hc
                  have hkdig : ∀ c ∈ r4.takeWhile pyIsDigit, pyIsDigit c = true :=
                    fun c hc => List.mem_takeWhile_imp hc
                  have htyprops : ty' ≠ [] ∧ ∀ c ∈ ty', pyIsSpace c = false := by
                    rcases hty' with rfl | rfl
                    · exact ⟨by decide, by decide⟩
                    · exact ⟨by decide, by decide⟩
                  refine ⟨?_, ⟨hsym, hsymup⟩, ⟨hkdig, by omega, by omega⟩, hty'⟩
                  subst hcs1
                  rw [splitWs_field_step (by decide) (by decide) he1]
                  conv_lhs =>
                    rw [← List.takeWhile_append_dropWhile Char.isUpper r2]
                  rw [splitWs_field_step hsym
                    (fun c hc => upper_nonspace c (hsymup c hc)) he2]
                  conv_lhs =>
                    rw [← List.takeWhile_append_dropWhile pyIsDigit r4]
                  rw [splitWs_field_step (by
                      intro hnil
                      rw [hnil] at hkl
                      exact hkl (by simp))
                    (fun c hc => digit_nonspace c (hkdig c hc)) he3]
                  subst hr6
                  rw [hr7, List.append_nil]
                  rw [splitWs_word_only _ htyprops.1 htyprops.2]
                · rw [if_neg hr7] at h
                  cases h

/-- Completeness of the embedded COMMAND_PATTERN: a stripped string whose
whitespace-split has the five-field open-order shape is matched with exactly
those groups. -/
theorem COMMAND_PATTERN_complete {cs act sym k ty q : List Char}
    (hlead : NoLead cs) (htrail : NoTrail cs)
    (hsplit : splitWs cs = [act, sym, k, ty, q])
    (hact : act = "BUY".data ∨ act = "SELL".data)
    (hsym : sym ≠ []) (hsymup : ∀ c ∈ sym, c.isUpper = true)
    (hkdig : ∀ c ∈ k, pyIsDigit c = true) (hk4 : 4 ≤ k.length) (hk6 : k.length ≤ 6)
    (hty : ty = "CE".data ∨ ty = "PE".data)
    (hq : q ≠ []) (hqdig : ∀ c ∈ q, pyIsDigit c = true) :
    COMMAND_PATTERN cs = some (act, sym, k, ty, q) := by
  have hactns : ∀ c ∈ act, (fun c => !pyIsSpace c) c = true := by
    rcases hact with rfl | rfl <;> decide
  obtain ⟨htakeA, _, hcontA⟩ :=
    peel_word (p := fun c => !pyIsSpace c) (by intro c hc; simpa using hc)
      hlead htrail hsplit hactns
  obtain ⟨d1, ds1, hdropA, hd1, hlead1, htrail1, hsplit1⟩ := hcontA (by simp)
  have hcsA : cs = act ++ cs.dropWhile (fun c => !pyIsSpace c) := by
    conv_lhs => rw [← List.takeWhile_append_dropWhile (fun c => !pyIsSpace c) cs]
    rw [htakeA]
  have hma : matchAlt2 "BUY".data "SELL".data cs =
      some (act, cs.dropWhile (fun c => !pyIsSpace c)) := by
    rcases hact with rfl | rfl
    · exact matchAlt2_left hcsA
    · exact matchAlt2_right (by rw [hcsA]; exact matchStart_BUY_of_SELL _) hcsA
  have he1 : eatWs1 (cs.dropWhile (fun c => !pyIsSpace c)) =
      some (ds1.dropWhile pyIsSpace) := by
    rw [hdropA]; exact eatWs1_cons_space hd1
  obtain ⟨htakeB, _, hcontB⟩ :=
    peel_word (p := Char.isUpper) upper_nonspace hlead1 htrail1 hsplit1 hsymup
  obtain ⟨d2, ds2, hdropB, hd2, hlead2, htrail2, hsplit2⟩ := hcontB (by simp)
  have he2 : eatWs1 ((ds1.dropWhile pyIsSpace).dropWhile Char.isUpper) =
      some (ds2.dropWhile pyIsSpace) := by
    rw [hdropB]; exact eatWs1_cons_space hd2
  obtain ⟨htakeC, _, hcontC⟩ :=
    peel_word (p := pyIsDigit) digit_nonspace hlead2 htrail2 hsplit2 hkdig
  obtain ⟨d3, ds3, hdropC, hd3, hlead3, htrail3, hsplit3⟩ := hcontC (by simp)
  have he3 : eatWs1 ((ds2.dropWhile pyIsSpace).dropWhile pyIsDigit) =
      some (ds3.dropWhile pyIsSpace) := by
    rw [hdropC]; exact eatWs1_cons_space hd3
  have htyns : ∀ c ∈ ty, (fun c => !pyIsSpace c) c = true := by
    rcases hty with rfl | rfl <;> decide
  obtain ⟨htakeD, _, hcontD⟩ :=
    peel_word (p := fun c => !pyIsSpace c) (by intro c hc; simpa using hc)
      hlead3 htrail3 hsplit3 htyns
  obtain ⟨d4, ds4, hdropD, hd4, hlead4, htrail4, hsplit4⟩ := hcontD (by simp)
  have hcsD : ds3.dropWhile pyIsSpace =
      ty ++ (ds3.dropWhile pyIsSpace).dropWhile (fun c => !pyIsSpace c) := by
    conv_lhs =>
      rw [← List.takeWhile_append_dropWhile (fun c => !pyIsSpace c)
        (ds3.dropWhile pyIsSpace)]
    rw [htakeD]
  have hmty : matchAlt2 "CE".data "PE".data (ds3.dropWhile pyIsSpace) =
      some (ty, (ds3.dropWhile pyIsSpace).dropWhile (fun c => !pyIsSpace c)) := by
    rcases hty with rfl | rfl
    · exact matchAlt2_left hcsD
    · exact matchAlt2_right (by rw [hcsD]; exact matchStart_CE_of_PE _) hcsD
  have he4 : eatWs1 ((ds3.dropWhile pyIsSpace).dropWhile (fun c => !pyIsSpace c)) =
      some (ds4.dropWhile pyIsSpace) := by
    rw [hdropD]; exact eatWs1_cons_space hd4
  obtain ⟨htakeE, hendE, _⟩ :=
    peel_word (p := pyIsDigit) digit_nonspace hlead4 htrail4 hsplit4 hqdig
  have hdropE : (ds4.dropWhile pyIsSpace).dropWhile pyIsDigit = [] := hendE rfl
  unfold COMMAND_PATTERN
  rw [hma]
  dsimp only
  rw [he1]
  dsimp only
  rw [htakeB, if_neg hsym, he2]
  dsimp only
  rw [htakeC, if_neg (by omega), he3]
  dsimp only
  rw [hmty]
  dsimp only
  rw [he4]
  dsimp only
  rw [htakeE, if_neg hq, hdropE, if_pos rfl]

/-- Completeness of the embedded SQUAREOFF_LEG_PATTERN. -/
theorem SQUAREOFF_LEG_PATTERN_complete {cs sym k ty : List Char}
    (hlead : NoLead cs) (htrail : NoTrail cs)
    (hsplit : splitWs cs = ["SQUAREOFF".data, sym, k, ty])
    (hsym : sym ≠ []) (hsymup : ∀ c ∈ sym, c.isUpper = true)
    (hkdig : ∀ c ∈ k, pyIsDigit c = true) (hk4 : 4 ≤ k.length) (hk6 : k.length ≤ 6)
    (hty : ty = "CE".data ∨ ty = "PE".data) :
    SQUAREOFF_LEG_PATTERN cs = some (sym, k, ty) := by
  obtain ⟨htakeA, _, hcontA⟩ :=
    peel_word (p := fun c => !pyIsSpace c) (by intro c hc; simpa using hc)
      hlead htrail hsplit (by decide)
  obtain ⟨d1, ds1, hdropA, hd1, hlead1, htrail1, hsplit1⟩ := hcontA (by simp)
  have hcsA : cs = "SQUAREOFF".data ++ cs.dropWhile (fun c => !pyIsSpace c) := by
    conv_lhs => rw [← List.takeWhile_append_dropWhile (fun c => !pyIsSpace c) cs]
    rw [htakeA]
  have hms : matchStart "SQUAREOFF".data cs =
      some (cs.dropWhile (fun c => !pyIsSpace c)) :=
    (matchStart_some_iff _ cs _).mpr hcsA
  have he1 : eatWs1 (cs.dropWhile (fun c => !pyIsSpace c)) =
      some (ds1.dropWhile pyIsSpace) := by
    rw [hdropA]; exact eatWs1_cons_space hd1
  obtain ⟨htakeB, _, hcontB⟩ :=
    peel_word (p := Char.isUpper) upper_nonspace hlead1 htrail1 hsplit1 hsymup
  obtain ⟨d2, ds2, hdropB, hd2, hlead2, htrail2, hsplit2⟩ := hcontB (by simp)
  have he2 : eatWs1 ((ds1.dropWhile pyIsSpace).dropWhile Char.isUpper) =
      some (ds2.dropWhile pyIsSpace) := by
    rw [hdropB]; exact eatWs1_cons_space hd2
  obtain ⟨htakeC, _, hcontC⟩ :=
    peel_word (p := pyIsDigit) digit_nonspace hlead2 htrail2 hsplit2 hkdig
  obtain ⟨d3, ds3, hdropC, hd3, hlead3, htrail3, hsplit3⟩ := hcontC (by simp)
  have he3 : eatWs1 ((ds2.dropWhile pyIsSpace).dropWhile pyIsDigit) =
      some (ds3.dropWhile pyIsSpace) := by
    rw [hdropC]; exact eatWs1_cons_space hd3
  have htyns : ∀ c ∈ ty, (fun c => !pyIsSpace c) c = true := by
    rcases hty with rfl | rfl <;> decide
  obtain ⟨htakeD, hendD, _⟩ :=
    peel_word (p := fun c => !pyIsSpace c) (by intro c hc; simpa using hc)
      hlead3 htrail3 hsplit3 htyns
  have hdropD : (ds3.dropWhile pyIsSpace).dropWhile (fun c => !pyIsSpace c) = [] :=
    hendD rfl
  have hcsD : ds3.dropWhile pyIsSpace = ty ++ [] := by
    conv_lhs =>
      rw [← List.takeWhile_append_dropWhile (fun c => !pyIsSpace c)
        (ds3.dropWhile pyIsSpace)]
    rw [htakeD, hdropD]
  have hmty : matchAlt2 "CE".data "PE".data (ds3.dropWhile pyIsSpace) =
      some (ty, []) := by
    rcases hty with rfl | rfl
    · exact matchAlt2_left hcsD
    · exact matchAlt2_right (by rw [hcsD]; exact matchStart_CE_of_PE _) hcsD
  unfold SQUAREOFF_LEG_PATTERN
  rw [hms]
  dsimp only
  rw [he1]
  dsimp only
  rw [htakeB, if_neg hsym, he2]
  dsimp only
  rw [htakeC, if_neg (by omega), he3]
  dsimp only
  rw [hmty]
  dsimp only
  rw [if_pos rfl]

/-- A stripped string with a single word is that word. -/
theorem splitWs_singleton {cs t : List Char} (hlead : NoLead cs) (htrail : NoTrail cs)
    (h : splitWs cs = [t]) : cs = t := by
  have hmem : t ∈ splitWs cs := by rw [h]; simp
  have hprops := splitWs_token_props hmem
  obtain ⟨htake, hend, _⟩ :=
    peel_word (p := fun c => !pyIsSpace c) (by intro c hc; simpa using hc)
      hlead htrail h (by intro c hc; simpa using hprops.2 c hc)
  conv_lhs => rw [← List.takeWhile_append_dropWhile (fun c => !pyIsSpace c) cs]
  rw [htake, hend rfl, List.append_nil]

/-- A valid symbol token is a nonempty run of uppercase letters. -/
theorem symbolTok_shape {sym : List Char} (h : isSymbolTok sym) :
    sym ≠ [] ∧ ∀ c ∈ sym, c.isUpper = true := by
  unfold isSymbolTok VALID_SYMBOLS at h
  simp only [List.mem_cons, List.not_mem_nil, or_false] at h
  rcases h with h | h | h | h | h
  · rw [show sym = "NIFTY".data from congrArg String.data h]
    exact ⟨by decide, by decide⟩
  · rw [show sym = "BANKNIFTY".data from congrArg String.data h]
    exact ⟨by decide, by decide⟩
  · rw [show sym = "FINNIFTY".data from congrArg String.data h]
    exact ⟨by decide, by decide⟩
  · rw [show sym = "MIDCPNIFTY".data from congrArg String.data h]
    exact ⟨by decide, by decide⟩
  · rw [show sym = "SENSEX".data from congrArg String.data h]
    exact ⟨by decide, by decide⟩

/-- Every character of a word produced by the splitting accumulator comes from
the remaining input or the accumulator. -/
theorem splitWsAux_mem_subset (cs : List Char) :
    ∀ (acc : List Char), ∀ t ∈ splitWsAux cs acc, ∀ c ∈ t, c ∈ cs ∨ c ∈ acc := by
  induction cs with
  | nil =>
    intro acc t ht c hc
    unfold splitWsAux at ht
    by_cases h : acc = []
    · rw [if_pos h] at ht; cases ht
    · rw [if_neg h] at ht
      simp only [List.mem_singleton] at ht
      subst ht
      exact Or.inr (List.mem_reverse.mp hc)
  | cons a cs' ih =>
    intro acc t ht c hc
    by_cases ha : pyIsSpace a = true
    · unfold splitWsAux at ht
      rw [if_pos ha] at ht
      by_cases h : acc = []
      · rw [if_pos h] at ht
        rcases ih [] t ht c hc with h1 | h1
        · exact Or.inl (List.mem_cons_of_mem _ h1)
        · cases h1
      · rw [if_neg h] at ht
        rcases List.mem_cons.mp ht with rfl | ht'
        · exact Or.inr (List.mem_reverse.mp hc)
        · rcases ih [] t ht' c hc with h1 | h1
          · exact Or.inl (List.mem_cons_of_mem _ h1)
          · cases h1
    · unfold splitWsAux at ht
      rw [if_neg ha] at ht
      rcases ih (a :: acc) t ht c hc with h1 | h1
      · exact Or.inl (List.mem_cons_of_mem _ h1)
      · rcases List.mem_cons.mp h1 with rfl | h2
        · exact Or.inl (List.mem_cons_self _ _)
        · exact Or.inr h2

/-- Characters of split words come from the input. -/
theorem splitWs_token_subset {cs t : List Char} (ht : t ∈ splitWs cs) :
    ∀ c ∈ t, c ∈ cs := by
  intro c hc
  rcases splitWsAux_mem_subset cs [] t ht c hc with h | h
  · exact h
  · cases h

/-- Core refinement: on a stripped uppercased ASCII string, the orchestrator's
intent recognition (STATUS literal first, then `parse_core`) agrees with the
specification grammar applied to the whitespace-separated fields.  The ASCII
hypothesis is essential: on Unicode digits the matchers accept strings the
grammar rejects. -/
theorem dispatch_core_eq {cs : List Char} (hlead : NoLead cs) (htrail : NoTrail cs)
    (hascii : ∀ c ∈ cs, c.toNat < 128) :
    (if cs = "STATUS".data then some TradeIntent.statusQuery else parse_core cs) =
      tokIntent (splitWs cs) := by
  by_cases hst : cs = "STATUS".data
  · subst hst
    rw [if_pos rfl]
    decide
  · rw [if_neg hst]
    by_cases hsq : cs = "SQUAREOFF".data
    · subst hsq
      decide
    · unfold parse_core
      rw [if_neg hsq]
      cases hsw : splitWs cs with
      | nil =>
        have hnil : cs = [] := by
          have hall := (splitWs_eq_nil_iff cs).mp hsw
          cases cs with
          | nil => rfl
          | cons c cs0 =>
            have hl := hlead c cs0 rfl
            rw [hall c (by simp)] at hl
            cases hl
        subst hnil
        decide
      | cons t1 rest1 =>
        cases rest1 with
        | nil =>
          have hcst : cs = t1 := splitWs_singleton hlead htrail hsw
          subst hcst
          cases hleg : SQUAREOFF_LEG_PATTERN cs with
          | some g =>
            obtain ⟨sym, k, ty⟩ := g
            have h1 := (SQUAREOFF_LEG_PATTERN_sound hleg).1
            rw [hsw] at h1
            simp at h1
          | none =>
            cases hcmd : COMMAND_PATTERN cs with
            | some g =>
              obtain ⟨a, sym, k, ty, q⟩ := g
              have h1 := (COMMAND_PATTERN_sound hcmd).1
              rw [hsw] at h1
              simp at h1
            | none =>
              simp only [tokIntent]
              rw [if_neg hsq, if_neg hst]
        | cons t2 rest2 =>
          cases rest2 with
          | nil =>
            cases hleg : SQUAREOFF_LEG_PATTERN cs with
            | some g =>
              obtain ⟨sym, k, ty⟩ := g
              have h1 := (SQUAREOFF_LEG_PATTERN_sound hleg).1
              rw [hsw] at h1
              simp at h1
            | none =>
              cases hcmd : COMMAND_PATTERN cs with
              | some g =>
                obtain ⟨a, sym, k, ty, q⟩ := g
                have h1 := (COMMAND_PATTERN_sound hcmd).1
                rw [hsw] at h1
                simp at h1
              | none => rfl
          | cons t3 rest3 =>
            cases rest3 with
            | nil =>
              cases hleg : SQUAREOFF_LEG_PATTERN cs with
              | some g =>
                obtain ⟨sym, k, ty⟩ := g
                have h1 := (SQUAREOFF_LEG_PATTERN_sound hleg).1
                rw [hsw] at h1
                simp at h1
              | none =>
                cases hcmd : COMMAND_PATTERN cs with
                | some g =>
                  obtain ⟨a, sym, k, ty, q⟩ := g
                  have h1 := (COMMAND_PATTERN_sound hcmd).1
                  rw [hsw] at h1
                  simp at h1
                | none => rfl
            | cons t4 rest4 =>
              cases rest4 with
              | nil =>
                by_cases hc : t1 = "SQUAREOFF".data ∧ isSymbolTok t2
                    ∧ isStrikeTok t3 ∧ isOptionTok t4
                · obtain ⟨rfl, hsymv, hkv, htyv⟩ := hc
                  have hshape := symbolTok_shape hsymv
                  have hleg := SQUAREOFF_LEG_PATTERN_complete hlead htrail hsw
                    hshape.1 hshape.2 (fun c hcm => isDigit_pyIsDigit (hkv.1 c hcm))
                    hkv.2.1 hkv.2.2 htyv
                  rw [hleg]
                  dsimp only
                  have hsymm : String.mk t2 ∈ VALID_SYMBOLS := hsymv
                  rw [if_pos hsymm]
                  simp only [tokIntent]
                  have hcond : True ∧ isSymbolTok t2 ∧ isStrikeTok t3 ∧ isOptionTok t4 :=
                    ⟨trivial, hsymv, hkv, htyv⟩
                  rw [if_pos hcond]
                · cases hleg : SQUAREOFF_LEG_PATTERN cs with
                  | some g =>
                    obtain ⟨sym, k, ty⟩ := g
                    have hs := SQUAREOFF_LEG_PATTERN_sound hleg
                    have h1 := hs.1
                    rw [hsw] at h1
                    obtain ⟨rfl, rfl, rfl, rfl⟩ :
                        t1 = "SQUAREOFF".data ∧ t2 = sym ∧ t3 = k ∧ t4 = ty := by
                      simpa using h1
                    dsimp only
                    have ht3m : t3 ∈ splitWs cs := by rw [hsw]; simp
                    have hkA : ∀ c ∈ t3, c.isDigit = true := fun c hcm =>
                      pyIsDigit_ascii (hs.2.2.1.1 c hcm)
                        (hascii c (splitWs_token_subset ht3m c hcm))
                    have hns : ¬ isSymbolTok t2 := by
                      intro hsv
                      exact hc ⟨rfl, hsv, ⟨hkA, hs.2.2.1.2.1, hs.2.2.1.2.2⟩, hs.2.2.2⟩
                    have hnsm : ¬ String.mk t2 ∈ VALID_SYMBOLS := hns
                    rw [if_neg hnsm]
                    simp only [tokIntent]
                    have hc2 : ¬(True ∧ isSymbolTok t2 ∧ isStrikeTok t3 ∧ isOptionTok t4) :=
                      fun hx => hc ⟨rfl, hx.2.1, hx.2.2.1, hx.2.2.2⟩
                    rw [if_neg hc2]
                  | none =>
                    cases hcmd : COMMAND_PATTERN cs with
                    | some g =>
                      obtain ⟨a, sym, k, ty, q⟩ := g
                      have h1 := (COMMAND_PATTERN_sound hcmd).1
                      rw [hsw] at h1
                      simp at h1
                    | none =>
                      simp only [tokIntent]
                      rw [if_neg hc]
              | cons t5 rest5 =>
                cases rest5 with
                | nil =>
                  by_cases hc : (t1 = "BUY".data ∨ t1 = "SELL".data) ∧ isSymbolTok t2
                      ∧ isStrikeTok t3 ∧ isOptionTok t4 ∧ t5 ≠ []
                      ∧ (∀ c ∈ t5, c.isDigit)
                  · obtain ⟨hact, hsymv, hkv, htyv, hqne, hqdig⟩ := hc
                    have hshape := symbolTok_shape hsymv
                    have hcmd := COMMAND_PATTERN_complete hlead htrail hsw hact
                      hshape.1 hshape.2 (fun c hcm => isDigit_pyIsDigit (hkv.1 c hcm))
                      hkv.2.1 hkv.2.2 htyv hqne
                      (fun c hcm => isDigit_pyIsDigit (hqdig c hcm))
                    cases hleg : SQUAREOFF_LEG_PATTERN cs with
                    | some g =>
                      obtain ⟨sym, k, ty⟩ := g
                      have h1 := (SQUAREOFF_LEG_PATTERN_sound hleg).1
                      rw [hsw] at h1
                      simp at h1
                    | none =>
                      rw [hcmd]
                      dsimp only
                      have hsymm : String.mk t2 ∈ VALID_SYMBOLS := hsymv
                      rw [if_pos hsymm]
                      simp only [tokIntent]
                      rw [if_pos ⟨hact, hsymv, hkv, htyv, hqne, hqdig⟩]
                  · cases hleg : SQUAREOFF_LEG_PATTERN cs with
                    | some g =>
                      obtain ⟨sym, k, ty⟩ := g
                      have h1 := (SQUAREOFF_LEG_PATTERN_sound hleg).1
                      rw [hsw] at h1
                      simp at h1
                    | none =>
                      cases hcmd : COMMAND_PATTERN cs with
                      | some g =>
                        obtain ⟨a, sym, k, ty, q⟩ := g
                        have hs := COMMAND_PATTERN_sound hcmd
                        have h1 := hs.1
                        rw [hsw] at h1
                        obtain ⟨rfl, rfl, rfl, rfl, rfl⟩ :
                            t1 = a ∧ t2 = sym ∧ t3 = k ∧ t4 = ty ∧ t5 = q := by
                          simpa using h1
                        dsimp only
                        have ht3m : t3 ∈ splitWs cs := by rw [hsw]; simp
                        have ht5m : t5 ∈ splitWs cs := by rw [hsw]; simp
                        have hkA : ∀ c ∈ t3, c.isDigit = true := fun c hcm =>
                          pyIsDigit_ascii (hs.2.2.2.1.1 c hcm)
                            (hascii c (splitWs_token_subset ht3m c hcm))
                        have hqA : ∀ c ∈ t5, c.isDigit = true := fun c hcm =>
                          pyIsDigit_ascii (hs.2.2.2.2.2.2 c hcm)
                            (hascii c (splitWs_token_subset ht5m c hcm))
                        have hns : ¬ isSymbolTok t2 := by
                          intro hsv
                          exact hc ⟨hs.2.1, hsv, ⟨hkA, hs.2.2.2.1.2.1, hs.2.2.2.1.2.2⟩,
                            hs.2.2.2.2.1, hs.2.2.2.2.2.1, hqA⟩
                        have hnsm : ¬ String.mk t2 ∈ VALID_SYMBOLS := hns
                        rw [if_neg hnsm]
                        simp only [tokIntent]
                        rw [if_neg hc]
                      | none =>
                        simp only [tokIntent]
                        rw [if_neg hc]
                | cons t6 rest6 =>
                  cases hleg : SQUAREOFF_LEG_PATTERN cs with
                  | some g =>
                    obtain ⟨sym, k, ty⟩ := g
                    have h1 := (SQUAREOFF_LEG_PATTERN_sound hleg).1
                    rw [hsw] at h1
                    simp at h1
                  | none =>
                    cases hcmd : COMMAND_PATTERN cs with
                    | some g =>
                      obtain ⟨a, sym, k, ty, q⟩ := g
                      have h1 := (COMMAND_PATTERN_sound hcmd).1
                      rw [hsw] at h1
                      simp at h1
                    | none => rfl

set_option maxRecDepth 4000 in
/-- Counterexample to C2 as stated: Python's `\d` accepts any Unicode decimal
digit and `int()` converts it, so the parser accepts an Arabic-Indic strike —
`BUY NIFTY \u0662\u0664\u0660\u0660\u0660 CE 50` parses to an open-order
intent with strike 24000 — while the §4.1 grammar, whose STRIKE field is 4-6
ASCII digits, matches no rule on that input, so the claimed agreement on every
input string fails. -/
theorem c2_unicode_digit_counterexample :
    recognize_command "BUY NIFTY ٢٤٠٠٠ CE 50" =
      some (.openOrder "BUY" "NIFTY" 24000 "CE" 50)
    ∧ grammar_parse "BUY NIFTY ٢٤٠٠٠ CE 50" = none := by
  constructor <;> decide

/-- C2 as amended: on every ASCII input string the parser agrees with the §4.1
grammar — every ASCII string matching a grammar rule (after trimming and
upper-casing) yields the intent with exactly the matched fields, and every
other ASCII string, including a structurally well-formed SQUAREOFF leg or
BUY/SELL command with a symbol outside the valid set, yields no intent; the
four spec examples behave as stated.  (On non-ASCII input the agreement fails:
the code accepts Unicode-digit strike and quantity fields the grammar
rejects.) -/
theorem c2_parse_grammar_agreement_ascii :
    (∀ s : String, (∀ c ∈ s.data, c.toNat < 128) →
        recognize_command s = grammar_parse s)
    ∧ recognize_command "BUY NIFTY 24000 CE 50" =
        some (.openOrder "BUY" "NIFTY" 24000 "CE" 50)
    ∧ recognize_command "SQUAREOFF" = some .squareoffAll
    ∧ recognize_command "SQUAREOFF NIFTY 24000 CE" =
        some (.squareoffLeg "NIFTY" 24000 "CE")
    ∧ recognize_command "SQUAREOFF XYZ 24000 CE" = none := by
  refine ⟨?_, by decide, by decide, by decide, by decide⟩
  intro s hs
  unfold recognize_command parse_command grammar_parse
  dsimp only
  rw [pyNormalize_idem_ascii hs]
  have hmain := dispatch_core_eq (noLead_pyNormalize_ascii hs)
    (noTrail_pyNormalize_ascii hs) (ascii_pyNormalize hs)
  by_cases h : pyNormalize s.data = "STATUS".data
  · rw [if_pos (by rw [h])]
    rw [if_pos h] at hmain
    exact hmain
  · have hcnd : ¬ (String.mk (pyNormalize s.data) = "STATUS") :=
      fun hX => h (congrArg String.data hX)
    rw [if_neg hcnd]
    rw [if_neg h] at hmain
    exact hmain

/-- Witness for the amended C2 at a concrete ASCII command string. -/
theorem c2_parse_grammar_agreement_ascii_witness :
    recognize_command "SELL FINNIFTY 21000 PE 10" =
      grammar_parse "SELL FINNIFTY 21000 PE 10" :=
  c2_parse_grammar_agreement_ascii.1 "SELL FINNIFTY 21000 PE 10" (by decide)

/-- Digit strings denote values below `10 ^ length` (accumulator form):
every Unicode digit contributes a value of at most 9. -/
theorem natOfDigits_foldl_lt (cs : List Char) :
    ∀ a : Nat, cs.foldl (fun n c => 10 * n + pyDigitValue c) a < (a + 1) * 10 ^ cs.length := by
  induction cs with
  | nil =>
    intro a
    simp only [List.foldl_nil, List.length_nil, pow_zero, mul_one]
    omega
  | cons c cs' ih =>
    intro a
    have hd : pyDigitValue c ≤ 9 := pyDigitValue_le_nine c
    have hstep := ih (10 * a + pyDigitValue c)
    simp only [List.foldl_cons, List.length_cons]
    calc cs'.foldl (fun n c => 10 * n + pyDigitValue c) (10 * a + pyDigitValue c)
        < (10 * a + pyDigitValue c + 1) * 10 ^ cs'.length := hstep
      _ ≤ (10 * (a + 1)) * 10 ^ cs'.length := by
          exact Nat.mul_le_mul_right _ (by omega)
      _ = (a + 1) * 10 ^ (cs'.length + 1) := by ring

/-- Digit strings denote values below `10 ^ length`. -/
theorem natOfDigits_lt (cs : List Char) : natOfDigits cs < 10 ^ cs.length := by
  have hb := natOfDigits_foldl_lt cs 0
  simp only [Nat.zero_add, Nat.one_mul] at hb
  exact hb

/-- Counterexample to C8 as stated: the parser accepts a zero quantity
(`\d+` matches `0`) and a zero strike (`\d{4,6}` matches `0000`), returning
open-order intents with qty 0 and strike 0 — positivity of these fields is not
an invariant of the parser (the risk gate, not the parser, rejects
non-positive quantities). -/
theorem c8_zero_fields_counterexample :
    recognize_command "BUY NIFTY 24000 CE 0" =
      some (.openOrder "BUY" "NIFTY" 24000 "CE" 0)
    ∧ recognize_command "SELL NIFTY 0000 PE 5" =
      some (.openOrder "SELL" "NIFTY" 0 "PE" 5) := by
  constructor <;> decide

/-- C8 as amended: every intent returned by parse satisfies the structural
invariants the grammar actually guarantees — an OpenOrder's or SquareoffLeg's
strike is parsed from a 4-6 digit token and is therefore below 1,000,000 (and
a quantity token is one or more digits); zero values are possible, so
positivity is not guaranteed by the parser. -/
theorem c8_strike_bound :
    ∀ (s : String),
      (∀ a sym k ty q, recognize_command s = some (.openOrder a sym k ty q) →
        k < 1000000)
      ∧ (∀ sym k ty, recognize_command s = some (.squareoffLeg sym k ty) →
        k < 1000000) := by
  intro s
  have hsplit : ∀ (i : TradeIntent), recognize_command s = some i →
      (∀ a sym k ty q, i = .openOrder a sym k ty q → k < 1000000)
      ∧ (∀ sym k ty, i = .squareoffLeg sym k ty → k < 1000000) := by
    intro i h
    unfold recognize_command parse_command at h
    dsimp only at h
    by_cases hst : String.mk (pyNormalize s.data) = "STATUS"
    · rw [if_pos hst] at h
      cases h
      exact ⟨fun _ _ _ _ _ hx => (nomatch hx), fun _ _ _ hx => (nomatch hx)⟩
    · rw [if_neg hst] at h
      unfold parse_core at h
      by_cases hsq : pyNormalize (pyNormalize s.data) = "SQUAREOFF".data
      · rw [if_pos hsq] at h
        cases h
        exact ⟨fun _ _ _ _ _ hx => (nomatch hx), fun _ _ _ hx => (nomatch hx)⟩
      · rw [if_neg hsq] at h
        cases hleg : SQUAREOFF_LEG_PATTERN (pyNormalize (pyNormalize s.data)) with
        | some g =>
          rw [hleg] at h
          obtain ⟨sym', k', ty'⟩ := g
          dsimp only at h
          by_cases hv : String.mk sym' ∈ VALID_SYMBOLS
          · rw [if_pos hv] at h
            cases h
            have hs := SQUAREOFF_LEG_PATTERN_sound hleg
            have hklen := hs.2.2.1
            refine ⟨fun _ _ _ _ _ hx => (nomatch hx), ?_⟩
            intro sym k ty hx
            cases hx
            calc natOfDigits k' < 10 ^ k'.length := natOfDigits_lt k'
              _ ≤ 10 ^ 6 := Nat.pow_le_pow_right (by omega) hklen.2.2
              _ = 1000000 := by norm_num
          · rw [if_neg hv] at h
            cases h
        | none =>
          rw [hleg] at h
          cases hcmd : COMMAND_PATTERN (pyNormalize (pyNormalize s.data)) with
          | none => rw [hcmd] at h; cases h
          | some g =>
            rw [hcmd] at h
            obtain ⟨a', sym', k', ty', q'⟩ := g
            dsimp only at h
            by_cases hv : String.mk sym' ∈ VALID_SYMBOLS
            · rw [if_pos hv] at h
              cases h
              have hs := COMMAND_PATTERN_sound hcmd
              have hklen := hs.2.2.2.1
              refine ⟨?_, fun _ _ _ hx => (nomatch hx)⟩
              intro a sym k ty q hx
              cases hx
              calc natOfDigits k' < 10 ^ k'.length := natOfDigits_lt k'
                _ ≤ 10 ^ 6 := Nat.pow_le_pow_right (by omega) hklen.2.2
                _ = 1000000 := by norm_num
            · rw [if_neg hv] at h
              cases h
  constructor
  · intro a sym k ty q h
    exact (hsplit _ h).1 a sym k ty q rfl
  · intro sym k ty h
    exact (hsplit _ h).2 sym k ty rfl

/-- Witness for the amended C8 at concrete parsed intents. -/
theorem c8_strike_bound_witness : (24000 : Nat) < 1000000 ∧ (52000 : Nat) < 1000000 :=
  ⟨(c8_strike_bound "BUY NIFTY 24000 CE 50").1 "BUY" "NIFTY" 24000 "CE" 50 (by decide),
   (c8_strike_bound "SQUAREOFF BANKNIFTY 52000 PE").2 "BANKNIFTY" 52000 "PE" (by decide)⟩
